import Mathlib

/-!
# GodComplex / ImageUtilityLib : the color-profile engine

A shallow embedding of `Packages/ImageUtilityLib/ColorProfile.h` and of the functions
`ConvertFrom`, `GetFileTypeFromFileNameOnly`, `PixelFormat2BPP`, `PixelFormat2FIT`,
`UseFreeImage` and `UnUseFreeImage` of `Packages/ImageUtilityLib/ImageFile.cpp`.

Conventions of the embedding.

* A C++ `float` is modelled by a rational number (exact arithmetic): a decimal
  literal of the source denotes its decimal value, `fabs` is the absolute value
  and no rounding takes place. The constants `GAMMA_EXPONENT_*`, defined outside
  the files at hand, have their decimal values; the build is also given with these
  constants as a parameter (`GammaExponents`), for what is decided by the binary32
  numbers a compiler stores for them.
* `float2`, `float3`, `float4`, `float4x4` are declared outside the files at hand
  (`Types.h`); they are modelled as plain records of their components, a
  `float4x4` being its four rows `r[0] .. r[3]`.
* A method that mutates the object is a function from the object's state before
  the call to its state after the call.
* Unsigned machine integers (`size_t`, `U32`) are natural numbers taken modulo
  2^64 and 2^32 where the source increments or decrements them.
-/

namespace ImageUtilityLib

/-- The C++ type `float`, in the exact arithmetic model. -/
abbrev float := ℚ

/-- The vector type `float2` (two components `x`, `y`). -/
structure float2 where
  x : float
  y : float
deriving DecidableEq, Repr

/-- Modelled from the spec: `float2::Almost` is declared outside the files at hand.
The spec (3, 4.1) says two sets match when they agree "within epsilon" on every
scalar coordinate, the comparison being `|difference| < epsilon` (3, gamma
descriptor; `EnsureGamma` in the source compares the same way). -/
def float2.Almost (a b : float2) (eps : float) : Bool :=
  decide (|a.x - b.x| < eps) && decide (|a.y - b.y| < eps)

/-- The enumeration `ColorProfile::STANDARD_PROFILE`. -/
inductive STANDARD_PROFILE where
  | INVALID
  | CUSTOM
  | LINEAR
  | sRGB
  | ADOBE_RGB_D50
  | ADOBE_RGB_D65
  | PRO_PHOTO
  | RADIANCE
deriving DecidableEq, Repr

/-- The enumeration `ColorProfile::GAMMA_CURVE`. -/
inductive GAMMA_CURVE where
  | STANDARD
  | sRGB
  | PRO_PHOTO
deriving DecidableEq, Repr

/-- Modelled from the spec: `ColorProfile::ILLUMINANT_D50` is defined outside the
files at hand; the header names it "Daylight, Horizon" and the value is the published
D50 white point, to the four digits the spec uses for D65. -/
def ILLUMINANT_D50 : float2 := ⟨0.3457, 0.3585⟩

/-- Modelled from the spec: `ColorProfile::ILLUMINANT_D65` is defined outside the
files at hand; the spec (8) gives the sRGB white point as (0.3127, 0.3290). -/
def ILLUMINANT_D65 : float2 := ⟨0.3127, 0.3290⟩

/-- Modelled from the spec: `ColorProfile::ILLUMINANT_E` is defined outside the
files at hand; the header names it "Reference", the equal-energy white point. -/
def ILLUMINANT_E : float2 := ⟨1 / 3, 1 / 3⟩

/-- The constant `GAMMA_EXPONENT_sRGB`. The header declares it (ColorProfile.h, line 57) and
gives its value in a comment, `2.4f`; its definition is outside the files at hand. Here it
is the decimal value 2.4; the compiled constant is the binary32 number nearest to it
(`binary32Exponents`), and what depends on the difference is stated over `GammaExponents`. -/
def GAMMA_EXPONENT_sRGB : float := 2.4

/-- The constant `GAMMA_EXPONENT_ADOBE` (ColorProfile.h, line 58), whose value the header
gives as `2.19921875f`, a binary32 number. -/
def GAMMA_EXPONENT_ADOBE : float := 2.19921875

/-- The constant `GAMMA_EXPONENT_PRO_PHOTO` (ColorProfile.h, line 59), whose value the header
gives as `1.8f`; the decimal value, as for `GAMMA_EXPONENT_sRGB`. -/
def GAMMA_EXPONENT_PRO_PHOTO : float := 1.8

/-- The values of the three constants `GAMMA_EXPONENT_sRGB`, `GAMMA_EXPONENT_ADOBE` and
`GAMMA_EXPONENT_PRO_PHOTO`, as a parameter: the header declares the constants
(ColorProfile.h, lines 57-59) and their definitions are outside the files at hand. -/
structure GammaExponents where
  sRGB : float
  ADOBE : float
  PRO_PHOTO : float
deriving DecidableEq, Repr

/-- The record `ColorProfile::Chromaticities`: red, green, blue and white point. -/
structure Chromaticities where
  R : float2
  G : float2
  B : float2
  W : float2
deriving DecidableEq, Repr

namespace Chromaticities

/-- Modelled from the spec: the constant `Chromaticities::Empty` is defined outside the
files at hand (the header declares it, and the constructor `Chromaticities() {}` it is
built with assigns nothing); the spec (3, 6) calls the default profile "identity, invalid"
and an all-zero set INVALID: all coordinates are zero. -/
def Empty : Chromaticities := ⟨⟨0, 0⟩, ⟨0, 0⟩, ⟨0, 0⟩, ⟨0, 0⟩⟩

/-- Modelled from the spec: the constant `Chromaticities::sRGB` is defined outside the
files at hand; the spec (8) gives R=(0.64,0.33), G=(0.30,0.60), B=(0.15,0.06),
W=(0.3127,0.3290). -/
def sRGB : Chromaticities := ⟨⟨0.64, 0.33⟩, ⟨0.30, 0.60⟩, ⟨0.15, 0.06⟩, ILLUMINANT_D65⟩

/-- Modelled from the spec: the constant `Chromaticities::AdobeRGB_D50` is defined outside
the files at hand; the header says "Adobe RGB with D50 illuminant", and the primaries
are the published Adobe RGB (1998) ones. -/
def AdobeRGB_D50 : Chromaticities := ⟨⟨0.64, 0.33⟩, ⟨0.21, 0.71⟩, ⟨0.15, 0.06⟩, ILLUMINANT_D50⟩

/-- Modelled from the spec: the constant `Chromaticities::AdobeRGB_D65` is defined outside
the files at hand; the header says "Adobe RGB with D65 illuminant". -/
def AdobeRGB_D65 : Chromaticities := ⟨⟨0.64, 0.33⟩, ⟨0.21, 0.71⟩, ⟨0.15, 0.06⟩, ILLUMINANT_D65⟩

/-- Modelled from the spec: the constant `Chromaticities::ProPhoto` is defined outside the
files at hand; the header says "ProPhoto with D50 illuminant", and the primaries are
the published ProPhoto (ROMM) RGB ones, whose blue primary has y = 0.0001. -/
def ProPhoto : Chromaticities :=
  ⟨⟨0.7347, 0.2653⟩, ⟨0.1596, 0.8404⟩, ⟨0.0366, 0.0001⟩, ILLUMINANT_D50⟩

/-- Modelled from the spec: the constant `Chromaticities::Radiance` is defined outside the
files at hand; the header says "Radiance HDR format with E illuminant", and the
primaries are the ones of the Radiance picture format. -/
def Radiance : Chromaticities := ⟨⟨0.64, 0.33⟩, ⟨0.29, 0.60⟩, ⟨0.15, 0.06⟩, ILLUMINANT_E⟩

/-- The tolerance `EPSILON = 1e-3f` local to `Chromaticities::Equals`. -/
def EPSILON : float := 1 / 1000

/-- The method `Chromaticities::Equals` (ColorProfile.h, lines 135-141). -/
def Equals (c other : Chromaticities) : Bool :=
  c.R.Almost other.R EPSILON
    && c.G.Almost other.G EPSILON
    && c.B.Almost other.B EPSILON
    && c.W.Almost other.W EPSILON

/-- The method `Chromaticities::FindRecognizedChromaticity` (ColorProfile.h, lines 118-132). -/
def FindRecognizedChromaticity (c : Chromaticities) : STANDARD_PROFILE :=
  if c.Equals sRGB then STANDARD_PROFILE.sRGB
  else if c.Equals AdobeRGB_D65 then STANDARD_PROFILE.ADOBE_RGB_D65
  else if c.Equals AdobeRGB_D50 then STANDARD_PROFILE.ADOBE_RGB_D50
  else if c.Equals ProPhoto then STANDARD_PROFILE.PRO_PHOTO
  else if c.Equals Radiance then STANDARD_PROFILE.RADIANCE
  else if c.R.x ≠ 0 ∧ c.R.y ≠ 0 ∧ c.G.x ≠ 0 ∧ c.G.y ≠ 0 ∧ c.B.x ≠ 0 ∧ c.B.y ≠ 0
      ∧ c.W.x ≠ 0 ∧ c.W.y ≠ 0 then STANDARD_PROFILE.CUSTOM
  else STANDARD_PROFILE.INVALID

/-! ### The recognition function as the specification words it -/

/-- The specification's matching relation: the two sets agree within 1e-3 on every one
of the 8 scalar coordinates. -/
def matchesWithin (c ref : Chromaticities) : Prop :=
  |c.R.x - ref.R.x| < 1 / 1000 ∧ |c.R.y - ref.R.y| < 1 / 1000
    ∧ |c.G.x - ref.G.x| < 1 / 1000 ∧ |c.G.y - ref.G.y| < 1 / 1000
    ∧ |c.B.x - ref.B.x| < 1 / 1000 ∧ |c.B.y - ref.B.y| < 1 / 1000
    ∧ |c.W.x - ref.W.x| < 1 / 1000 ∧ |c.W.y - ref.W.y| < 1 / 1000

instance (c ref : Chromaticities) : Decidable (matchesWithin c ref) := by
  unfold matchesWithin
  infer_instance

/-- All 8 scalar coordinates are different from zero. -/
def allNonZero (c : Chromaticities) : Prop :=
  c.R.x ≠ 0 ∧ c.R.y ≠ 0 ∧ c.G.x ≠ 0 ∧ c.G.y ≠ 0 ∧ c.B.x ≠ 0 ∧ c.B.y ≠ 0 ∧ c.W.x ≠ 0 ∧ c.W.y ≠ 0

instance (c : Chromaticities) : Decidable (allNonZero c) := by
  unfold allNonZero
  infer_instance

/-- Some scalar coordinate is exactly zero. -/
def hasZeroCoordinate (c : Chromaticities) : Prop :=
  c.R.x = 0 ∨ c.R.y = 0 ∨ c.G.x = 0 ∨ c.G.y = 0 ∨ c.B.x = 0 ∨ c.B.y = 0 ∨ c.W.x = 0 ∨ c.W.y = 0

instance (c : Chromaticities) : Decidable (hasZeroCoordinate c) := by
  unfold hasZeroCoordinate
  infer_instance

/-- The five reference sets with their tags, in the order the specification fixes:
sRGB, Adobe RGB D65, Adobe RGB D50, ProPhoto, Radiance. -/
def referenceSets : List (Chromaticities × STANDARD_PROFILE) :=
  [ (sRGB, STANDARD_PROFILE.sRGB),
    (AdobeRGB_D65, STANDARD_PROFILE.ADOBE_RGB_D65),
    (AdobeRGB_D50, STANDARD_PROFILE.ADOBE_RGB_D50),
    (ProPhoto, STANDARD_PROFILE.PRO_PHOTO),
    (Radiance, STANDARD_PROFILE.RADIANCE) ]

/-- The recognition function in the specification's words: the tag of the first
reference set, in the fixed order, that matches within 1e-3 on all 8 coordinates;
when none matches, CUSTOM if all 8 coordinates are non-zero and INVALID otherwise. -/
def recognizedBySpec (c : Chromaticities) : STANDARD_PROFILE :=
  match referenceSets.find? (fun rt => decide (matchesWithin c rt.1)) with
  | some rt => rt.2
  | none => if allNonZero c then STANDARD_PROFILE.CUSTOM else STANDARD_PROFILE.INVALID

/-- Some coordinate of `c` differs from the same coordinate of `ref` by more than 1e-3. -/
def perturbedFrom (ref c : Chromaticities) : Prop :=
  1 / 1000 < |c.R.x - ref.R.x| ∨ 1 / 1000 < |c.R.y - ref.R.y|
    ∨ 1 / 1000 < |c.G.x - ref.G.x| ∨ 1 / 1000 < |c.G.y - ref.G.y|
    ∨ 1 / 1000 < |c.B.x - ref.B.x| ∨ 1 / 1000 < |c.B.y - ref.B.y|
    ∨ 1 / 1000 < |c.W.x - ref.W.x| ∨ 1 / 1000 < |c.W.y - ref.W.y|

instance (ref c : Chromaticities) : Decidable (perturbedFrom ref c) := by
  unfold perturbedFrom
  infer_instance

end Chromaticities

/-! ## Vectors and matrices -/

/-- The vector type `float3`. -/
structure float3 where
  x : float
  y : float
  z : float
deriving DecidableEq, Repr

/-- The vector type `float4`. -/
structure float4 where
  x : float
  y : float
  z : float
  w : float
deriving DecidableEq, Repr

/-- The matrix type `float4x4`, as its four rows `r[0]`, `r[1]`, `r[2]`, `r[3]`. -/
structure float4x4 where
  r0 : float4
  r1 : float4
  r2 : float4
  r3 : float4
deriving DecidableEq, Repr

/-- The product `float * float3` (componentwise scaling). -/
def float3.scale (s : float) (v : float3) : float3 := ⟨s * v.x, s * v.y, s * v.z⟩

/-- The constructor `float4( float3, float )`, also the argument form of `float4::Set`. -/
def float4.ofFloat3 (v : float3) (w : float) : float4 := ⟨v.x, v.y, v.z, w⟩

/-- The product `float4 * float4x4`: the row vector times the matrix, as the source uses
it in `float4( XYZ_W, 1.0f ) * M_xyz`. -/
def float4.mul (v : float4) (m : float4x4) : float4 :=
  ⟨v.x * m.r0.x + v.y * m.r1.x + v.z * m.r2.x + v.w * m.r3.x,
   v.x * m.r0.y + v.y * m.r1.y + v.z * m.r2.y + v.w * m.r3.y,
   v.x * m.r0.z + v.y * m.r1.z + v.z * m.r2.z + v.w * m.r3.z,
   v.x * m.r0.w + v.y * m.r1.w + v.z * m.r2.w + v.w * m.r3.w⟩

namespace float4x4

/-- The constant `float4x4::Identity`. -/
def Identity : float4x4 := ⟨⟨1, 0, 0, 0⟩, ⟨0, 1, 0, 0⟩, ⟨0, 0, 1, 0⟩, ⟨0, 0, 0, 1⟩⟩

/-- The matrix product `a * b`: every row of `a` times `b`. -/
def mul (a b : float4x4) : float4x4 :=
  ⟨a.r0.mul b, a.r1.mul b, a.r2.mul b, a.r3.mul b⟩

/-- The determinant of a 4x4 matrix, expanded by 2x2 minors of the two upper and the
two lower rows. -/
def Determinant (m : float4x4) : float :=
  let s0 := m.r0.x * m.r1.y - m.r1.x * m.r0.y
  let s1 := m.r0.x * m.r1.z - m.r1.x * m.r0.z
  let s2 := m.r0.x * m.r1.w - m.r1.x * m.r0.w
  let s3 := m.r0.y * m.r1.z - m.r1.y * m.r0.z
  let s4 := m.r0.y * m.r1.w - m.r1.y * m.r0.w
  let s5 := m.r0.z * m.r1.w - m.r1.z * m.r0.w
  let c5 := m.r2.z * m.r3.w - m.r3.z * m.r2.w
  let c4 := m.r2.y * m.r3.w - m.r3.y * m.r2.w
  let c3 := m.r2.y * m.r3.z - m.r3.y * m.r2.z
  let c2 := m.r2.x * m.r3.w - m.r3.x * m.r2.w
  let c1 := m.r2.x * m.r3.z - m.r3.x * m.r2.z
  let c0 := m.r2.x * m.r3.y - m.r3.x * m.r2.y
  s0 * c5 - s1 * c4 + s2 * c3 + s3 * c2 - s4 * c1 + s5 * c0

/-- Modelled from the spec: `float4x4::Invert` is declared outside the files at hand.
The spec (4.2, steps 3 and 6) says it computes the matrix inverse, and (9) that the
source's inversion step does not guard against a singular matrix: the model is the
unguarded cofactor formula, the transposed cofactor matrix divided by the determinant.
It inverts every matrix of non-zero determinant; on a singular matrix the division
by the zero determinant has no meaningful value (here: the zero matrix). -/
def Invert (m : float4x4) : float4x4 :=
  let s0 := m.r0.x * m.r1.y - m.r1.x * m.r0.y
  let s1 := m.r0.x * m.r1.z - m.r1.x * m.r0.z
  let s2 := m.r0.x * m.r1.w - m.r1.x * m.r0.w
  let s3 := m.r0.y * m.r1.z - m.r1.y * m.r0.z
  let s4 := m.r0.y * m.r1.w - m.r1.y * m.r0.w
  let s5 := m.r0.z * m.r1.w - m.r1.z * m.r0.w
  let c5 := m.r2.z * m.r3.w - m.r3.z * m.r2.w
  let c4 := m.r2.y * m.r3.w - m.r3.y * m.r2.w
  let c3 := m.r2.y * m.r3.z - m.r3.y * m.r2.z
  let c2 := m.r2.x * m.r3.w - m.r3.x * m.r2.w
  let c1 := m.r2.x * m.r3.z - m.r3.x * m.r2.z
  let c0 := m.r2.x * m.r3.y - m.r3.x * m.r2.y
  let det := m.Determinant
  ⟨⟨(m.r1.y * c5 - m.r1.z * c4 + m.r1.w * c3) / det,
    (-(m.r0.y * c5) + m.r0.z * c4 - m.r0.w * c3) / det,
    (m.r3.y * s5 - m.r3.z * s4 + m.r3.w * s3) / det,
    (-(m.r2.y * s5) + m.r2.z * s4 - m.r2.w * s3) / det⟩,
   ⟨(-(m.r1.x * c5) + m.r1.z * c2 - m.r1.w * c1) / det,
    (m.r0.x * c5 - m.r0.z * c2 + m.r0.w * c1) / det,
    (-(m.r3.x * s5) + m.r3.z * s2 - m.r3.w * s1) / det,
    (m.r2.x * s5 - m.r2.z * s2 + m.r2.w * s1) / det⟩,
   ⟨(m.r1.x * c4 - m.r1.y * c2 + m.r1.w * c0) / det,
    (-(m.r0.x * c4) + m.r0.y * c2 - m.r0.w * c0) / det,
    (m.r3.x * s4 - m.r3.y * s2 + m.r3.w * s0) / det,
    (-(m.r2.x * s4) + m.r2.y * s2 - m.r2.w * s0) / det⟩,
   ⟨(-(m.r1.x * c3) + m.r1.y * c1 - m.r1.z * c0) / det,
    (m.r0.x * c3 - m.r0.y * c1 + m.r0.z * c0) / det,
    (-(m.r3.x * s3) + m.r3.y * s1 - m.r3.z * s0) / det,
    (m.r2.x * s3 - m.r2.y * s1 + m.r2.z * s0) / det⟩⟩

end float4x4

/-! ## Helpers of the color profile -/

/-- The static helper `ColorProfile::XYZ2xyY` (ColorProfile.h, lines 514-518). -/
def XYZ2xyY (_XYZ : float3) : float3 :=
  let InvSum := _XYZ.x + _XYZ.y + _XYZ.z
  let InvSum := if InvSum > 1 / 100000000 then 1 / InvSum else 0
  ⟨_XYZ.x * InvSum, _XYZ.y * InvSum, _XYZ.y⟩

/-- The static helper `ColorProfile::xyY2XYZ` (ColorProfile.h, lines 525-528). -/
def xyY2XYZ (_xyY : float3) : float3 :=
  let Y_y := if _xyY.y > 1 / 100000000 then _xyY.z / _xyY.y else 0
  ⟨_xyY.x * Y_y, _xyY.z, (1 - _xyY.x - _xyY.y) * Y_y⟩

/-! ## The gamma helpers, in the real-arithmetic model

`powf` has no exact rational model: the four helpers below are stated over the real
numbers, `powf` being the real power function; they are the only definitions of the
development that cannot be evaluated. -/

/-- The static helper `ColorProfile::GammaCorrect` (ColorProfile.h, lines 536-538). -/
noncomputable def GammaCorrect (c _imageGamma : ℝ) : ℝ :=
  c ^ (1 / _imageGamma)

/-- The static helper `ColorProfile::GammaUnCorrect` (ColorProfile.h, lines 546-548). -/
noncomputable def GammaUnCorrect (c _imageGamma : ℝ) : ℝ :=
  c ^ _imageGamma

/-- The static helper `ColorProfile::Linear2sRGB` (ColorProfile.h, lines 556-560). -/
noncomputable def Linear2sRGB (c : ℝ) : ℝ :=
  if c < 0.0031308 then c * 12.92
  else 1.055 * c ^ (1 / ((GAMMA_EXPONENT_sRGB : ℚ) : ℝ)) - 0.055

/-- The static helper `ColorProfile::sRGB2Linear` (ColorProfile.h, lines 568-572). -/
noncomputable def sRGB2Linear (c : ℝ) : ℝ :=
  if c < 0.04045 then c / 12.92
  else ((c + 0.055) / 1.055) ^ ((GAMMA_EXPONENT_sRGB : ℚ) : ℝ)

/-! ## The converters -/

/-- The nine converter classes `InternalColorConverter_*` (ColorProfile.h, lines 148-260),
each with the fields its constructor stores. -/
inductive InternalColorConverter where
  | sRGB
  | AdobeRGB_D50
  | AdobeRGB_D65
  | ProPhoto
  | Radiance
  | Generic_NoGamma (m_RGB2XYZ m_XYZ2RGB : float4x4)
  | Generic_StandardGamma (m_RGB2XYZ m_XYZ2RGB : float4x4) (m_Gamma m_InvGamma : float)
  | Generic_sRGBGamma (m_RGB2XYZ m_XYZ2RGB : float4x4)
  | Generic_ProPhoto (m_RGB2XYZ m_XYZ2RGB : float4x4)
deriving DecidableEq, Repr

/-- The converter classes declared in the header (ColorProfile.h, lines 148-260), without
the fields of their instances: five for the named profiles and four generic ones. -/
inductive ConverterClass where
  | sRGB
  | AdobeRGB_D50
  | AdobeRGB_D65
  | ProPhoto
  | Radiance
  | Generic_NoGamma
  | Generic_StandardGamma
  | Generic_sRGBGamma
  | Generic_ProPhoto
deriving DecidableEq, Repr, Fintype

/-- The class a converter object is an instance of. -/
def InternalColorConverter.variant : InternalColorConverter → ConverterClass
  | InternalColorConverter.sRGB => ConverterClass.sRGB
  | InternalColorConverter.AdobeRGB_D50 => ConverterClass.AdobeRGB_D50
  | InternalColorConverter.AdobeRGB_D65 => ConverterClass.AdobeRGB_D65
  | InternalColorConverter.ProPhoto => ConverterClass.ProPhoto
  | InternalColorConverter.Radiance => ConverterClass.Radiance
  | InternalColorConverter.Generic_NoGamma _ _ => ConverterClass.Generic_NoGamma
  | InternalColorConverter.Generic_StandardGamma _ _ _ _ => ConverterClass.Generic_StandardGamma
  | InternalColorConverter.Generic_sRGBGamma _ _ => ConverterClass.Generic_sRGBGamma
  | InternalColorConverter.Generic_ProPhoto _ _ => ConverterClass.Generic_ProPhoto

/-- The converter is an instance of one of the four generic classes
`InternalColorConverter_Generic_*`. -/
def InternalColorConverter.isGeneric : InternalColorConverter → Bool
  | InternalColorConverter.Generic_NoGamma _ _ => true
  | InternalColorConverter.Generic_StandardGamma _ _ _ _ => true
  | InternalColorConverter.Generic_sRGBGamma _ _ => true
  | InternalColorConverter.Generic_ProPhoto _ _ => true
  | _ => false

/-- The bodies of the converters' four virtual methods (`XYZ2RGB` and `RGB2XYZ`, for one
color and for a buffer of colors) are defined outside the files at hand: they are a
parameter of the model, one function of the converter object and the color (or the
buffer, as the list of its `_length` colors) for each method. -/
structure ConverterMethods where
  XYZ2RGB : InternalColorConverter → float4 → float4
  RGB2XYZ : InternalColorConverter → float4 → float4
  XYZ2RGB_buffer : InternalColorConverter → List float4 → List float4
  RGB2XYZ_buffer : InternalColorConverter → List float4 → List float4

/-- Modelled from the spec: the body of `InternalColorConverter_Generic_NoGamma::RGB2XYZ`
is defined outside the files at hand. The spec (8) says the output of the no-gamma
converter is the RGB->XYZ matrix multiply with no power law applied, the matrix being the
one the converter stores (4.4): the color, as a row vector, times `m_RGB2XYZ`. -/
def ConverterMethods.noGammaIsMatrixMultiply (impl : ConverterMethods) : Prop :=
  ∀ (A B : float4x4) (v : float4),
    impl.RGB2XYZ (InternalColorConverter.Generic_NoGamma A B) v = v.mul A

/-! ## The color profile -/

/-- The fields of the class `ColorProfile` (ColorProfile.h, lines 269-278);
`m_internalConverter` is `none` for the null pointer. -/
structure ColorProfile where
  m_profileFoundInFile : Bool
  m_chromaticities : Chromaticities
  m_gammaCurve : GAMMA_CURVE
  m_gamma : float
  m_exposureBias : float
  m_RGB2XYZ : float4x4
  m_XYZ2RGB : float4x4
  m_internalConverter : Option InternalColorConverter
deriving DecidableEq, Repr

namespace ColorProfile

/-- The method `ColorProfile::EnsureGamma` (ColorProfile.h, lines 687-689). -/
def EnsureGamma (p : ColorProfile) (_Curve : GAMMA_CURVE) (_Gamma : float) : Bool :=
  decide (p.m_gammaCurve = _Curve) && decide (|_Gamma - p.m_gamma| < 1 / 1000)

/-- The matrix `M_xyz` of `BuildTransformFromChroma` before its inversion
(ColorProfile.h, lines 585-595): the rows are the XYZ directions of the primaries. -/
def M_xyz (c : Chromaticities) : float4x4 :=
  let xyz_R : float3 := ⟨c.R.x, c.R.y, 1 - c.R.x - c.R.y⟩
  let xyz_G : float3 := ⟨c.G.x, c.G.y, 1 - c.G.x - c.G.y⟩
  let xyz_B : float3 := ⟨c.B.x, c.B.y, 1 - c.B.x - c.B.y⟩
  ⟨⟨xyz_R.x, xyz_R.y, xyz_R.z, 0⟩,
   ⟨xyz_G.x, xyz_G.y, xyz_G.z, 0⟩,
   ⟨xyz_B.x, xyz_B.y, xyz_B.z, 0⟩,
   ⟨0, 0, 0, 1⟩⟩

/-- The vector `Sum_RGB` of `BuildTransformFromChroma` (ColorProfile.h, lines 588-599):
the white point's XYZ value times the inverted `M_xyz`. -/
def Sum_RGB (c : Chromaticities) : float4 :=
  let XYZ_W := xyY2XYZ ⟨c.W.x, c.W.y, 1⟩
  let M := (M_xyz c).Invert
  (float4.ofFloat3 XYZ_W 1).mul M

/-- The first part of `BuildTransformFromChroma` (ColorProfile.h, lines 585-608): the
two matrices. Rows 0 to 2 of `m_RGB2XYZ` are written, row 3 keeps the value it had. -/
def BuildTransformFromChroma_matrices (p : ColorProfile) : ColorProfile :=
  let c := p.m_chromaticities
  let xyz_R : float3 := ⟨c.R.x, c.R.y, 1 - c.R.x - c.R.y⟩
  let xyz_G : float3 := ⟨c.G.x, c.G.y, 1 - c.G.x - c.G.y⟩
  let xyz_B : float3 := ⟨c.B.x, c.B.y, 1 - c.B.x - c.B.y⟩
  let S := Sum_RGB c
  let RGB2XYZ : float4x4 :=
    { r0 := float4.ofFloat3 (float3.scale S.x xyz_R) 0
      r1 := float4.ofFloat3 (float3.scale S.y xyz_G) 0
      r2 := float4.ofFloat3 (float3.scale S.z xyz_B) 0
      r3 := p.m_RGB2XYZ.r3 }
  { p with m_RGB2XYZ := RGB2XYZ, m_XYZ2RGB := RGB2XYZ.Invert }

/-- The second part of `BuildTransformFromChroma` (ColorProfile.h, lines 611-626): the tag
recognized from the chromaticities, downgraded to CUSTOM when the gamma check is asked
for and fails. -/
def BuildTransformFromChroma_recognize (p : ColorProfile)
    (_bCheckGammaCurveOverride : Bool) : STANDARD_PROFILE :=
  let recognizedChromaticity := p.m_chromaticities.FindRecognizedChromaticity
  if _bCheckGammaCurveOverride then
    let bIsGammaCorrect :=
      match recognizedChromaticity with
      | STANDARD_PROFILE.sRGB => p.EnsureGamma GAMMA_CURVE.sRGB GAMMA_EXPONENT_sRGB
      | STANDARD_PROFILE.ADOBE_RGB_D50 => p.EnsureGamma GAMMA_CURVE.STANDARD GAMMA_EXPONENT_ADOBE
      | STANDARD_PROFILE.ADOBE_RGB_D65 => p.EnsureGamma GAMMA_CURVE.STANDARD GAMMA_EXPONENT_ADOBE
      | STANDARD_PROFILE.PRO_PHOTO => p.EnsureGamma GAMMA_CURVE.PRO_PHOTO GAMMA_EXPONENT_PRO_PHOTO
      | STANDARD_PROFILE.RADIANCE => p.EnsureGamma GAMMA_CURVE.STANDARD 1
      | _ => true
    if !bIsGammaCorrect then STANDARD_PROFILE.CUSTOM else recognizedChromaticity
  else recognizedChromaticity

/-- The third part of `BuildTransformFromChroma` (ColorProfile.h, lines 630-678): the
converter assigned for the final tag. -/
def BuildTransformFromChroma_assign (p : ColorProfile)
    (recognizedChromaticity : STANDARD_PROFILE) : ColorProfile :=
  match recognizedChromaticity with
  | STANDARD_PROFILE.sRGB =>
    { p with m_gammaCurve := GAMMA_CURVE.sRGB, m_gamma := GAMMA_EXPONENT_sRGB,
             m_internalConverter := some InternalColorConverter.sRGB }
  | STANDARD_PROFILE.ADOBE_RGB_D50 =>
    { p with m_gammaCurve := GAMMA_CURVE.STANDARD, m_gamma := GAMMA_EXPONENT_ADOBE,
             m_internalConverter := some InternalColorConverter.AdobeRGB_D50 }
  | STANDARD_PROFILE.ADOBE_RGB_D65 =>
    { p with m_gammaCurve := GAMMA_CURVE.STANDARD, m_gamma := GAMMA_EXPONENT_ADOBE,
             m_internalConverter := some InternalColorConverter.AdobeRGB_D65 }
  | STANDARD_PROFILE.PRO_PHOTO =>
    { p with m_gammaCurve := GAMMA_CURVE.PRO_PHOTO, m_gamma := GAMMA_EXPONENT_PRO_PHOTO,
             m_internalConverter := some InternalColorConverter.ProPhoto }
  | STANDARD_PROFILE.RADIANCE =>
    { p with m_gammaCurve := GAMMA_CURVE.STANDARD, m_gamma := 1,
             m_internalConverter := some InternalColorConverter.Radiance }
  | _ =>
    match p.m_gammaCurve with
    | GAMMA_CURVE.sRGB =>
      { p with
        m_internalConverter :=
          some (InternalColorConverter.Generic_sRGBGamma p.m_RGB2XYZ p.m_XYZ2RGB) }
    | GAMMA_CURVE.PRO_PHOTO =>
      { p with
        m_internalConverter :=
          some (InternalColorConverter.Generic_ProPhoto p.m_RGB2XYZ p.m_XYZ2RGB) }
    | GAMMA_CURVE.STANDARD =>
      if |p.m_gamma - 1| < 1 / 1000 then
        { p with
          m_internalConverter :=
            some (InternalColorConverter.Generic_NoGamma p.m_RGB2XYZ p.m_XYZ2RGB) }
      else
        { p with
          m_internalConverter :=
            some (InternalColorConverter.Generic_StandardGamma p.m_RGB2XYZ p.m_XYZ2RGB
              p.m_gamma (1 / p.m_gamma)) }

/-- The method `ColorProfile::BuildTransformFromChroma` (ColorProfile.h, lines 584-679). -/
def BuildTransformFromChroma (p : ColorProfile) (_bCheckGammaCurveOverride : Bool) :
    ColorProfile :=
  let q := p.BuildTransformFromChroma_matrices
  q.BuildTransformFromChroma_assign
    (q.BuildTransformFromChroma_recognize _bCheckGammaCurveOverride)

/-- The default constructor `ColorProfile()` (ColorProfile.h, lines 335-344). -/
def new : ColorProfile :=
  { m_profileFoundInFile := false
    m_chromaticities := Chromaticities.Empty
    m_gammaCurve := GAMMA_CURVE.STANDARD
    m_gamma := 1
    m_exposureBias := 0
    m_RGB2XYZ := float4x4.Identity
    m_XYZ2RGB := float4x4.Identity
    m_internalConverter := none }

/-- The constructor `ColorProfile( STANDARD_PROFILE )` (ColorProfile.h, lines 353-390).
It has no initializer list: `raw` is the object as it stands when the body starts (the
fields the body does not assign keep that content). The `throw` of the default case is
the error result. -/
def fromStandardProfile (raw : ColorProfile) (_profile : STANDARD_PROFILE) :
    Except String ColorProfile :=
  match _profile with
  | STANDARD_PROFILE.LINEAR =>
    Except.ok (BuildTransformFromChroma
      { raw with m_chromaticities := Chromaticities.sRGB, m_gammaCurve := GAMMA_CURVE.STANDARD,
                 m_gamma := 1 } true)
  | STANDARD_PROFILE.sRGB =>
    Except.ok (BuildTransformFromChroma
      { raw with m_chromaticities := Chromaticities.sRGB, m_gammaCurve := GAMMA_CURVE.sRGB,
                 m_gamma := GAMMA_EXPONENT_sRGB } true)
  | STANDARD_PROFILE.ADOBE_RGB_D50 =>
    Except.ok (BuildTransformFromChroma
      { raw with m_chromaticities := Chromaticities.AdobeRGB_D50,
                 m_gammaCurve := GAMMA_CURVE.STANDARD, m_gamma := GAMMA_EXPONENT_ADOBE } true)
  | STANDARD_PROFILE.ADOBE_RGB_D65 =>
    Except.ok (BuildTransformFromChroma
      { raw with m_chromaticities := Chromaticities.AdobeRGB_D65,
                 m_gammaCurve := GAMMA_CURVE.STANDARD, m_gamma := GAMMA_EXPONENT_ADOBE } true)
  | STANDARD_PROFILE.PRO_PHOTO =>
    Except.ok (BuildTransformFromChroma
      { raw with m_chromaticities := Chromaticities.ProPhoto,
                 m_gammaCurve := GAMMA_CURVE.PRO_PHOTO, m_gamma := GAMMA_EXPONENT_PRO_PHOTO } true)
  | STANDARD_PROFILE.RADIANCE =>
    Except.ok (BuildTransformFromChroma
      { raw with m_chromaticities := Chromaticities.Radiance,
                 m_gammaCurve := GAMMA_CURVE.STANDARD, m_gamma := 1 } true)
  | _ => Except.error "Unsupported standard profile!"

/-- The constructor `ColorProfile( const Chromaticities&, GAMMA_CURVE, float )`
(ColorProfile.h, lines 459-465); `raw` as for `fromStandardProfile`. The body has no
`throw`. -/
def fromChromaticities (raw : ColorProfile) (_chromaticities : Chromaticities)
    (_gammaCurve : GAMMA_CURVE) (_gamma : float) : Except String ColorProfile :=
  Except.ok (BuildTransformFromChroma
    { raw with m_chromaticities := _chromaticities, m_gammaCurve := _gammaCurve,
               m_gamma := _gamma } true)

/-- The mutator `ColorProfile::SetGammaCurve` (ColorProfile.h, lines 304-307). -/
def SetGammaCurve (p : ColorProfile) (value : GAMMA_CURVE) : ColorProfile :=
  BuildTransformFromChroma { p with m_gammaCurve := value } true

/-- The mutator `ColorProfile::SetGamma` (ColorProfile.h, lines 313-316). -/
def SetGamma (p : ColorProfile) (value : float) : ColorProfile :=
  BuildTransformFromChroma { p with m_gamma := value } true

/-- The mutator `ColorProfile::SetExposureBias` (ColorProfile.h, line 322). -/
def SetExposureBias (p : ColorProfile) (value : float) : ColorProfile :=
  { p with m_exposureBias := value }

/-- The method `ColorProfile::XYZ2RGB` for one color (ColorProfile.h, lines 474-476): the
call is forwarded to the converter; there is no result through a null converter. -/
def XYZ2RGB (impl : ConverterMethods) (p : ColorProfile) (_XYZ : float4) : Option float4 :=
  p.m_internalConverter.map (fun conv => impl.XYZ2RGB conv _XYZ)

/-- The method `ColorProfile::RGB2XYZ` for one color (ColorProfile.h, lines 483-485). -/
def RGB2XYZ (impl : ConverterMethods) (p : ColorProfile) (_RGB : float4) : Option float4 :=
  p.m_internalConverter.map (fun conv => impl.RGB2XYZ conv _RGB)

/-- The method `ColorProfile::XYZ2RGB` for a buffer (ColorProfile.h, lines 491-493). -/
def XYZ2RGB_buffer (impl : ConverterMethods) (p : ColorProfile) (_XYZ : List float4) :
    Option (List float4) :=
  p.m_internalConverter.map (fun conv => impl.XYZ2RGB_buffer conv _XYZ)

/-- The method `ColorProfile::RGB2XYZ` for a buffer (ColorProfile.h, lines 499-501). -/
def RGB2XYZ_buffer (impl : ConverterMethods) (p : ColorProfile) (_RGB : List float4) :
    Option (List float4) :=
  p.m_internalConverter.map (fun conv => impl.RGB2XYZ_buffer conv _RGB)

/-- The canonical gamma curve and exponent of the five named profiles: the arguments the
build passes to `EnsureGamma` (ColorProfile.h, lines 617-621), which are also the values
it stores for the tag (lines 631-659); `none` for the three other tags. -/
def canonicalGamma : STANDARD_PROFILE → Option (GAMMA_CURVE × float)
  | STANDARD_PROFILE.sRGB => some (GAMMA_CURVE.sRGB, GAMMA_EXPONENT_sRGB)
  | STANDARD_PROFILE.ADOBE_RGB_D50 => some (GAMMA_CURVE.STANDARD, GAMMA_EXPONENT_ADOBE)
  | STANDARD_PROFILE.ADOBE_RGB_D65 => some (GAMMA_CURVE.STANDARD, GAMMA_EXPONENT_ADOBE)
  | STANDARD_PROFILE.PRO_PHOTO => some (GAMMA_CURVE.PRO_PHOTO, GAMMA_EXPONENT_PRO_PHOTO)
  | STANDARD_PROFILE.RADIANCE => some (GAMMA_CURVE.STANDARD, 1)
  | _ => none

/-- The specialized converter the converter assignment creates for each of the five named
profiles (ColorProfile.h, lines 631-659); `none` for the three other tags. -/
def dedicatedConverter : STANDARD_PROFILE → Option InternalColorConverter
  | STANDARD_PROFILE.sRGB => some InternalColorConverter.sRGB
  | STANDARD_PROFILE.ADOBE_RGB_D50 => some InternalColorConverter.AdobeRGB_D50
  | STANDARD_PROFILE.ADOBE_RGB_D65 => some InternalColorConverter.AdobeRGB_D65
  | STANDARD_PROFILE.PRO_PHOTO => some InternalColorConverter.ProPhoto
  | STANDARD_PROFILE.RADIANCE => some InternalColorConverter.Radiance
  | _ => none

/-- The generic converter of the default case of the converter assignment
(ColorProfile.h, lines 661-677), as a function of the profile's gamma curve, exponent and
matrices. -/
def genericConverter (p : ColorProfile) : InternalColorConverter :=
  match p.m_gammaCurve with
  | GAMMA_CURVE.sRGB => InternalColorConverter.Generic_sRGBGamma p.m_RGB2XYZ p.m_XYZ2RGB
  | GAMMA_CURVE.PRO_PHOTO => InternalColorConverter.Generic_ProPhoto p.m_RGB2XYZ p.m_XYZ2RGB
  | GAMMA_CURVE.STANDARD =>
    if |p.m_gamma - 1| < 1 / 1000 then
      InternalColorConverter.Generic_NoGamma p.m_RGB2XYZ p.m_XYZ2RGB
    else
      InternalColorConverter.Generic_StandardGamma p.m_RGB2XYZ p.m_XYZ2RGB
        p.m_gamma (1 / p.m_gamma)

/-- The three points lie on one line of the xy plane. -/
def collinear (a b c : float2) : Prop :=
  (b.x - a.x) * (c.y - a.y) - (c.x - a.x) * (b.y - a.y) = 0

instance (a b c : float2) : Decidable (collinear a b c) := by
  unfold collinear
  infer_instance

/-- The three primaries lie on one line of the xy plane. -/
def collinearPrimaries (c : Chromaticities) : Prop := collinear c.R c.G c.B

instance (c : Chromaticities) : Decidable (collinearPrimaries c) := by
  unfold collinearPrimaries
  infer_instance

/-- The white point lies on a line through two of the primaries. -/
def whiteOnGamutEdge (c : Chromaticities) : Prop :=
  collinear c.W c.G c.B ∨ collinear c.R c.W c.B ∨ collinear c.R c.G c.W

instance (c : Chromaticities) : Decidable (whiteOnGamutEdge c) := by
  unfold whiteOnGamutEdge
  infer_instance

/-! ### The build with the gamma exponent constants as a parameter

The same statements of `BuildTransformFromChroma` (ColorProfile.h, lines 584-679), with the
three constants `GAMMA_EXPONENT_*` read from a parameter instead of the definitions above. -/

/-- The canonical gamma curve and exponent of the five named profiles (ColorProfile.h,
lines 617-621 and 631-659), for given values of the constants `GAMMA_EXPONENT_*`. -/
def canonicalGammaWith (e : GammaExponents) : STANDARD_PROFILE → Option (GAMMA_CURVE × float)
  | STANDARD_PROFILE.sRGB => some (GAMMA_CURVE.sRGB, e.sRGB)
  | STANDARD_PROFILE.ADOBE_RGB_D50 => some (GAMMA_CURVE.STANDARD, e.ADOBE)
  | STANDARD_PROFILE.ADOBE_RGB_D65 => some (GAMMA_CURVE.STANDARD, e.ADOBE)
  | STANDARD_PROFILE.PRO_PHOTO => some (GAMMA_CURVE.PRO_PHOTO, e.PRO_PHOTO)
  | STANDARD_PROFILE.RADIANCE => some (GAMMA_CURVE.STANDARD, 1)
  | _ => none

/-- The second part of `BuildTransformFromChroma` (ColorProfile.h, lines 611-626), for given
values of the constants `GAMMA_EXPONENT_*`. -/
def BuildTransformFromChroma_recognizeWith (e : GammaExponents) (p : ColorProfile)
    (_bCheckGammaCurveOverride : Bool) : STANDARD_PROFILE :=
  let recognizedChromaticity := p.m_chromaticities.FindRecognizedChromaticity
  if _bCheckGammaCurveOverride then
    let bIsGammaCorrect :=
      match recognizedChromaticity with
      | STANDARD_PROFILE.sRGB => p.EnsureGamma GAMMA_CURVE.sRGB e.sRGB
      | STANDARD_PROFILE.ADOBE_RGB_D50 => p.EnsureGamma GAMMA_CURVE.STANDARD e.ADOBE
      | STANDARD_PROFILE.ADOBE_RGB_D65 => p.EnsureGamma GAMMA_CURVE.STANDARD e.ADOBE
      | STANDARD_PROFILE.PRO_PHOTO => p.EnsureGamma GAMMA_CURVE.PRO_PHOTO e.PRO_PHOTO
      | STANDARD_PROFILE.RADIANCE => p.EnsureGamma GAMMA_CURVE.STANDARD 1
      | _ => true
    if !bIsGammaCorrect then STANDARD_PROFILE.CUSTOM else recognizedChromaticity
  else recognizedChromaticity

/-- The third part of `BuildTransformFromChroma` (ColorProfile.h, lines 630-678), for given
values of the constants `GAMMA_EXPONENT_*`. -/
def BuildTransformFromChroma_assignWith (e : GammaExponents) (p : ColorProfile)
    (recognizedChromaticity : STANDARD_PROFILE) : ColorProfile :=
  match recognizedChromaticity with
  | STANDARD_PROFILE.sRGB =>
    { p with m_gammaCurve := GAMMA_CURVE.sRGB, m_gamma := e.sRGB,
             m_internalConverter := some InternalColorConverter.sRGB }
  | STANDARD_PROFILE.ADOBE_RGB_D50 =>
    { p with m_gammaCurve := GAMMA_CURVE.STANDARD, m_gamma := e.ADOBE,
             m_internalConverter := some InternalColorConverter.AdobeRGB_D50 }
  | STANDARD_PROFILE.ADOBE_RGB_D65 =>
    { p with m_gammaCurve := GAMMA_CURVE.STANDARD, m_gamma := e.ADOBE,
             m_internalConverter := some InternalColorConverter.AdobeRGB_D65 }
  | STANDARD_PROFILE.PRO_PHOTO =>
    { p with m_gammaCurve := GAMMA_CURVE.PRO_PHOTO, m_gamma := e.PRO_PHOTO,
             m_internalConverter := some InternalColorConverter.ProPhoto }
  | STANDARD_PROFILE.RADIANCE =>
    { p with m_gammaCurve := GAMMA_CURVE.STANDARD, m_gamma := 1,
             m_internalConverter := some InternalColorConverter.Radiance }
  | _ =>
    match p.m_gammaCurve with
    | GAMMA_CURVE.sRGB =>
      { p with
        m_internalConverter :=
          some (InternalColorConverter.Generic_sRGBGamma p.m_RGB2XYZ p.m_XYZ2RGB) }
    | GAMMA_CURVE.PRO_PHOTO =>
      { p with
        m_internalConverter :=
          some (InternalColorConverter.Generic_ProPhoto p.m_RGB2XYZ p.m_XYZ2RGB) }
    | GAMMA_CURVE.STANDARD =>
      if |p.m_gamma - 1| < 1 / 1000 then
        { p with
          m_internalConverter :=
            some (InternalColorConverter.Generic_NoGamma p.m_RGB2XYZ p.m_XYZ2RGB) }
      else
        { p with
          m_internalConverter :=
            some (InternalColorConverter.Generic_StandardGamma p.m_RGB2XYZ p.m_XYZ2RGB
              p.m_gamma (1 / p.m_gamma)) }

/-- The method `ColorProfile::BuildTransformFromChroma` (ColorProfile.h, lines 584-679), for
given values of the constants `GAMMA_EXPONENT_*`. -/
def BuildTransformFromChromaWith (e : GammaExponents) (p : ColorProfile)
    (_bCheckGammaCurveOverride : Bool) : ColorProfile :=
  let q := p.BuildTransformFromChroma_matrices
  BuildTransformFromChroma_assignWith e q
    (BuildTransformFromChroma_recognizeWith e q _bCheckGammaCurveOverride)

end ColorProfile

/-! ## The image file (`Packages/ImageUtilityLib/ImageFile.cpp`)

The FreeImage library is not part of the repository: a bitmap it returns is modelled by
what `FreeImage_GetImageType` and `FreeImage_GetBPP` read from it, and the results of its
conversion functions are either fixed by their documented contract (`FreeImage_ConvertTo8Bits`,
`..24Bits`, `..32Bits` return a standard bitmap of that many bits per pixel) or an input of
the model (`FreeImage_ConvertToType`). -/

namespace ImageFile

/-- The enumeration `ImageFile::PIXEL_FORMAT`, with the enumerators the functions of
ImageFile.cpp switch on. -/
inductive PIXEL_FORMAT where
  | UNKNOWN
  | R8 | RG8 | RGB8 | RGBA8
  | R16 | RG16 | RGB16 | RGBA16
  | R16F | RG16F | RGB16F | RGBA16F
  | R32F | RG32F | RGB32F | RGBA32F
deriving DecidableEq, Repr

/-- The FreeImage enumeration `FREE_IMAGE_TYPE`, with the enumerators ImageFile.cpp uses. -/
inductive FREE_IMAGE_TYPE where
  | FIT_UNKNOWN
  | FIT_BITMAP
  | FIT_UINT16
  | FIT_RGB16
  | FIT_RGBA16
  | FIT_FLOAT
  | FIT_RGBF
  | FIT_RGBAF
deriving DecidableEq, Repr

/-- A FreeImage bitmap `FIBITMAP`, by its image type and its bits per pixel. -/
structure FIBITMAP where
  type : FREE_IMAGE_TYPE
  bpp : Nat
deriving DecidableEq, Repr

/-- The function `ImageFile::PixelFormat2BPP` (ImageFile.cpp, lines 650-678). -/
def PixelFormat2BPP : PIXEL_FORMAT → Nat
  | PIXEL_FORMAT.R8 => 8
  | PIXEL_FORMAT.RG8 => 24
  | PIXEL_FORMAT.RGB8 => 24
  | PIXEL_FORMAT.RGBA8 => 32
  | PIXEL_FORMAT.R16 => 16
  | PIXEL_FORMAT.RG16 => 48
  | PIXEL_FORMAT.RGB16 => 48
  | PIXEL_FORMAT.RGBA16 => 64
  | PIXEL_FORMAT.R16F => 16
  | PIXEL_FORMAT.RG16F => 48
  | PIXEL_FORMAT.RGB16F => 48
  | PIXEL_FORMAT.RGBA16F => 64
  | PIXEL_FORMAT.R32F => 32
  | PIXEL_FORMAT.RG32F => 96
  | PIXEL_FORMAT.RGB32F => 96
  | PIXEL_FORMAT.RGBA32F => 128
  | PIXEL_FORMAT.UNKNOWN => 0

/-- The function `ImageFile::PixelFormat2FIT` (ImageFile.cpp, lines 681-707). -/
def PixelFormat2FIT : PIXEL_FORMAT → FREE_IMAGE_TYPE
  | PIXEL_FORMAT.R8 => FREE_IMAGE_TYPE.FIT_BITMAP
  | PIXEL_FORMAT.RG8 => FREE_IMAGE_TYPE.FIT_BITMAP
  | PIXEL_FORMAT.RGB8 => FREE_IMAGE_TYPE.FIT_BITMAP
  | PIXEL_FORMAT.RGBA8 => FREE_IMAGE_TYPE.FIT_BITMAP
  | PIXEL_FORMAT.R16 => FREE_IMAGE_TYPE.FIT_UINT16
  | PIXEL_FORMAT.RG16 => FREE_IMAGE_TYPE.FIT_RGB16
  | PIXEL_FORMAT.RGB16 => FREE_IMAGE_TYPE.FIT_RGB16
  | PIXEL_FORMAT.RGBA16 => FREE_IMAGE_TYPE.FIT_RGBA16
  | PIXEL_FORMAT.R16F => FREE_IMAGE_TYPE.FIT_UINT16
  | PIXEL_FORMAT.RG16F => FREE_IMAGE_TYPE.FIT_RGB16
  | PIXEL_FORMAT.RGB16F => FREE_IMAGE_TYPE.FIT_RGB16
  | PIXEL_FORMAT.RGBA16F => FREE_IMAGE_TYPE.FIT_RGBA16
  | PIXEL_FORMAT.R32F => FREE_IMAGE_TYPE.FIT_FLOAT
  | PIXEL_FORMAT.RG32F => FREE_IMAGE_TYPE.FIT_RGBF
  | PIXEL_FORMAT.RGB32F => FREE_IMAGE_TYPE.FIT_RGBF
  | PIXEL_FORMAT.RGBA32F => FREE_IMAGE_TYPE.FIT_RGBAF
  | PIXEL_FORMAT.UNKNOWN => FREE_IMAGE_TYPE.FIT_UNKNOWN

/-- A statement under a `case` label of the conversion switches of `ConvertFrom`: either
`m_bitmap = FreeImage_ConvertTo<bpp>Bits( temp )` or a `throw` of a message. -/
inductive CaseStatement where
  | convertTo (bpp : Nat)
  | throwMessage (message : String)
deriving DecidableEq, Repr

/-- What `ConvertFrom` has done to `m_bitmap` when it leaves its conversion part: it has
thrown a message, or it goes on with `m_bitmap` assigned (`none`: `m_bitmap` is still the
null pointer `Exit()` left, which the next statement, `Bitmap2PixelFormat( *m_bitmap )`,
dereferences). -/
inductive ConvertOutcome where
  | thrown (message : String)
  | completed (m_bitmap : Option FIBITMAP)
deriving DecidableEq, Repr

/-- Execution of the statements of a `switch` body from some label on: no statement of the
conversion switches is followed by a `break`, so execution falls through the labels that
follow until a `throw` or the end of the body. -/
def runStatements : List (Nat × CaseStatement) → Option FIBITMAP → ConvertOutcome
  | [], m_bitmap => ConvertOutcome.completed m_bitmap
  | (_, CaseStatement.convertTo bpp) :: rest, _ =>
    runStatements rest (some ⟨FREE_IMAGE_TYPE.FIT_BITMAP, bpp⟩)
  | (_, CaseStatement.throwMessage message) :: _, _ => ConvertOutcome.thrown message

/-- A C `switch ( targetBPP )` over a body of labelled statements: control jumps to the
label equal to `targetBPP` (past the whole body when there is none) and runs from there. -/
def runSwitch (body : List (Nat × CaseStatement)) (targetBPP : Nat)
    (m_bitmap : Option FIBITMAP) : ConvertOutcome :=
  runStatements (body.dropWhile (fun labelled => labelled.1 != targetBPP)) m_bitmap

/-- The body of `switch ( targetBPP )` under `case 8:` (ImageFile.cpp, lines 297-303). -/
def switchFrom8 : List (Nat × CaseStatement) :=
  [ (16, CaseStatement.throwMessage "8 -> 16 bits per pixel is not a supported conversion!"),
    (24, CaseStatement.convertTo 24),
    (32, CaseStatement.convertTo 32) ]

/-- The body of `switch ( targetBPP )` under `case 16:` (ImageFile.cpp, lines 305-311). -/
def switchFrom16 : List (Nat × CaseStatement) :=
  [ (8, CaseStatement.convertTo 8),
    (24, CaseStatement.convertTo 24),
    (32, CaseStatement.convertTo 32) ]

/-- The body of `switch ( targetBPP )` under `case 24:` (ImageFile.cpp, lines 313-319). -/
def switchFrom24 : List (Nat × CaseStatement) :=
  [ (8, CaseStatement.convertTo 8),
    (16, CaseStatement.throwMessage "24 -> 16 bits per pixel is not a supported conversion!"),
    (32, CaseStatement.convertTo 32) ]

/-- The body of `switch ( targetBPP )` under `case 32:` (ImageFile.cpp, lines 321-327). -/
def switchFrom32 : List (Nat × CaseStatement) :=
  [ (8, CaseStatement.convertTo 8),
    (16, CaseStatement.throwMessage "32 -> 16 bits per pixel is not a supported conversion!"),
    (24, CaseStatement.convertTo 24) ]

/-- The conversion part of `ImageFile::ConvertFrom` (ImageFile.cpp, lines 266-335), up to
the assignment of `m_bitmap`. `NOT_NATIVELY_SUPPORTED` is the test
`U32( format ) & U32( PIXEL_FORMAT::NOT_NATIVELY_SUPPORTED )` on a format: the values of the
enumerators are declared outside the files at hand, so the test is a parameter.
`sourceFormat` is `_source.m_pixelFormat`; `temp` is what
`FreeImage_ConvertToType( _source.m_bitmap, FIT_BITMAP )` returns and `converted` what
`FreeImage_ConvertToType( _source.m_bitmap, targetType )` returns (`none` for a null
pointer), both results of the library. -/
def ConvertFrom (NOT_NATIVELY_SUPPORTED : PIXEL_FORMAT → Bool) (sourceFormat : PIXEL_FORMAT)
    (temp converted : Option FIBITMAP) (_targetFormat : PIXEL_FORMAT) : ConvertOutcome :=
  if NOT_NATIVELY_SUPPORTED sourceFormat || NOT_NATIVELY_SUPPORTED _targetFormat then
    ConvertOutcome.thrown ("You cannot convert to or from the half-precision floating point "
      ++ "formats because they are not natively supported by FreeImage! "
      ++ "(and I'm lazy and never wrote the converters myself :/)")
  else
    let sourceType := PixelFormat2FIT sourceFormat
    let targetType := PixelFormat2FIT _targetFormat
    if targetType = FREE_IMAGE_TYPE.FIT_BITMAP then
      if sourceType = FREE_IMAGE_TYPE.FIT_RGBF ∨ sourceType = FREE_IMAGE_TYPE.FIT_RGBAF then
        ConvertOutcome.thrown
          "You need to use the ToneMap() function to convert HDR formats into a LDR format!"
      else
        match temp with
        | none => ConvertOutcome.thrown "FreeImage failed to convert to standard bitmap type!"
        | some bitmap =>
          let sourceBPP := bitmap.bpp
          let targetBPP := PixelFormat2BPP _targetFormat
          if sourceBPP = targetBPP then ConvertOutcome.completed (some bitmap)
          else
            match sourceBPP with
            | 8 => runSwitch switchFrom8 targetBPP none
            | 16 => runSwitch switchFrom16 targetBPP none
            | 24 => runSwitch switchFrom24 targetBPP none
            | 32 => runSwitch switchFrom32 targetBPP none
            | _ => ConvertOutcome.completed none
    else ConvertOutcome.completed converted

/-- The enumeration `ImageFile::FILE_FORMAT`, with the enumerators of the table of known
extensions. -/
inductive FILE_FORMAT where
  | UNKNOWN
  | PNG | JPEG | TARGA | DDS | TIFF | GIF | RAW | HDR | EXR | J2K | JP2 | JNG | LBM | IFF
  | BMP | ICO | PSD | PCD | PCX | XBM | XPM | WEBP
deriving DecidableEq, Repr

/-- The largest value of the type `size_t` (a 64-bit build). -/
def SIZE_MAX : Nat := 2 ^ 64 - 1

/-- The read `_imageFileNameName[ index ]` of a null-terminated string of wide characters:
a character of the name, the terminator at the index `wcslen`, and no character of the
string at any other index. -/
def readChar (name : List Char) (index : Nat) : Option Char :=
  if index < name.length then name.get? index
  else if index = name.length then some (Char.ofNat 0)
  else none

/-- How the search for the last `.` ends: at an index holding `.`, or with a read at an
index outside the string. -/
inductive SearchOutcome where
  | found (extensionIndex : Nat)
  | readOutside (index : Nat)
deriving DecidableEq, Repr

/-- The loop `for ( ...; extensionIndex >= 0; extensionIndex-- )` of
`GetFileTypeFromFileNameOnly` (ImageFile.cpp, lines 595-598), entered with the current
value of `extensionIndex`. The index is a `size_t`: the test `extensionIndex >= 0` always
holds and the decrement of 0 gives `SIZE_MAX`. `fuel` bounds the number of iterations
(`none`: more iterations are needed). -/
def searchLastDot (name : List Char) : Nat → Nat → Option SearchOutcome
  | 0, _ => none
  | fuel + 1, extensionIndex =>
    match readChar name extensionIndex with
    | none => some (SearchOutcome.readOutside extensionIndex)
    | some ch =>
      if ch = '.' then some (SearchOutcome.found extensionIndex)
      else searchLastDot name fuel ((extensionIndex + SIZE_MAX) % (SIZE_MAX + 1))

/-- The table `knownExtensions` (ImageFile.cpp, lines 605-637). -/
def knownExtensions : List (String × FILE_FORMAT) :=
  [ (".PNG", FILE_FORMAT.PNG), (".JPG", FILE_FORMAT.JPEG), (".JPEG", FILE_FORMAT.JPEG),
    (".JPE", FILE_FORMAT.JPEG), (".TGA", FILE_FORMAT.TARGA), (".DDS", FILE_FORMAT.DDS),
    (".TIF", FILE_FORMAT.TIFF), (".TIFF", FILE_FORMAT.TIFF), (".GIF", FILE_FORMAT.GIF),
    (".CRW", FILE_FORMAT.RAW), (".CR2", FILE_FORMAT.RAW), (".DNG", FILE_FORMAT.RAW),
    (".HDR", FILE_FORMAT.HDR), (".EXR", FILE_FORMAT.EXR), (".J2K", FILE_FORMAT.J2K),
    (".JP2", FILE_FORMAT.JP2), (".JNG", FILE_FORMAT.JNG), (".LBM", FILE_FORMAT.LBM),
    (".IFF", FILE_FORMAT.IFF), (".BMP", FILE_FORMAT.BMP), (".ICO", FILE_FORMAT.ICO),
    (".PSD", FILE_FORMAT.PSD), (".PSB", FILE_FORMAT.PSD), (".PCD", FILE_FORMAT.PCD),
    (".PCX", FILE_FORMAT.PCX), (".XBM", FILE_FORMAT.XBM), (".XPM", FILE_FORMAT.XPM),
    (".WEBP", FILE_FORMAT.WEBP) ]

/-- The test `_wcsicmp( a, b ) == 0` of the C runtime: the two strings are equal once
their letters are put in lower case. -/
def wcsicmpIsZero (a b : List Char) : Bool :=
  a.map Char.toLower == b.map Char.toLower

/-- The second loop of `GetFileTypeFromFileNameOnly` (ImageFile.cpp, lines 639-647): the
format of the first known extension equal to `extension`, ignoring case. -/
def lookupExtension (extension : List Char) : FILE_FORMAT :=
  match knownExtensions.find? (fun known => wcsicmpIsZero extension known.1.toList) with
  | some known => known.2
  | none => FILE_FORMAT.UNKNOWN

/-- How a call of `GetFileTypeFromFileNameOnly` ends: it returns a format, or it reads a
character at an index outside the string. -/
inductive FileTypeOutcome where
  | returned (format : FILE_FORMAT)
  | readOutside (index : Nat)
deriving DecidableEq, Repr

/-- The function `ImageFile::GetFileTypeFromFileNameOnly` (ImageFile.cpp, lines 588-648);
`none` for the name is the null pointer, `fuel` bounds the iterations of the search loop. -/
def GetFileTypeFromFileNameOnly (fuel : Nat) (_imageFileNameName : Option (List Char)) :
    Option FileTypeOutcome :=
  match _imageFileNameName with
  | none => some (FileTypeOutcome.returned FILE_FORMAT.UNKNOWN)
  | some name =>
    let length := name.length
    match searchLastDot name fuel ((length + SIZE_MAX) % (SIZE_MAX + 1)) with
    | none => none
    | some (SearchOutcome.readOutside index) => some (FileTypeOutcome.readOutside index)
    | some (SearchOutcome.found extensionIndex) =>
      if extensionIndex = 0 then some (FileTypeOutcome.returned FILE_FORMAT.UNKNOWN)
      else some (FileTypeOutcome.returned (lookupExtension (name.drop extensionIndex)))

/-- The static counter `ms_freeImageUsageRefCount` (a `U32`), together with the state of the
FreeImage library: initialised after `FreeImage_Initialise`, not initialised after
`FreeImage_DeInitialise`. -/
structure FreeImageUsage where
  ms_freeImageUsageRefCount : Nat
  initialised : Bool
deriving DecidableEq, Repr

/-- The function `ImageFile::UseFreeImage` (ImageFile.cpp, lines 735-740). -/
def UseFreeImage (s : FreeImageUsage) : FreeImageUsage :=
  { ms_freeImageUsageRefCount := (s.ms_freeImageUsageRefCount + 1) % 2 ^ 32
    initialised := if s.ms_freeImageUsageRefCount = 0 then true else s.initialised }

/-- The function `ImageFile::UnUseFreeImage` (ImageFile.cpp, lines 741-746); the
decrement of a `U32` that is 0 gives 2^32 - 1. -/
def UnUseFreeImage (s : FreeImageUsage) : FreeImageUsage :=
  { ms_freeImageUsageRefCount := (s.ms_freeImageUsageRefCount + (2 ^ 32 - 1)) % 2 ^ 32
    initialised :=
      if (s.ms_freeImageUsageRefCount + (2 ^ 32 - 1)) % 2 ^ 32 = 0 then false
      else s.initialised }

/-- The member functions of `ImageFile` that take part in the lifetime of an object: the
five constructors, `operator=`, `Init`, the two `Load` functions and the destructor. -/
inductive LifetimeCall where
  | constructDefault
  | constructCopy
  | constructFromFile
  | constructFromMemory
  | constructFromDimensions
  | assign
  | Init
  | LoadFile
  | LoadMemory
  | destruct
deriving DecidableEq, Repr

/-- The effect of a call that completes on the usage counter (ImageFile.cpp, lines 11-44
and 113-205): the default constructor does not touch it; `operator=`, `Init` and `Load`
start with `UseFreeImage()`, and the four other constructors call one of them; the
destructor ends with `UnUseFreeImage()`. -/
def LifetimeCall.effect : LifetimeCall → FreeImageUsage → FreeImageUsage
  | LifetimeCall.constructDefault, s => s
  | LifetimeCall.constructCopy, s => UseFreeImage s
  | LifetimeCall.constructFromFile, s => UseFreeImage s
  | LifetimeCall.constructFromMemory, s => UseFreeImage s
  | LifetimeCall.constructFromDimensions, s => UseFreeImage s
  | LifetimeCall.assign, s => UseFreeImage s
  | LifetimeCall.Init, s => UseFreeImage s
  | LifetimeCall.LoadFile, s => UseFreeImage s
  | LifetimeCall.LoadMemory, s => UseFreeImage s
  | LifetimeCall.destruct, s => UnUseFreeImage s

/-- The usage counter after a sequence of calls, in order. -/
def runCalls (calls : List LifetimeCall) (s : FreeImageUsage) : FreeImageUsage :=
  calls.foldl (fun state call => call.effect state) s

end ImageFile

/-! ## Concrete inputs -/

/-- The constants `GAMMA_EXPONENT_*` at the decimal values of the header comments. -/
def decimalExponents : GammaExponents :=
  ⟨GAMMA_EXPONENT_sRGB, GAMMA_EXPONENT_ADOBE, GAMMA_EXPONENT_PRO_PHOTO⟩

/-- The constants `GAMMA_EXPONENT_*` as a compiler stores the literals `2.4f`, `2.19921875f`
and `1.8f`: the binary32 numbers 2.400000095367431640625 (5033165 / 2^21), 2.19921875 and
1.7999999523162841796875 (7549747 / 2^22). -/
def binary32Exponents : GammaExponents :=
  ⟨5033165 / 2097152, 2.19921875, 7549747 / 4194304⟩

namespace ImageFile

/-- A test for the flag `NOT_NATIVELY_SUPPORTED` that marks the four half-precision floating
point formats, the formats the message of the `throw` the test guards names (ImageFile.cpp,
lines 270-272). -/
def halfPrecisionFormats : PIXEL_FORMAT → Bool
  | PIXEL_FORMAT.R16F => true
  | PIXEL_FORMAT.RG16F => true
  | PIXEL_FORMAT.RGB16F => true
  | PIXEL_FORMAT.RGBA16F => true
  | _ => false

end ImageFile

namespace Chromaticities

/-- The set of the ProPhoto primaries and white point with the blue primary's y set to
zero. -/
def proPhotoZeroBlueY : Chromaticities :=
  ⟨⟨0.7347, 0.2653⟩, ⟨0.1596, 0.8404⟩, ⟨0.0366, 0⟩, ILLUMINANT_D50⟩

/-- The sRGB set with the red primary's x put to zero. -/
def sRGBZeroRedX : Chromaticities :=
  ⟨⟨0, 0.33⟩, ⟨0.30, 0.60⟩, ⟨0.15, 0.06⟩, ILLUMINANT_D65⟩

/-- The sRGB set with the red primary's x moved from 0.64 to 0.70. -/
def sRGBShiftedRedX : Chromaticities :=
  ⟨⟨0.70, 0.33⟩, ⟨0.30, 0.60⟩, ⟨0.15, 0.06⟩, ILLUMINANT_D65⟩

/-- The sRGB primaries with the white point (0.225, 0.33), the midpoint of the green and
the blue primary. -/
def whiteOnEdge : Chromaticities :=
  ⟨⟨0.64, 0.33⟩, ⟨0.30, 0.60⟩, ⟨0.15, 0.06⟩, ⟨0.225, 0.33⟩⟩

/-- Three primaries on the line y = x, with the equal-energy white point. -/
def collinearSet : Chromaticities :=
  ⟨⟨0.1, 0.1⟩, ⟨0.2, 0.2⟩, ⟨0.3, 0.3⟩, ⟨1 / 3, 1 / 3⟩⟩

end Chromaticities

namespace ColorProfile

/-- The default profile with the sRGB chromaticities stored: the state in which
`BuildTransformFromChroma` is entered for these chromaticities with the STANDARD curve and
exponent 1, row 3 of `m_RGB2XYZ` being the identity's. -/
def profileOfsRGB : ColorProfile :=
  { ColorProfile.new with m_chromaticities := Chromaticities.sRGB }

/-- The default profile with the chromaticities `whiteOnEdge` stored. -/
def profileWhiteOnEdge : ColorProfile :=
  { ColorProfile.new with m_chromaticities := Chromaticities.whiteOnEdge }

/-- The default profile with the chromaticities `whiteOnEdge` and the exponent 2.2 stored. -/
def profileWhiteOnEdgeGamma22 : ColorProfile :=
  { ColorProfile.new with m_chromaticities := Chromaticities.whiteOnEdge, m_gamma := 2.2 }

/-- A profile holding the sRGB chromaticities whose `m_RGB2XYZ` has a zero row 3. -/
def profileZeroLastRow : ColorProfile :=
  { ColorProfile.new with
    m_chromaticities := Chromaticities.sRGB
    m_RGB2XYZ := ⟨⟨1, 0, 0, 0⟩, ⟨0, 1, 0, 0⟩, ⟨0, 0, 1, 0⟩, ⟨0, 0, 0, 0⟩⟩ }

/-- The default profile with the sRGB chromaticities, the curve sRGB and the exponent
`2.401f` stored: the binary32 number 2.40100002288818359375 (2517631 / 2^20). -/
def profileOfsRGBGamma2401 : ColorProfile :=
  { ColorProfile.new with
    m_chromaticities := Chromaticities.sRGB
    m_gammaCurve := GAMMA_CURVE.sRGB
    m_gamma := 2517631 / 1048576 }

/-- The default profile with the ProPhoto chromaticities, the curve PRO_PHOTO and the
exponent `1.801f` stored: the binary32 number 1.80099999904632568359375 (15107883 / 2^23). -/
def profileOfProPhotoGamma1801 : ColorProfile :=
  { ColorProfile.new with
    m_chromaticities := Chromaticities.ProPhoto
    m_gammaCurve := GAMMA_CURVE.PRO_PHOTO
    m_gamma := 15107883 / 8388608 }

end ColorProfile

/-! ## Properties of the chromaticity model -/

namespace Chromaticities

/-- The source's `Equals` is the specification's matching relation. -/
theorem Equals_iff (c ref : Chromaticities) : c.Equals ref = true ↔ matchesWithin c ref := by
  simp only [Equals, float2.Almost, EPSILON, matchesWithin, Bool.and_eq_true, decide_eq_true_eq]
  tauto

/-- C1. `FindRecognizedChromaticity` is the function the specification describes: the tag
of the first reference set, tried in the order sRGB, Adobe RGB D65, Adobe RGB D50,
ProPhoto, Radiance, that matches within 1e-3 on all 8 coordinates, and otherwise CUSTOM
when all 8 coordinates are non-zero and INVALID when one of them is zero. -/
theorem C1_FindRecognizedChromaticity_eq_spec (c : Chromaticities) :
    c.FindRecognizedChromaticity = recognizedBySpec c := by
  unfold FindRecognizedChromaticity recognizedBySpec referenceSets allNonZero
  simp only [List.find?, ← Equals_iff]
  by_cases h1 : c.Equals sRGB = true
  · simp [h1]
  by_cases h2 : c.Equals AdobeRGB_D65 = true
  · simp [h1, h2]
  by_cases h3 : c.Equals AdobeRGB_D50 = true
  · simp [h1, h2, h3]
  by_cases h4 : c.Equals ProPhoto = true
  · simp [h1, h2, h3, h4]
  by_cases h5 : c.Equals Radiance = true
  · simp [h1, h2, h3, h4, h5]
  simp [h1, h2, h3, h4, h5]

/-- The tag of a reference set is returned only for a set that matches it. -/
theorem Equals_of_FindRecognizedChromaticity (c : Chromaticities) :
    ∀ rt ∈ referenceSets, c.FindRecognizedChromaticity = rt.2 → c.Equals rt.1 = true := by
  intro rt hrt
  simp only [referenceSets, List.mem_cons, List.mem_singleton, List.not_mem_nil, or_false] at hrt
  unfold FindRecognizedChromaticity
  rcases hrt with rfl | rfl | rfl | rfl | rfl <;> simp only <;> split_ifs <;> simp_all

/-- CUSTOM is returned exactly when no reference set matches and no coordinate is zero. -/
theorem FindRecognizedChromaticity_eq_CUSTOM_iff (c : Chromaticities) :
    c.FindRecognizedChromaticity = STANDARD_PROFILE.CUSTOM ↔
      (∀ rt ∈ referenceSets, ¬ matchesWithin c rt.1) ∧ allNonZero c := by
  simp only [referenceSets, List.mem_cons, List.mem_singleton, List.not_mem_nil, or_false,
    forall_eq_or_imp, forall_eq, ← Equals_iff, allNonZero]
  unfold FindRecognizedChromaticity
  split_ifs <;> simp_all

/-- A set that differs from a reference set by more than 1e-3 somewhere does not match it. -/
theorem not_matchesWithin_of_perturbedFrom (ref c : Chromaticities)
    (h : perturbedFrom ref c) : ¬ matchesWithin c ref := by
  unfold perturbedFrom at h
  unfold matchesWithin
  rintro ⟨h1, h2, h3, h4, h5, h6, h7, h8⟩
  rcases h with h | h | h | h | h | h | h | h <;> linarith

/-- A set with a zero coordinate matches no reference set all of whose coordinates are at
least 1e-3 away from zero. -/
theorem not_matchesWithin_of_hasZeroCoordinate (c ref : Chromaticities)
    (h : hasZeroCoordinate c)
    (hr : 1 / 1000 ≤ |ref.R.x| ∧ 1 / 1000 ≤ |ref.R.y| ∧ 1 / 1000 ≤ |ref.G.x|
      ∧ 1 / 1000 ≤ |ref.G.y| ∧ 1 / 1000 ≤ |ref.B.x| ∧ 1 / 1000 ≤ |ref.B.y|
      ∧ 1 / 1000 ≤ |ref.W.x| ∧ 1 / 1000 ≤ |ref.W.y|) : ¬ matchesWithin c ref := by
  unfold hasZeroCoordinate at h
  unfold matchesWithin
  obtain ⟨r1, r2, r3, r4, r5, r6, r7, r8⟩ := hr
  rintro ⟨h1, h2, h3, h4, h5, h6, h7, h8⟩
  rcases h with h | h | h | h | h | h | h | h <;>
    simp only [h, zero_sub, abs_neg] at h1 h2 h3 h4 h5 h6 h7 h8 <;> linarith

/-- C2, as stated, fails: the ProPhoto set with B.y put to exactly zero has a zero
coordinate, yet it matches the ProPhoto reference within 1e-3 (whose B.y is 0.0001) and
is reported as PRO_PHOTO, not INVALID. -/
theorem C2_counterexample :
    hasZeroCoordinate proPhotoZeroBlueY ∧
      proPhotoZeroBlueY.FindRecognizedChromaticity = STANDARD_PROFILE.PRO_PHOTO ∧
      proPhotoZeroBlueY.FindRecognizedChromaticity ≠ STANDARD_PROFILE.INVALID := by
  have h : proPhotoZeroBlueY.FindRecognizedChromaticity = STANDARD_PROFILE.PRO_PHOTO := by
    norm_num [FindRecognizedChromaticity, Equals, float2.Almost, EPSILON, proPhotoZeroBlueY,
      sRGB, AdobeRGB_D65, AdobeRGB_D50, ProPhoto, ILLUMINANT_D50, ILLUMINANT_D65, abs_lt]
  refine ⟨?_, h, ?_⟩
  · simp [hasZeroCoordinate, proPhotoZeroBlueY]
  · rw [h]; decide

/-- C2, amended. A set with a coordinate that is exactly zero is reported as INVALID,
unless it matches the ProPhoto reference set within 1e-3 on all 8 coordinates, in which
case it is reported as PRO_PHOTO. -/
theorem C2_zero_coordinate_INVALID_unless_ProPhoto (c : Chromaticities)
    (h : hasZeroCoordinate c) :
    c.FindRecognizedChromaticity =
      if c.Equals ProPhoto then STANDARD_PROFILE.PRO_PHOTO else STANDARD_PROFILE.INVALID := by
  have e1 : ¬ c.Equals sRGB = true := by
    rw [Equals_iff]
    apply not_matchesWithin_of_hasZeroCoordinate c _ h
    norm_num [sRGB, ILLUMINANT_D65, le_abs]
  have e2 : ¬ c.Equals AdobeRGB_D65 = true := by
    rw [Equals_iff]
    apply not_matchesWithin_of_hasZeroCoordinate c _ h
    norm_num [AdobeRGB_D65, ILLUMINANT_D65, le_abs]
  have e3 : ¬ c.Equals AdobeRGB_D50 = true := by
    rw [Equals_iff]
    apply not_matchesWithin_of_hasZeroCoordinate c _ h
    norm_num [AdobeRGB_D50, ILLUMINANT_D50, le_abs]
  have e5 : ¬ c.Equals Radiance = true := by
    rw [Equals_iff]
    apply not_matchesWithin_of_hasZeroCoordinate c _ h
    norm_num [Radiance, ILLUMINANT_E, le_abs]
  have hz : ¬ (c.R.x ≠ 0 ∧ c.R.y ≠ 0 ∧ c.G.x ≠ 0 ∧ c.G.y ≠ 0 ∧ c.B.x ≠ 0 ∧ c.B.y ≠ 0
      ∧ c.W.x ≠ 0 ∧ c.W.y ≠ 0) := by
    unfold hasZeroCoordinate at h
    tauto
  unfold FindRecognizedChromaticity
  simp [e1, e2, e3, e5, hz]

/-- C2, amended, at a concrete set: the all-zero set has a zero coordinate and is reported
as INVALID. -/
theorem C2_witness :
    hasZeroCoordinate Empty ∧
      Empty.FindRecognizedChromaticity =
        if Empty.Equals ProPhoto then STANDARD_PROFILE.PRO_PHOTO
        else STANDARD_PROFILE.INVALID :=
  ⟨by simp [hasZeroCoordinate, Empty],
   C2_zero_coordinate_INVALID_unless_ProPhoto Empty (by simp [hasZeroCoordinate, Empty])⟩

/-- C3. Each of the five canonical constants is reported with its own tag: none of them is
captured by a reference set that is tried earlier. -/
theorem C3_canonical_constants_recognized :
    sRGB.FindRecognizedChromaticity = STANDARD_PROFILE.sRGB ∧
    AdobeRGB_D50.FindRecognizedChromaticity = STANDARD_PROFILE.ADOBE_RGB_D50 ∧
    AdobeRGB_D65.FindRecognizedChromaticity = STANDARD_PROFILE.ADOBE_RGB_D65 ∧
    ProPhoto.FindRecognizedChromaticity = STANDARD_PROFILE.PRO_PHOTO ∧
    Radiance.FindRecognizedChromaticity = STANDARD_PROFILE.RADIANCE := by
  refine ⟨?_, ?_, ?_, ?_, ?_⟩ <;>
    norm_num [FindRecognizedChromaticity, Equals, float2.Almost, EPSILON,
      sRGB, AdobeRGB_D65, AdobeRGB_D50, ProPhoto, Radiance, ILLUMINANT_D50, ILLUMINANT_D65,
      ILLUMINANT_E, abs_lt]

/-- C4, as stated, fails. The sRGB set with R.x changed from 0.64 to 0 is reported as
INVALID, and the sRGB set with G changed from (0.30,0.60) to (0.21,0.71), which is the
Adobe RGB D65 set, is reported as ADOBE_RGB_D65: neither is CUSTOM. -/
theorem C4_counterexample :
    (perturbedFrom sRGB sRGBZeroRedX ∧
      sRGBZeroRedX.FindRecognizedChromaticity = STANDARD_PROFILE.INVALID) ∧
    (perturbedFrom sRGB AdobeRGB_D65 ∧
      AdobeRGB_D65.FindRecognizedChromaticity = STANDARD_PROFILE.ADOBE_RGB_D65) := by
  refine ⟨⟨?_, ?_⟩, ⟨?_, ?_⟩⟩
  · norm_num [perturbedFrom, sRGB, sRGBZeroRedX, ILLUMINANT_D65, lt_abs]
  · norm_num [FindRecognizedChromaticity, Equals, float2.Almost, EPSILON, sRGBZeroRedX,
      sRGB, AdobeRGB_D65, AdobeRGB_D50, ProPhoto, Radiance, ILLUMINANT_D50, ILLUMINANT_D65,
      ILLUMINANT_E, abs_lt]
  · norm_num [perturbedFrom, sRGB, AdobeRGB_D65, ILLUMINANT_D65, lt_abs]
  · norm_num [FindRecognizedChromaticity, Equals, float2.Almost, EPSILON,
      sRGB, AdobeRGB_D65, ILLUMINANT_D65, abs_lt]

/-- C4, amended. For each of the five canonical constants, a set obtained from it by
changing at least one of the 8 coordinates by more than 1e-3 is never reported with that
constant's tag, and it is reported as CUSTOM exactly when, in addition, it matches none
of the reference sets within 1e-3 and all of its 8 coordinates are non-zero. -/
theorem C4_perturbed_constant (rt : Chromaticities × STANDARD_PROFILE)
    (hrt : rt ∈ referenceSets) (c : Chromaticities) (h : perturbedFrom rt.1 c) :
    c.FindRecognizedChromaticity ≠ rt.2 ∧
      (c.FindRecognizedChromaticity = STANDARD_PROFILE.CUSTOM ↔
        (∀ rt2 ∈ referenceSets, ¬ matchesWithin c rt2.1) ∧ allNonZero c) := by
  refine ⟨?_, FindRecognizedChromaticity_eq_CUSTOM_iff c⟩
  intro heq
  have hE := Equals_of_FindRecognizedChromaticity c rt hrt heq
  rw [Equals_iff] at hE
  exact not_matchesWithin_of_perturbedFrom rt.1 c h hE

/-- C4, amended, at a concrete set: the sRGB set with R.x moved to 0.70. -/
theorem C4_witness :
    perturbedFrom sRGB sRGBShiftedRedX ∧
      (sRGBShiftedRedX.FindRecognizedChromaticity ≠ STANDARD_PROFILE.sRGB ∧
        (sRGBShiftedRedX.FindRecognizedChromaticity = STANDARD_PROFILE.CUSTOM ↔
          (∀ rt2 ∈ referenceSets, ¬ matchesWithin sRGBShiftedRedX rt2.1) ∧
            allNonZero sRGBShiftedRedX)) :=
  ⟨by norm_num [perturbedFrom, sRGB, sRGBShiftedRedX, ILLUMINANT_D65, lt_abs],
   C4_perturbed_constant (sRGB, STANDARD_PROFILE.sRGB) (by simp [referenceSets])
     sRGBShiftedRedX
     (by norm_num [perturbedFrom, sRGB, sRGBShiftedRedX, ILLUMINANT_D65, lt_abs])⟩

end Chromaticities

/-! ## Properties of the matrices -/

namespace float4x4

set_option maxHeartbeats 1000000 in
/-- A matrix of non-zero determinant times its `Invert` is the identity. -/
theorem mul_Invert (m : float4x4) (h : m.Determinant ≠ 0) : m.mul m.Invert = Identity := by
  obtain ⟨⟨a00, a01, a02, a03⟩, ⟨a10, a11, a12, a13⟩, ⟨a20, a21, a22, a23⟩,
    ⟨a30, a31, a32, a33⟩⟩ := m
  generalize hd : Determinant _ = d at h
  simp only [Determinant] at hd
  simp only [mul, float4.mul, Invert, Identity, float4x4.mk.injEq, float4.mk.injEq, Determinant, hd]
  refine ⟨⟨?_, ?_, ?_, ?_⟩, ⟨?_, ?_, ?_, ?_⟩, ⟨?_, ?_, ?_, ?_⟩, ⟨?_, ?_, ?_, ?_⟩⟩ <;>
    field_simp <;> (try rw [← hd]) <;> ring

set_option maxHeartbeats 1000000 in
/-- The `Invert` of a matrix of non-zero determinant times the matrix is the identity. -/
theorem Invert_mul (m : float4x4) (h : m.Determinant ≠ 0) : m.Invert.mul m = Identity := by
  obtain ⟨⟨a00, a01, a02, a03⟩, ⟨a10, a11, a12, a13⟩, ⟨a20, a21, a22, a23⟩,
    ⟨a30, a31, a32, a33⟩⟩ := m
  generalize hd : Determinant _ = d at h
  simp only [Determinant] at hd
  simp only [mul, float4.mul, Invert, Identity, float4x4.mk.injEq, float4.mk.injEq, Determinant, hd]
  refine ⟨⟨?_, ?_, ?_, ?_⟩, ⟨?_, ?_, ?_, ?_⟩, ⟨?_, ?_, ?_, ?_⟩, ⟨?_, ?_, ?_, ?_⟩⟩ <;>
    field_simp <;> (try rw [← hd]) <;> ring

end float4x4

/-- A row vector times the identity matrix is the vector. -/
theorem float4.mul_Identity (v : float4) : v.mul float4x4.Identity = v := by
  simp [float4.mul, float4x4.Identity]

/-- The product of a row vector and two matrices is associative. -/
theorem float4.mul_mul (v : float4) (a b : float4x4) :
    (v.mul a).mul b = v.mul (a.mul b) := by
  simp only [float4.mul, float4x4.mul, float4.mk.injEq]
  refine ⟨?_, ?_, ?_, ?_⟩ <;> ring

namespace ColorProfile

/-- The determinant of `M_xyz` is the collinearity expression of the three primaries. -/
theorem Determinant_M_xyz (c : Chromaticities) :
    (M_xyz c).Determinant =
      (c.G.x - c.R.x) * (c.B.y - c.R.y) - (c.B.x - c.R.x) * (c.G.y - c.R.y) := by
  simp only [M_xyz, float4x4.Determinant]
  ring

/-- For primaries that are not collinear, `Sum_RGB` times `M_xyz` is the white point's XYZ value. -/
theorem Sum_RGB_mul_M_xyz (c : Chromaticities) (h : ¬ collinearPrimaries c) :
    (Sum_RGB c).mul (M_xyz c) = float4.ofFloat3 (xyY2XYZ ⟨c.W.x, c.W.y, 1⟩) 1 := by
  have hd : (M_xyz c).Determinant ≠ 0 := by
    rw [Determinant_M_xyz]; exact h
  unfold Sum_RGB
  simp only []
  rw [float4.mul_mul, float4x4.Invert_mul _ hd, float4.mul_Identity]

/-- The converter assignment does not write `m_RGB2XYZ`. -/
theorem BuildTransformFromChroma_assign_m_RGB2XYZ (p : ColorProfile) (t : STANDARD_PROFILE) :
    (p.BuildTransformFromChroma_assign t).m_RGB2XYZ = p.m_RGB2XYZ := by
  unfold BuildTransformFromChroma_assign
  cases t <;> (try simp only []) <;> cases p.m_gammaCurve <;> (try simp only []) <;>
    (try split_ifs) <;> rfl

/-- The converter assignment does not write `m_XYZ2RGB`. -/
theorem BuildTransformFromChroma_assign_m_XYZ2RGB (p : ColorProfile) (t : STANDARD_PROFILE) :
    (p.BuildTransformFromChroma_assign t).m_XYZ2RGB = p.m_XYZ2RGB := by
  unfold BuildTransformFromChroma_assign
  cases t <;> (try simp only []) <;> cases p.m_gammaCurve <;> (try simp only []) <;>
    (try split_ifs) <;> rfl

/-- The converter assignment does not write the chromaticities. -/
theorem BuildTransformFromChroma_assign_m_chromaticities (p : ColorProfile)
    (t : STANDARD_PROFILE) :
    (p.BuildTransformFromChroma_assign t).m_chromaticities = p.m_chromaticities := by
  unfold BuildTransformFromChroma_assign
  cases t <;> (try simp only []) <;> cases p.m_gammaCurve <;> (try simp only []) <;>
    (try split_ifs) <;> rfl

/-- The converter assignment selects a converter for every tag and every gamma curve. -/
theorem BuildTransformFromChroma_assign_isSome (p : ColorProfile) (t : STANDARD_PROFILE) :
    (p.BuildTransformFromChroma_assign t).m_internalConverter.isSome = true := by
  unfold BuildTransformFromChroma_assign
  cases t <;> (try simp only []) <;> cases p.m_gammaCurve <;> (try simp only []) <;>
    (try split_ifs) <;> rfl

end ColorProfile

/-! ## Properties of the transform builder -/

namespace ColorProfile

/-- The RGB->XYZ matrix after the build is the one of the matrix step. -/
theorem BuildTransformFromChroma_m_RGB2XYZ (p : ColorProfile) (b : Bool) :
    (p.BuildTransformFromChroma b).m_RGB2XYZ = p.BuildTransformFromChroma_matrices.m_RGB2XYZ := by
  unfold BuildTransformFromChroma
  exact BuildTransformFromChroma_assign_m_RGB2XYZ _ _

/-- The XYZ->RGB matrix after the build is the one of the matrix step. -/
theorem BuildTransformFromChroma_m_XYZ2RGB (p : ColorProfile) (b : Bool) :
    (p.BuildTransformFromChroma b).m_XYZ2RGB = p.BuildTransformFromChroma_matrices.m_XYZ2RGB := by
  unfold BuildTransformFromChroma
  exact BuildTransformFromChroma_assign_m_XYZ2RGB _ _

/-- The rows R, G, B of the built matrix add up to the white point's XYZ value. -/
theorem rows_sum_eq_white (p : ColorProfile) (b : Bool)
    (hn : ¬ collinearPrimaries p.m_chromaticities)
    (hw : 1 / 100000000 < p.m_chromaticities.W.y) :
    (⟨1, 1, 1, 0⟩ : float4).mul (p.BuildTransformFromChroma b).m_RGB2XYZ =
      ⟨p.m_chromaticities.W.x / p.m_chromaticities.W.y, 1,
       (1 - p.m_chromaticities.W.x - p.m_chromaticities.W.y) / p.m_chromaticities.W.y, 0⟩ := by
  have hS := Sum_RGB_mul_M_xyz p.m_chromaticities hn
  have hx := congrArg float4.x hS
  have hy := congrArg float4.y hS
  have hz := congrArg float4.z hS
  simp only [float4.mul, M_xyz, float4.ofFloat3, xyY2XYZ, gt_iff_lt, hw, if_true, mul_zero,
    add_zero, mul_one] at hx hy hz
  rw [BuildTransformFromChroma_m_RGB2XYZ]
  simp only [BuildTransformFromChroma_matrices, float4.mul, float4.ofFloat3, float3.scale,
    float4.mk.injEq, one_mul, zero_mul, add_zero, mul_zero]
  refine ⟨?_, ?_, ?_, trivial⟩
  · rw [← mul_one_div]; linarith
  · linarith
  · rw [← mul_one_div]; linarith

/-- The three components of `Sum_RGB`, by Cramer's rule. -/
theorem Sum_RGB_components (c : Chromaticities) (hn : ¬ collinearPrimaries c)
    (hw : 1 / 100000000 < c.W.y) :
    (Sum_RGB c).x * (c.W.y * ((c.G.x - c.R.x) * (c.B.y - c.R.y) - (c.B.x - c.R.x) * (c.G.y - c.R.y)))
        = (c.G.x - c.W.x) * (c.B.y - c.W.y) - (c.B.x - c.W.x) * (c.G.y - c.W.y) ∧
    (Sum_RGB c).y * (c.W.y * ((c.G.x - c.R.x) * (c.B.y - c.R.y) - (c.B.x - c.R.x) * (c.G.y - c.R.y)))
        = (c.W.x - c.R.x) * (c.B.y - c.R.y) - (c.B.x - c.R.x) * (c.W.y - c.R.y) ∧
    (Sum_RGB c).z * (c.W.y * ((c.G.x - c.R.x) * (c.B.y - c.R.y) - (c.B.x - c.R.x) * (c.G.y - c.R.y)))
        = (c.G.x - c.R.x) * (c.W.y - c.R.y) - (c.W.x - c.R.x) * (c.G.y - c.R.y) := by
  have hd : (c.G.x - c.R.x) * (c.B.y - c.R.y) - (c.B.x - c.R.x) * (c.G.y - c.R.y) ≠ 0 := hn
  have hy : c.W.y ≠ 0 := by
    intro h0; rw [h0] at hw; norm_num at hw
  simp only [Sum_RGB, float4x4.Invert, float4.mul, float4.ofFloat3, xyY2XYZ, gt_iff_lt, hw,
    if_true, Determinant_M_xyz]
  simp only [M_xyz]
  refine ⟨?_, ?_, ?_⟩ <;> field_simp <;> ring

/-- The determinant of the built RGB->XYZ matrix. -/
theorem Determinant_m_RGB2XYZ (p : ColorProfile) :
    p.BuildTransformFromChroma_matrices.m_RGB2XYZ.Determinant =
      p.m_RGB2XYZ.r3.w *
        ((Sum_RGB p.m_chromaticities).x * (Sum_RGB p.m_chromaticities).y
          * (Sum_RGB p.m_chromaticities).z) *
        ((p.m_chromaticities.G.x - p.m_chromaticities.R.x)
          * (p.m_chromaticities.B.y - p.m_chromaticities.R.y)
          - (p.m_chromaticities.B.x - p.m_chromaticities.R.x)
          * (p.m_chromaticities.G.y - p.m_chromaticities.R.y)) := by
  simp only [BuildTransformFromChroma_matrices, float4x4.Determinant, float4.ofFloat3,
    float3.scale]
  ring

/-- C6, as stated, fails. (1) With the sRGB primaries and the white point (0.225, 0.33), the
midpoint of the green and the blue primary, the primaries are not collinear and the white
point has y > 1e-8, but the red scale factor `Sum_RGB.x` is 0: row 0 of the built RGB->XYZ
matrix is zero, so its product with the built XYZ->RGB matrix (with any matrix at all) is
not the identity. (2) The build writes rows 0 to 2 of `m_RGB2XYZ` only: entered with a zero
row 3, it leaves, for the sRGB chromaticities, a matrix that no matrix inverts. -/
theorem C6_counterexample :
    (¬ collinearPrimaries profileWhiteOnEdge.m_chromaticities ∧
      1 / 100000000 < profileWhiteOnEdge.m_chromaticities.W.y ∧
      profileWhiteOnEdge.m_RGB2XYZ.r3 = ⟨0, 0, 0, 1⟩ ∧
      (profileWhiteOnEdge.BuildTransformFromChroma true).m_RGB2XYZ.mul
        (profileWhiteOnEdge.BuildTransformFromChroma true).m_XYZ2RGB ≠ float4x4.Identity ∧
      ∀ X : float4x4,
        (profileWhiteOnEdge.BuildTransformFromChroma true).m_RGB2XYZ.mul X
          ≠ float4x4.Identity) ∧
    (¬ collinearPrimaries profileZeroLastRow.m_chromaticities ∧
      1 / 100000000 < profileZeroLastRow.m_chromaticities.W.y ∧
      ¬ whiteOnGamutEdge profileZeroLastRow.m_chromaticities ∧
      ∀ X : float4x4,
        (profileZeroLastRow.BuildTransformFromChroma true).m_RGB2XYZ.mul X
          ≠ float4x4.Identity) := by
  have hn : ¬ collinearPrimaries profileWhiteOnEdge.m_chromaticities := by
    norm_num [collinearPrimaries, collinear, profileWhiteOnEdge, Chromaticities.whiteOnEdge]
  have hw : 1 / 100000000 < profileWhiteOnEdge.m_chromaticities.W.y := by
    norm_num [profileWhiteOnEdge, Chromaticities.whiteOnEdge]
  have hS : (Sum_RGB profileWhiteOnEdge.m_chromaticities).x = 0 := by
    have h := (Sum_RGB_components _ hn hw).1
    simp only [show profileWhiteOnEdge.m_chromaticities = Chromaticities.whiteOnEdge from rfl] at h ⊢
    norm_num [show Chromaticities.whiteOnEdge.R = ⟨0.64, 0.33⟩ from rfl, show Chromaticities.whiteOnEdge.G = ⟨0.30, 0.60⟩ from rfl,
      show Chromaticities.whiteOnEdge.B = ⟨0.15, 0.06⟩ from rfl, show Chromaticities.whiteOnEdge.W = ⟨0.225, 0.33⟩ from rfl] at h
    exact h
  have hX : ∀ X : float4x4,
      (profileWhiteOnEdge.BuildTransformFromChroma true).m_RGB2XYZ.mul X
        ≠ float4x4.Identity := by
    intro X hX
    have h := congrArg (fun m => m.r0.x) hX
    rw [BuildTransformFromChroma_m_RGB2XYZ] at h
    simp [BuildTransformFromChroma_matrices, float4x4.mul, float4.mul, float4.ofFloat3,
      float3.scale, hS, float4x4.Identity] at h
  have hn2 : ¬ collinearPrimaries profileZeroLastRow.m_chromaticities := by
    norm_num [collinearPrimaries, collinear, profileZeroLastRow, Chromaticities.sRGB]
  refine ⟨⟨hn, hw, rfl, hX _, hX⟩, ⟨hn2, ?_, ?_, ?_⟩⟩
  · norm_num [profileZeroLastRow, Chromaticities.sRGB, ILLUMINANT_D65]
  · norm_num [whiteOnGamutEdge, collinear, profileZeroLastRow, Chromaticities.sRGB,
      ILLUMINANT_D65]
  · intro X hX
    have h := congrArg (fun m => m.r3.w) hX
    rw [BuildTransformFromChroma_m_RGB2XYZ] at h
    simp [BuildTransformFromChroma_matrices, float4x4.mul, float4.mul, profileZeroLastRow,
      float4x4.Identity] at h

/-- C6, amended. For every chromaticity set whose primaries are not collinear, whose white
point has y > 1e-8 and lies on none of the three lines through two primaries, and for a
profile whose `m_RGB2XYZ` holds a non-zero w in row 3 (the row the build does not write; the
identity's row does), the two matrices left by `BuildTransformFromChroma` are mutually
inverse: their product, in either order, is the 4x4 identity. -/
theorem C6_matrices_mutually_inverse (p : ColorProfile) (b : Bool)
    (hn : ¬ collinearPrimaries p.m_chromaticities)
    (hw : 1 / 100000000 < p.m_chromaticities.W.y)
    (he : ¬ whiteOnGamutEdge p.m_chromaticities)
    (h3 : p.m_RGB2XYZ.r3.w ≠ 0) :
    (p.BuildTransformFromChroma b).m_RGB2XYZ.mul (p.BuildTransformFromChroma b).m_XYZ2RGB
        = float4x4.Identity ∧
      (p.BuildTransformFromChroma b).m_XYZ2RGB.mul (p.BuildTransformFromChroma b).m_RGB2XYZ
        = float4x4.Identity := by
  have hy : p.m_chromaticities.W.y ≠ 0 := by
    intro h0; rw [h0] at hw; norm_num at hw
  have hD : (p.m_chromaticities.G.x - p.m_chromaticities.R.x)
          * (p.m_chromaticities.B.y - p.m_chromaticities.R.y)
          - (p.m_chromaticities.B.x - p.m_chromaticities.R.x)
          * (p.m_chromaticities.G.y - p.m_chromaticities.R.y) ≠ 0 := hn
  obtain ⟨cx, cy, cz⟩ := Sum_RGB_components p.m_chromaticities hn hw
  simp only [whiteOnGamutEdge, collinear, not_or] at he
  obtain ⟨e1, e2, e3⟩ := he
  have sx : (Sum_RGB p.m_chromaticities).x ≠ 0 := by
    intro h0; rw [h0, zero_mul] at cx; exact e1 cx.symm
  have sy : (Sum_RGB p.m_chromaticities).y ≠ 0 := by
    intro h0; rw [h0, zero_mul] at cy; exact e2 cy.symm
  have sz : (Sum_RGB p.m_chromaticities).z ≠ 0 := by
    intro h0; rw [h0, zero_mul] at cz; exact e3 cz.symm
  have hdet : p.BuildTransformFromChroma_matrices.m_RGB2XYZ.Determinant ≠ 0 := by
    rw [Determinant_m_RGB2XYZ]
    exact mul_ne_zero (mul_ne_zero h3 (mul_ne_zero (mul_ne_zero sx sy) sz)) hD
  rw [BuildTransformFromChroma_m_RGB2XYZ, BuildTransformFromChroma_m_XYZ2RGB]
  have hinv : p.BuildTransformFromChroma_matrices.m_XYZ2RGB
      = p.BuildTransformFromChroma_matrices.m_RGB2XYZ.Invert := rfl
  rw [hinv]
  exact ⟨float4x4.mul_Invert _ hdet, float4x4.Invert_mul _ hdet⟩

/-- C5. For every chromaticity set whose primaries are not collinear and whose white point
has y > 1e-8, the RGB->XYZ matrix built by `BuildTransformFromChroma` maps RGB white (1,1,1)
to the white point's XYZ value (W.x/W.y, 1, (1-W.x-W.y)/W.y), the Y column of the rows R, G,
B sums to exactly 1 (and with the identity's row 3 the color (1,1,1,1) is mapped to that
value with w = 1); for the sRGB chromaticities the result is (0.9505, 1.0, 1.0890) to within
1e-4. -/
theorem C5_RGB_white_maps_to_white_point (p : ColorProfile) (b : Bool)
    (hn : ¬ collinearPrimaries p.m_chromaticities)
    (hw : 1 / 100000000 < p.m_chromaticities.W.y) :
    (⟨1, 1, 1, 0⟩ : float4).mul (p.BuildTransformFromChroma b).m_RGB2XYZ =
        ⟨p.m_chromaticities.W.x / p.m_chromaticities.W.y, 1,
         (1 - p.m_chromaticities.W.x - p.m_chromaticities.W.y) / p.m_chromaticities.W.y, 0⟩ ∧
      (p.BuildTransformFromChroma b).m_RGB2XYZ.r0.y + (p.BuildTransformFromChroma b).m_RGB2XYZ.r1.y
        + (p.BuildTransformFromChroma b).m_RGB2XYZ.r2.y = 1 ∧
      (p.m_RGB2XYZ.r3 = ⟨0, 0, 0, 1⟩ →
        (⟨1, 1, 1, 1⟩ : float4).mul (p.BuildTransformFromChroma b).m_RGB2XYZ =
          ⟨p.m_chromaticities.W.x / p.m_chromaticities.W.y, 1,
           (1 - p.m_chromaticities.W.x - p.m_chromaticities.W.y) / p.m_chromaticities.W.y, 1⟩) ∧
      (p.m_chromaticities = ⟨⟨0.64, 0.33⟩, ⟨0.30, 0.60⟩, ⟨0.15, 0.06⟩, ⟨0.3127, 0.3290⟩⟩ →
        |((⟨1, 1, 1, 0⟩ : float4).mul (p.BuildTransformFromChroma b).m_RGB2XYZ).x - 0.9505|
            < 1 / 10000 ∧
          ((⟨1, 1, 1, 0⟩ : float4).mul (p.BuildTransformFromChroma b).m_RGB2XYZ).y = 1 ∧
          |((⟨1, 1, 1, 0⟩ : float4).mul (p.BuildTransformFromChroma b).m_RGB2XYZ).z - 1.0890|
            < 1 / 10000) := by
  have h := rows_sum_eq_white p b hn hw
  have hr3 : (p.BuildTransformFromChroma b).m_RGB2XYZ.r3 = p.m_RGB2XYZ.r3 := by
    rw [BuildTransformFromChroma_m_RGB2XYZ]; rfl
  have hx := congrArg float4.x h
  have hy := congrArg float4.y h
  have hz := congrArg float4.z h
  simp only [float4.mul, one_mul, zero_mul, add_zero] at hx hy hz
  refine ⟨h, hy, ?_, ?_⟩
  · intro h1
    simp only [float4.mul, one_mul, hr3, h1, add_zero, float4.mk.injEq]
    simp only [float4.mul, one_mul, zero_mul, add_zero, float4.mk.injEq] at h
    refine ⟨h.1, h.2.1, h.2.2.1, ?_⟩
    linarith [h.2.2.2]
  · intro hc
    rw [h, hc]
    norm_num [abs_lt]

/-- C5 at the sRGB chromaticities: RGB white is mapped to (0.9505, 1.0, 1.0890) within 1e-4. -/
theorem C5_witness :
    ¬ collinearPrimaries profileOfsRGB.m_chromaticities ∧
      1 / 100000000 < profileOfsRGB.m_chromaticities.W.y ∧
      (⟨1, 1, 1, 0⟩ : float4).mul (profileOfsRGB.BuildTransformFromChroma true).m_RGB2XYZ =
        ⟨profileOfsRGB.m_chromaticities.W.x / profileOfsRGB.m_chromaticities.W.y, 1,
         (1 - profileOfsRGB.m_chromaticities.W.x - profileOfsRGB.m_chromaticities.W.y)
           / profileOfsRGB.m_chromaticities.W.y, 0⟩ ∧
      |((⟨1, 1, 1, 0⟩ : float4).mul (profileOfsRGB.BuildTransformFromChroma true).m_RGB2XYZ).x
        - 0.9505| < 1 / 10000 ∧
      ((⟨1, 1, 1, 0⟩ : float4).mul (profileOfsRGB.BuildTransformFromChroma true).m_RGB2XYZ).y = 1 ∧
      |((⟨1, 1, 1, 0⟩ : float4).mul (profileOfsRGB.BuildTransformFromChroma true).m_RGB2XYZ).z
        - 1.0890| < 1 / 10000 :=
  have hn : ¬ collinearPrimaries profileOfsRGB.m_chromaticities := by
    norm_num [collinearPrimaries, collinear, profileOfsRGB, Chromaticities.sRGB]
  have hw : 1 / 100000000 < profileOfsRGB.m_chromaticities.W.y := by
    norm_num [profileOfsRGB, Chromaticities.sRGB, ILLUMINANT_D65]
  ⟨hn, hw, (C5_RGB_white_maps_to_white_point profileOfsRGB true hn hw).1,
    (C5_RGB_white_maps_to_white_point profileOfsRGB true hn hw).2.2.2
      (by simp [profileOfsRGB, Chromaticities.sRGB, ILLUMINANT_D65])⟩

/-- C6, amended, at the sRGB chromaticities entered with the identity's row 3. -/
theorem C6_witness :
    ¬ collinearPrimaries profileOfsRGB.m_chromaticities ∧
      1 / 100000000 < profileOfsRGB.m_chromaticities.W.y ∧
      ¬ whiteOnGamutEdge profileOfsRGB.m_chromaticities ∧
      profileOfsRGB.m_RGB2XYZ.r3.w ≠ 0 ∧
      (profileOfsRGB.BuildTransformFromChroma true).m_RGB2XYZ.mul
        (profileOfsRGB.BuildTransformFromChroma true).m_XYZ2RGB = float4x4.Identity ∧
      (profileOfsRGB.BuildTransformFromChroma true).m_XYZ2RGB.mul
        (profileOfsRGB.BuildTransformFromChroma true).m_RGB2XYZ = float4x4.Identity :=
  have hn : ¬ collinearPrimaries profileOfsRGB.m_chromaticities := by
    norm_num [collinearPrimaries, collinear, profileOfsRGB, Chromaticities.sRGB]
  have hw : 1 / 100000000 < profileOfsRGB.m_chromaticities.W.y := by
    norm_num [profileOfsRGB, Chromaticities.sRGB, ILLUMINANT_D65]
  have he : ¬ whiteOnGamutEdge profileOfsRGB.m_chromaticities := by
    norm_num [whiteOnGamutEdge, collinear, profileOfsRGB, Chromaticities.sRGB,
      ILLUMINANT_D65]
  have h3 : profileOfsRGB.m_RGB2XYZ.r3.w ≠ 0 := by
    norm_num [profileOfsRGB, ColorProfile.new, float4x4.Identity]
  ⟨hn, hw, he, h3, C6_matrices_mutually_inverse profileOfsRGB true hn hw he h3⟩

/-- The build is the matrix step followed by the converter assignment for the recognized tag. -/
theorem BuildTransformFromChroma_eq (p : ColorProfile) (b : Bool) :
    p.BuildTransformFromChroma b =
      p.BuildTransformFromChroma_matrices.BuildTransformFromChroma_assign
        (p.BuildTransformFromChroma_recognize b) := rfl

/-- C7, as stated, fails. The primaries (0.1,0.1), (0.2,0.2), (0.3,0.3) are collinear and the
matrix `M_xyz` is singular, yet the constructor returns a profile: no error is raised, the
generic no-gamma converter is selected and the matrices are the ones computed from the
inversion. -/
theorem C7_counterexample :
    collinearPrimaries Chromaticities.collinearSet ∧
      (M_xyz Chromaticities.collinearSet).Determinant = 0 ∧
      ∃ p, fromChromaticities ColorProfile.new Chromaticities.collinearSet
            GAMMA_CURVE.STANDARD 1 = Except.ok p ∧
        p.m_internalConverter =
          some (InternalColorConverter.Generic_NoGamma p.m_RGB2XYZ p.m_XYZ2RGB) ∧
        p.m_XYZ2RGB = p.m_RGB2XYZ.Invert := by
  have hc : collinearPrimaries Chromaticities.collinearSet := by
    norm_num [collinearPrimaries, collinear, Chromaticities.collinearSet]
  refine ⟨hc, ?_, _, rfl, ?_, ?_⟩
  · rw [Determinant_M_xyz]; exact hc
  · have hF : Chromaticities.collinearSet.FindRecognizedChromaticity
        = STANDARD_PROFILE.CUSTOM := by
      norm_num [Chromaticities.FindRecognizedChromaticity, Chromaticities.Equals,
        float2.Almost, Chromaticities.EPSILON, Chromaticities.collinearSet,
        Chromaticities.sRGB, Chromaticities.AdobeRGB_D65, Chromaticities.AdobeRGB_D50,
        Chromaticities.ProPhoto, Chromaticities.Radiance, ILLUMINANT_D50, ILLUMINANT_D65,
        ILLUMINANT_E, abs_lt]
    unfold fromChromaticities at *
    rw [BuildTransformFromChroma_eq]
    have hr : BuildTransformFromChroma_recognize
        { ColorProfile.new with m_chromaticities := Chromaticities.collinearSet,
                                m_gammaCurve := GAMMA_CURVE.STANDARD, m_gamma := 1 } true
        = STANDARD_PROFILE.CUSTOM := by
      simp [BuildTransformFromChroma_recognize, hF]
    rw [hr]
    simp [BuildTransformFromChroma_assign, BuildTransformFromChroma_matrices]
  · rw [BuildTransformFromChroma_m_RGB2XYZ, BuildTransformFromChroma_m_XYZ2RGB]; rfl

/-- C7, amended. Constructing a profile from chromaticities whose three primaries are
collinear, or rebuilding it through a gamma mutator, does not fail: `M_xyz` is singular
(determinant 0), and the constructor still returns a profile that holds the chromaticities
and a converter, with the matrices computed from the unguarded inversion of the singular
matrix; no degenerate-profile error is raised. -/
theorem C7_collinear_primaries_build_completes (raw : ColorProfile) (c : Chromaticities)
    (k : GAMMA_CURVE) (g : float) (h : collinearPrimaries c) :
    (M_xyz c).Determinant = 0 ∧
      (∃ p, fromChromaticities raw c k g = Except.ok p ∧
        p.m_chromaticities = c ∧
        p.m_internalConverter.isSome = true ∧
        p.m_RGB2XYZ.r0
          = float4.ofFloat3 (float3.scale (Sum_RGB c).x ⟨c.R.x, c.R.y, 1 - c.R.x - c.R.y⟩) 0 ∧
        p.m_RGB2XYZ.r1
          = float4.ofFloat3 (float3.scale (Sum_RGB c).y ⟨c.G.x, c.G.y, 1 - c.G.x - c.G.y⟩) 0 ∧
        p.m_RGB2XYZ.r2
          = float4.ofFloat3 (float3.scale (Sum_RGB c).z ⟨c.B.x, c.B.y, 1 - c.B.x - c.B.y⟩) 0 ∧
        p.m_XYZ2RGB = p.m_RGB2XYZ.Invert) ∧
      (SetGamma { raw with m_chromaticities := c } g).m_internalConverter.isSome = true ∧
      (SetGammaCurve { raw with m_chromaticities := c } k).m_internalConverter.isSome = true := by
  refine ⟨?_, ⟨_, rfl, ?_, ?_, ?_, ?_, ?_, ?_⟩, ?_, ?_⟩
  · rw [Determinant_M_xyz]; exact h
  · rw [BuildTransformFromChroma_eq, BuildTransformFromChroma_assign_m_chromaticities]
    rfl
  · exact BuildTransformFromChroma_assign_isSome _ _
  · rw [BuildTransformFromChroma_m_RGB2XYZ]; rfl
  · rw [BuildTransformFromChroma_m_RGB2XYZ]; rfl
  · rw [BuildTransformFromChroma_m_RGB2XYZ]; rfl
  · rw [BuildTransformFromChroma_m_RGB2XYZ, BuildTransformFromChroma_m_XYZ2RGB]; rfl
  · exact BuildTransformFromChroma_assign_isSome _ _
  · exact BuildTransformFromChroma_assign_isSome _ _

/-- C7, amended, at the collinear primaries (0.1,0.1), (0.2,0.2), (0.3,0.3). -/
theorem C7_witness :
    collinearPrimaries Chromaticities.collinearSet ∧
      (M_xyz Chromaticities.collinearSet).Determinant = 0 ∧
      ∃ p, fromChromaticities ColorProfile.new Chromaticities.collinearSet
            GAMMA_CURVE.sRGB 2.4 = Except.ok p ∧
        p.m_chromaticities = Chromaticities.collinearSet ∧
        p.m_internalConverter.isSome = true := by
  have hc : collinearPrimaries Chromaticities.collinearSet := by
    norm_num [collinearPrimaries, collinear, Chromaticities.collinearSet]
  obtain ⟨h1, ⟨p, hp, hq, hr, _⟩, _⟩ :=
    C7_collinear_primaries_build_completes ColorProfile.new Chromaticities.collinearSet
      GAMMA_CURVE.sRGB 2.4 hc
  exact ⟨hc, h1, p, hp, hq, hr⟩

end ColorProfile

/-! ## Properties of the constructors -/

namespace ColorProfile

/-- C8. The constructor `ColorProfile( STANDARD_PROFILE )` fails with "Unsupported standard
profile!", before any transform is built, exactly when the tag is not one of LINEAR, sRGB,
ADOBE_RGB_D50, ADOBE_RGB_D65, PRO_PHOTO, RADIANCE, in particular for INVALID and CUSTOM; for
each of those six tags it completes: it returns the profile built by
`BuildTransformFromChroma( true )` from the installed fields, holding a converter. -/
theorem C8_fromStandardProfile_fails_iff_unsupported (raw : ColorProfile)
    (t : STANDARD_PROFILE) :
    (fromStandardProfile raw t = Except.error "Unsupported standard profile!" ↔
      (t ≠ STANDARD_PROFILE.LINEAR ∧ t ≠ STANDARD_PROFILE.sRGB ∧
        t ≠ STANDARD_PROFILE.ADOBE_RGB_D50 ∧ t ≠ STANDARD_PROFILE.ADOBE_RGB_D65 ∧
        t ≠ STANDARD_PROFILE.PRO_PHOTO ∧ t ≠ STANDARD_PROFILE.RADIANCE)) ∧
    ((t = STANDARD_PROFILE.LINEAR ∨ t = STANDARD_PROFILE.sRGB ∨
        t = STANDARD_PROFILE.ADOBE_RGB_D50 ∨ t = STANDARD_PROFILE.ADOBE_RGB_D65 ∨
        t = STANDARD_PROFILE.PRO_PHOTO ∨ t = STANDARD_PROFILE.RADIANCE) ↔
      ∃ (c : Chromaticities) (k : GAMMA_CURVE) (g : float),
        fromStandardProfile raw t = Except.ok (BuildTransformFromChroma
          { raw with m_chromaticities := c, m_gammaCurve := k, m_gamma := g } true) ∧
        (BuildTransformFromChroma
          { raw with m_chromaticities := c, m_gammaCurve := k, m_gamma := g }
          true).m_internalConverter.isSome = true) ∧
    fromStandardProfile raw STANDARD_PROFILE.INVALID
      = Except.error "Unsupported standard profile!" ∧
    fromStandardProfile raw STANDARD_PROFILE.CUSTOM
      = Except.error "Unsupported standard profile!" := by
  refine ⟨?_, ?_, rfl, rfl⟩
  · cases t <;> simp [fromStandardProfile]
  · constructor
    · intro h
      cases t <;> simp only [reduceCtorEq, or_self, or_false, false_or] at h
      all_goals exact ⟨_, _, _, rfl, BuildTransformFromChroma_assign_isSome _ _⟩
    · rintro ⟨c, k, g, h, _⟩
      cases t <;> simp [fromStandardProfile] at h ⊢

/-- The tag after the gamma check, for chromaticities recognized as sRGB. -/
theorem BuildTransformFromChroma_recognize_sRGB (p : ColorProfile)
    (h : p.m_chromaticities.FindRecognizedChromaticity = STANDARD_PROFILE.sRGB) :
    p.BuildTransformFromChroma_recognize true =
      if p.m_gammaCurve = GAMMA_CURVE.sRGB ∧ |GAMMA_EXPONENT_sRGB - p.m_gamma| < 1 / 1000
      then STANDARD_PROFILE.sRGB else STANDARD_PROFILE.CUSTOM := by
  simp only [BuildTransformFromChroma_recognize, h, EnsureGamma, if_true]
  by_cases h1 : p.m_gammaCurve = GAMMA_CURVE.sRGB <;>
    by_cases h2 : |GAMMA_EXPONENT_sRGB - p.m_gamma| < 1 / 1000 <;>
    simp [-one_div, -not_lt, h1, h2]

/-- The state left by the build when the final tag is CUSTOM, the curve STANDARD and the
exponent away from 1: the generic power-law converter, all other fields as the matrix step
left them. -/
theorem BuildTransformFromChroma_of_CUSTOM_power (p : ColorProfile) (b : Bool)
    (ht : p.BuildTransformFromChroma_recognize b = STANDARD_PROFILE.CUSTOM)
    (hk : p.m_gammaCurve = GAMMA_CURVE.STANDARD) (hg : ¬ |p.m_gamma - 1| < 1 / 1000) :
    p.BuildTransformFromChroma b =
      { p.BuildTransformFromChroma_matrices with
        m_internalConverter :=
          some (InternalColorConverter.Generic_StandardGamma
            p.BuildTransformFromChroma_matrices.m_RGB2XYZ
            p.BuildTransformFromChroma_matrices.m_XYZ2RGB p.m_gamma (1 / p.m_gamma)) } := by
  have hk2 : p.BuildTransformFromChroma_matrices.m_gammaCurve = GAMMA_CURVE.STANDARD := hk
  have hg2 : ¬ |p.BuildTransformFromChroma_matrices.m_gamma - 1| < 1 / 1000 := hg
  rw [BuildTransformFromChroma_eq, ht]
  simp only [BuildTransformFromChroma_assign, hk2, if_neg hg2]
  rfl

/-- The state left by the build when the final tag is sRGB. -/
theorem BuildTransformFromChroma_of_sRGB (p : ColorProfile) (b : Bool)
    (ht : p.BuildTransformFromChroma_recognize b = STANDARD_PROFILE.sRGB) :
    p.BuildTransformFromChroma b =
      { p.BuildTransformFromChroma_matrices with
        m_gammaCurve := GAMMA_CURVE.sRGB
        m_gamma := GAMMA_EXPONENT_sRGB
        m_internalConverter := some InternalColorConverter.sRGB } := by
  rw [BuildTransformFromChroma_eq, ht]
  rfl

/-- The chromaticities R=(0.64,0.33), G=(0.30,0.60), B=(0.15,0.06), W=(0.3127,0.3290) are recognized as sRGB. -/
theorem sRGB_literal_recognized :
    (⟨⟨0.64, 0.33⟩, ⟨0.30, 0.60⟩, ⟨0.15, 0.06⟩, ⟨0.3127, 0.3290⟩⟩ :
      Chromaticities).FindRecognizedChromaticity = STANDARD_PROFILE.sRGB := by
  norm_num [Chromaticities.FindRecognizedChromaticity, Chromaticities.Equals, float2.Almost,
    Chromaticities.EPSILON, Chromaticities.sRGB, ILLUMINANT_D65, abs_lt]

/-- The constructor from the sRGB chromaticities, the STANDARD curve and the exponent 2.4
ends with the generic power-law converter. -/
theorem fromChromaticities_sRGB_STANDARD (raw : ColorProfile) :
    ∃ p, fromChromaticities raw ⟨⟨0.64, 0.33⟩, ⟨0.30, 0.60⟩, ⟨0.15, 0.06⟩, ⟨0.3127, 0.3290⟩⟩
          GAMMA_CURVE.STANDARD 2.4 = Except.ok p ∧
      p.m_internalConverter = some (InternalColorConverter.Generic_StandardGamma
        p.m_RGB2XYZ p.m_XYZ2RGB 2.4 (1 / 2.4)) ∧
      p.m_gammaCurve = GAMMA_CURVE.STANDARD ∧ p.m_gamma = 2.4 := by
  have ht : BuildTransformFromChroma_recognize
      { raw with
        m_chromaticities := ⟨⟨0.64, 0.33⟩, ⟨0.30, 0.60⟩, ⟨0.15, 0.06⟩, ⟨0.3127, 0.3290⟩⟩
        m_gammaCurve := GAMMA_CURVE.STANDARD
        m_gamma := 2.4 } true = STANDARD_PROFILE.CUSTOM := by
    rw [BuildTransformFromChroma_recognize_sRGB
      { raw with
        m_chromaticities := ⟨⟨0.64, 0.33⟩, ⟨0.30, 0.60⟩, ⟨0.15, 0.06⟩, ⟨0.3127, 0.3290⟩⟩
        m_gammaCurve := GAMMA_CURVE.STANDARD
        m_gamma := 2.4 } sRGB_literal_recognized]
    simp
  have hb := BuildTransformFromChroma_of_CUSTOM_power
    { raw with
      m_chromaticities := ⟨⟨0.64, 0.33⟩, ⟨0.30, 0.60⟩, ⟨0.15, 0.06⟩, ⟨0.3127, 0.3290⟩⟩
      m_gammaCurve := GAMMA_CURVE.STANDARD
      m_gamma := 2.4 } true ht rfl (by norm_num [abs_lt])
  refine ⟨_, rfl, ?_, ?_, ?_⟩
  · rw [hb]
  · rw [hb]; rfl
  · rw [hb]; rfl

/-- C9, amended. Building a profile from the chromaticities R=(0.64,0.33), G=(0.30,0.60),
B=(0.15,0.06), W=(0.3127,0.3290) with the gamma curve STANDARD and exponent 2.4: the
chromaticities alone are recognized as sRGB, but the gamma check fails on the curve, the
tag is downgraded to CUSTOM, the generic power-law converter with exponent 2.4 is selected
and the curve and exponent stay STANDARD and 2.4. -/
theorem C9_STANDARD_curve_gives_generic (raw : ColorProfile) :
    (⟨⟨0.64, 0.33⟩, ⟨0.30, 0.60⟩, ⟨0.15, 0.06⟩, ⟨0.3127, 0.3290⟩⟩ :
      Chromaticities).FindRecognizedChromaticity = STANDARD_PROFILE.sRGB ∧
    ∃ p, fromChromaticities raw ⟨⟨0.64, 0.33⟩, ⟨0.30, 0.60⟩, ⟨0.15, 0.06⟩, ⟨0.3127, 0.3290⟩⟩
          GAMMA_CURVE.STANDARD 2.4 = Except.ok p ∧
      p.m_internalConverter = some (InternalColorConverter.Generic_StandardGamma
        p.m_RGB2XYZ p.m_XYZ2RGB 2.4 (1 / 2.4)) ∧
      p.m_gammaCurve = GAMMA_CURVE.STANDARD ∧ p.m_gamma = 2.4 :=
  ⟨sRGB_literal_recognized, fromChromaticities_sRGB_STANDARD raw⟩

/-- C9, as stated, fails: built from the chromaticities R=(0.64,0.33), G=(0.30,0.60),
B=(0.15,0.06), W=(0.3127,0.3290) with the curve STANDARD and exponent 2.4, the profile does
not hold the dedicated sRGB converter but the generic power-law one. -/
theorem C9_counterexample :
    ∃ p, fromChromaticities ColorProfile.new
          ⟨⟨0.64, 0.33⟩, ⟨0.30, 0.60⟩, ⟨0.15, 0.06⟩, ⟨0.3127, 0.3290⟩⟩
          GAMMA_CURVE.STANDARD 2.4 = Except.ok p ∧
      p.m_internalConverter ≠ some InternalColorConverter.sRGB ∧
      p.m_internalConverter = some (InternalColorConverter.Generic_StandardGamma
        p.m_RGB2XYZ p.m_XYZ2RGB 2.4 (1 / 2.4)) := by
  obtain ⟨p, h1, h2, _⟩ := fromChromaticities_sRGB_STANDARD ColorProfile.new
  refine ⟨p, h1, ?_, h2⟩
  rw [h2]
  simp

/-- C10. For every chromaticity set that matches the sRGB constants within 1e-3 on all 8
coordinates, constructing a profile with the gamma curve sRGB and an exponent g with
|g - 2.4| < 1e-3 recognizes sRGB: the dedicated sRGB converter is selected (curve sRGB,
exponent 2.4), so every conversion, of one color or of a buffer, gives the output of the
dedicated sRGB converter. -/
theorem C10_sRGB_recognized (raw : ColorProfile) (c : Chromaticities) (g : float)
    (hm : Chromaticities.matchesWithin c Chromaticities.sRGB)
    (hg : |g - 2.4| < 1 / 1000) :
    ∃ p, fromChromaticities raw c GAMMA_CURVE.sRGB g = Except.ok p ∧
      p.m_internalConverter = some InternalColorConverter.sRGB ∧
      p.m_gammaCurve = GAMMA_CURVE.sRGB ∧ p.m_gamma = 2.4 ∧
      ∀ (impl : ConverterMethods),
        (∀ v, p.RGB2XYZ impl v = some (impl.RGB2XYZ InternalColorConverter.sRGB v)) ∧
        (∀ v, p.XYZ2RGB impl v = some (impl.XYZ2RGB InternalColorConverter.sRGB v)) ∧
        (∀ vs, p.RGB2XYZ_buffer impl vs
          = some (impl.RGB2XYZ_buffer InternalColorConverter.sRGB vs)) ∧
        (∀ vs, p.XYZ2RGB_buffer impl vs
          = some (impl.XYZ2RGB_buffer InternalColorConverter.sRGB vs)) := by
  have hF : c.FindRecognizedChromaticity = STANDARD_PROFILE.sRGB := by
    have hE := (Chromaticities.Equals_iff c Chromaticities.sRGB).mpr hm
    simp [Chromaticities.FindRecognizedChromaticity, hE]
  have hg2 : |GAMMA_EXPONENT_sRGB - g| < 1 / 1000 := by
    rw [abs_sub_comm]; exact hg
  have ht : BuildTransformFromChroma_recognize
      { raw with m_chromaticities := c, m_gammaCurve := GAMMA_CURVE.sRGB, m_gamma := g } true
      = STANDARD_PROFILE.sRGB := by
    rw [BuildTransformFromChroma_recognize_sRGB
      { raw with m_chromaticities := c, m_gammaCurve := GAMMA_CURVE.sRGB, m_gamma := g } hF]
    exact if_pos ⟨rfl, hg2⟩
  have hb := BuildTransformFromChroma_of_sRGB
    { raw with m_chromaticities := c, m_gammaCurve := GAMMA_CURVE.sRGB, m_gamma := g } true ht
  refine ⟨_, rfl, ?_, ?_, ?_, ?_⟩
  · rw [hb]
  · rw [hb]
  · rw [hb]; rfl
  · intro impl
    simp only [RGB2XYZ, XYZ2RGB, RGB2XYZ_buffer, XYZ2RGB_buffer, hb, Option.map_some',
      implies_true, and_self]

/-- C10 at the sRGB constants themselves with the exponent 2.4. -/
theorem C10_witness :
    Chromaticities.matchesWithin Chromaticities.sRGB Chromaticities.sRGB ∧
      |(2.4 : float) - 2.4| < 1 / 1000 ∧
      ∃ p, fromChromaticities ColorProfile.new Chromaticities.sRGB GAMMA_CURVE.sRGB 2.4
            = Except.ok p ∧
        p.m_internalConverter = some InternalColorConverter.sRGB ∧
        p.m_gammaCurve = GAMMA_CURVE.sRGB ∧ p.m_gamma = 2.4 := by
  have hm : Chromaticities.matchesWithin Chromaticities.sRGB Chromaticities.sRGB := by
    norm_num [Chromaticities.matchesWithin]
  have hg : |(2.4 : float) - 2.4| < 1 / 1000 := by norm_num
  obtain ⟨p, h1, h2, h3, h4, _⟩ :=
    C10_sRGB_recognized ColorProfile.new Chromaticities.sRGB 2.4 hm hg
  exact ⟨hm, hg, p, h1, h2, h3, h4⟩

end ColorProfile

/-! ## Properties of the recognition and of the converter assignment -/

namespace ColorProfile

/-- The tag after the gamma check, for chromaticities recognized as a named profile whose
canonical gamma the profile holds. -/
theorem BuildTransformFromChroma_recognize_of_match (p : ColorProfile) (T : STANDARD_PROFILE)
    (k : GAMMA_CURVE) (g : float) (hT : canonicalGamma T = some (k, g))
    (hF : p.m_chromaticities.FindRecognizedChromaticity = T)
    (hk : p.m_gammaCurve = k) (hg : |g - p.m_gamma| < 1 / 1000) (b : Bool) :
    p.BuildTransformFromChroma_recognize b = T := by
  cases b
  · simp [BuildTransformFromChroma_recognize, hF]
  · cases T <;> simp only [canonicalGamma, Option.some.injEq, Prod.mk.injEq, reduceCtorEq] at hT
    all_goals
      obtain ⟨rfl, rfl⟩ := hT
      simp [-one_div, -not_lt, BuildTransformFromChroma_recognize, hF, EnsureGamma, hk, hg]

/-- The tag after the gamma check, for chromaticities recognized as a named profile whose
canonical gamma the profile does not hold. -/
theorem BuildTransformFromChroma_recognize_of_mismatch (p : ColorProfile)
    (T : STANDARD_PROFILE) (k : GAMMA_CURVE) (g : float) (hT : canonicalGamma T = some (k, g))
    (hF : p.m_chromaticities.FindRecognizedChromaticity = T)
    (hm : p.m_gammaCurve ≠ k ∨ 1 / 1000 ≤ |g - p.m_gamma|) :
    p.BuildTransformFromChroma_recognize true = STANDARD_PROFILE.CUSTOM := by
  have hE : p.EnsureGamma k g = false := by
    simp only [EnsureGamma, Bool.and_eq_false_iff, decide_eq_false_iff_not, not_lt]
    exact hm
  cases T <;> simp only [canonicalGamma, Option.some.injEq, Prod.mk.injEq, reduceCtorEq] at hT
  all_goals
    obtain ⟨rfl, rfl⟩ := hT
    simp [BuildTransformFromChroma_recognize, hF, hE]

/-- The converter assignment for a tag that is not one of the five named profiles: the
generic converter is stored and nothing else is written. -/
theorem BuildTransformFromChroma_assign_generic (q : ColorProfile) (t : STANDARD_PROFILE)
    (ht : canonicalGamma t = none) :
    q.BuildTransformFromChroma_assign t =
      { q with m_internalConverter := some (genericConverter q) } := by
  cases t <;> simp only [canonicalGamma, reduceCtorEq] at ht <;>
    simp only [BuildTransformFromChroma_assign, genericConverter] <;>
    cases q.m_gammaCurve <;> simp only [] <;> split_ifs <;> rfl

/-- The generic converter is one of the four generic classes. -/
theorem genericConverter_isGeneric (q : ColorProfile) : (genericConverter q).isGeneric = true := by
  unfold genericConverter
  cases q.m_gammaCurve <;> simp only [] <;> (try split_ifs) <;> rfl

end ColorProfile

namespace Chromaticities

/-- The sRGB constant is recognized as sRGB. -/
theorem FindRecognizedChromaticity_sRGB :
    sRGB.FindRecognizedChromaticity = STANDARD_PROFILE.sRGB := by
  norm_num [FindRecognizedChromaticity, Equals, float2.Almost, EPSILON, sRGB, ILLUMINANT_D65,
    abs_lt]

/-- The Adobe RGB D65 constant is recognized as ADOBE_RGB_D65. -/
theorem FindRecognizedChromaticity_AdobeRGB_D65 :
    AdobeRGB_D65.FindRecognizedChromaticity = STANDARD_PROFILE.ADOBE_RGB_D65 := by
  norm_num [FindRecognizedChromaticity, Equals, float2.Almost, EPSILON, sRGB, AdobeRGB_D65,
    ILLUMINANT_D65, abs_lt]

/-- The Adobe RGB D50 constant is recognized as ADOBE_RGB_D50. -/
theorem FindRecognizedChromaticity_AdobeRGB_D50 :
    AdobeRGB_D50.FindRecognizedChromaticity = STANDARD_PROFILE.ADOBE_RGB_D50 := by
  norm_num [FindRecognizedChromaticity, Equals, float2.Almost, EPSILON, sRGB, AdobeRGB_D65,
    AdobeRGB_D50, ILLUMINANT_D50, ILLUMINANT_D65, abs_lt]

/-- The ProPhoto constant is recognized as PRO_PHOTO. -/
theorem FindRecognizedChromaticity_ProPhoto :
    ProPhoto.FindRecognizedChromaticity = STANDARD_PROFILE.PRO_PHOTO := by
  norm_num [FindRecognizedChromaticity, Equals, float2.Almost, EPSILON, sRGB, AdobeRGB_D65,
    AdobeRGB_D50, ProPhoto, ILLUMINANT_D50, ILLUMINANT_D65, abs_lt]

/-- The Radiance constant is recognized as RADIANCE. -/
theorem FindRecognizedChromaticity_Radiance :
    Radiance.FindRecognizedChromaticity = STANDARD_PROFILE.RADIANCE := by
  norm_num [FindRecognizedChromaticity, Equals, float2.Almost, EPSILON, sRGB, AdobeRGB_D65,
    AdobeRGB_D50, ProPhoto, Radiance, ILLUMINANT_D50, ILLUMINANT_D65, ILLUMINANT_E, abs_lt]

/-- The set `whiteOnEdge` is recognized as CUSTOM. -/
theorem FindRecognizedChromaticity_whiteOnEdge :
    whiteOnEdge.FindRecognizedChromaticity = STANDARD_PROFILE.CUSTOM := by
  norm_num [FindRecognizedChromaticity, Equals, float2.Almost, EPSILON, whiteOnEdge, sRGB,
    AdobeRGB_D65, AdobeRGB_D50, ProPhoto, Radiance, ILLUMINANT_D50, ILLUMINANT_D65,
    ILLUMINANT_E, abs_lt]

end Chromaticities

namespace ColorProfile

/-- The tag after the optional gamma check, for chromaticities that are not recognized as
one of the five named profiles: the tag found from the chromaticities. -/
theorem BuildTransformFromChroma_recognize_of_none (p : ColorProfile) (t : STANDARD_PROFILE)
    (hF : p.m_chromaticities.FindRecognizedChromaticity = t) (ht : canonicalGamma t = none)
    (b : Bool) : p.BuildTransformFromChroma_recognize b = t := by
  cases b
  · simp [BuildTransformFromChroma_recognize, hF]
  · cases t <;> simp only [canonicalGamma, reduceCtorEq] at ht <;>
      simp [BuildTransformFromChroma_recognize, hF]

/-- The state left by the build when the final tag is not one of the five named profiles:
the generic converter for the curve and exponent the profile holds, which stay as they are. -/
theorem BuildTransformFromChroma_of_generic (p : ColorProfile) (b : Bool)
    (ht : canonicalGamma (p.BuildTransformFromChroma_recognize b) = none) :
    p.BuildTransformFromChroma b =
      { p.BuildTransformFromChroma_matrices with
        m_internalConverter := some (genericConverter p.BuildTransformFromChroma_matrices) } := by
  rw [BuildTransformFromChroma_eq, BuildTransformFromChroma_assign_generic _ _ ht]

/-- With the decimal values of the constants, the build with the constants as a parameter is
`BuildTransformFromChroma`. -/
theorem BuildTransformFromChromaWith_decimalExponents (p : ColorProfile) (b : Bool) :
    BuildTransformFromChromaWith decimalExponents p b = p.BuildTransformFromChroma b := rfl

/-- With the decimal values of the constants, the canonical gamma is `canonicalGamma`. -/
theorem canonicalGammaWith_decimalExponents (T : STANDARD_PROFILE) :
    canonicalGammaWith decimalExponents T = canonicalGamma T := by
  cases T <;> rfl

/-- The tag after the gamma check, whatever the values of the constants, for chromaticities
recognized as a named profile whose canonical gamma the profile does not hold. -/
theorem BuildTransformFromChroma_recognizeWith_of_mismatch (e : GammaExponents)
    (p : ColorProfile) (T : STANDARD_PROFILE) (k : GAMMA_CURVE) (g : float)
    (hT : canonicalGammaWith e T = some (k, g))
    (hF : p.m_chromaticities.FindRecognizedChromaticity = T)
    (hm : p.m_gammaCurve ≠ k ∨ 1 / 1000 ≤ |g - p.m_gamma|) :
    BuildTransformFromChroma_recognizeWith e p true = STANDARD_PROFILE.CUSTOM := by
  have hE : p.EnsureGamma k g = false := by
    simp only [EnsureGamma, Bool.and_eq_false_iff, decide_eq_false_iff_not, not_lt]
    exact hm
  cases T <;>
    simp only [canonicalGammaWith, Option.some.injEq, Prod.mk.injEq, reduceCtorEq] at hT
  all_goals
    obtain ⟨rfl, rfl⟩ := hT
    simp [BuildTransformFromChroma_recognizeWith, hF, hE]

/-- The tag after the gamma check, whatever the values of the constants, for chromaticities
recognized as a named profile whose canonical gamma the profile holds. -/
theorem BuildTransformFromChroma_recognizeWith_of_match (e : GammaExponents)
    (p : ColorProfile) (T : STANDARD_PROFILE) (k : GAMMA_CURVE) (g : float)
    (hT : canonicalGammaWith e T = some (k, g))
    (hF : p.m_chromaticities.FindRecognizedChromaticity = T)
    (hk : p.m_gammaCurve = k) (hg : |g - p.m_gamma| < 1 / 1000) :
    BuildTransformFromChroma_recognizeWith e p true = T := by
  cases T <;>
    simp only [canonicalGammaWith, Option.some.injEq, Prod.mk.injEq, reduceCtorEq] at hT
  all_goals
    obtain ⟨rfl, rfl⟩ := hT
    simp [-one_div, -not_lt, BuildTransformFromChroma_recognizeWith, hF, EnsureGamma, hk, hg]

/-- The converter assignment for the tag CUSTOM, whatever the values of the constants: the
generic converter is stored and nothing else is written. -/
theorem BuildTransformFromChroma_assignWith_CUSTOM (e : GammaExponents) (q : ColorProfile) :
    BuildTransformFromChroma_assignWith e q STANDARD_PROFILE.CUSTOM =
      { q with m_internalConverter := some (genericConverter q) } := by
  simp only [BuildTransformFromChroma_assignWith, genericConverter]
  cases q.m_gammaCurve
  · split_ifs <;> rfl
  · rfl
  · rfl

/-- C11. For every chromaticity set recognized as one of the five named profiles P, if the
gamma curve the profile holds differs from P's canonical curve, or the exponent differs from
P's canonical exponent by 1e-3 or more, `BuildTransformFromChroma( true )` downgrades the tag
to CUSTOM: a generic converter is selected and the gamma curve and exponent are left exactly
as supplied. The canonical exponents are the constants `GAMMA_EXPONENT_*` the code passes to
`EnsureGamma`; the statement holds for every value of these constants, the binary32 numbers
a compiler stores for `2.4f` and `1.8f` as well as the decimal values 2.4 and 1.8. -/
theorem C11_gamma_mismatch_downgrades_to_CUSTOM (e : GammaExponents) (p : ColorProfile)
    (T : STANDARD_PROFILE) (k : GAMMA_CURVE) (g : float)
    (hT : canonicalGammaWith e T = some (k, g))
    (hF : p.m_chromaticities.FindRecognizedChromaticity = T)
    (hm : p.m_gammaCurve ≠ k ∨ 1 / 1000 ≤ |p.m_gamma - g|) :
    BuildTransformFromChroma_recognizeWith e p true = STANDARD_PROFILE.CUSTOM ∧
      (BuildTransformFromChromaWith e p true).m_internalConverter
        = some (genericConverter (BuildTransformFromChromaWith e p true)) ∧
      (genericConverter (BuildTransformFromChromaWith e p true)).isGeneric = true ∧
      (BuildTransformFromChromaWith e p true).m_gammaCurve = p.m_gammaCurve ∧
      (BuildTransformFromChromaWith e p true).m_gamma = p.m_gamma := by
  have hm2 : p.m_gammaCurve ≠ k ∨ 1 / 1000 ≤ |g - p.m_gamma| := by
    rw [abs_sub_comm]; exact hm
  have hr := BuildTransformFromChroma_recognizeWith_of_mismatch e p T k g hT hF hm2
  have hr2 : BuildTransformFromChroma_recognizeWith e p.BuildTransformFromChroma_matrices true
      = STANDARD_PROFILE.CUSTOM := hr
  have hb : BuildTransformFromChromaWith e p true =
      { p.BuildTransformFromChroma_matrices with
        m_internalConverter :=
          some (genericConverter p.BuildTransformFromChroma_matrices) } := by
    unfold BuildTransformFromChromaWith
    simp only []
    rw [hr2, BuildTransformFromChroma_assignWith_CUSTOM]
  refine ⟨hr, ?_, genericConverter_isGeneric _, ?_, ?_⟩
  · rw [hb]; rfl
  · rw [hb]; rfl
  · rw [hb]; rfl

/-- C11 with the binary32 constants, at the sRGB chromaticities with the STANDARD curve and
exponent 1.0 (the curve differs) and at the ProPhoto chromaticities with the curve PRO_PHOTO
and the exponent `1.801f`, which differs from the constant `1.8f` by 0.00100005 (and from the
decimal 1.8 by less than 1e-3): in both the tag is downgraded to CUSTOM, a generic converter
is selected and the curve and exponent stay. -/
theorem C11_witness :
    (canonicalGammaWith binary32Exponents STANDARD_PROFILE.sRGB
        = some (GAMMA_CURVE.sRGB, 5033165 / 2097152) ∧
      profileOfsRGB.m_chromaticities.FindRecognizedChromaticity = STANDARD_PROFILE.sRGB ∧
      profileOfsRGB.m_gammaCurve = GAMMA_CURVE.STANDARD ∧ profileOfsRGB.m_gamma = 1 ∧
      BuildTransformFromChroma_recognizeWith binary32Exponents profileOfsRGB true
        = STANDARD_PROFILE.CUSTOM ∧
      (BuildTransformFromChromaWith binary32Exponents profileOfsRGB true).m_internalConverter
        = some (genericConverter
            (BuildTransformFromChromaWith binary32Exponents profileOfsRGB true)) ∧
      (genericConverter
        (BuildTransformFromChromaWith binary32Exponents profileOfsRGB true)).isGeneric = true ∧
      (BuildTransformFromChromaWith binary32Exponents profileOfsRGB true).m_gammaCurve
        = GAMMA_CURVE.STANDARD ∧
      (BuildTransformFromChromaWith binary32Exponents profileOfsRGB true).m_gamma = 1) ∧
    (canonicalGammaWith binary32Exponents STANDARD_PROFILE.PRO_PHOTO
        = some (GAMMA_CURVE.PRO_PHOTO, 7549747 / 4194304) ∧
      profileOfProPhotoGamma1801.m_chromaticities.FindRecognizedChromaticity
        = STANDARD_PROFILE.PRO_PHOTO ∧
      (1 / 1000 : float) ≤ |profileOfProPhotoGamma1801.m_gamma - 7549747 / 4194304| ∧
      |profileOfProPhotoGamma1801.m_gamma - 1.8| < 1 / 1000 ∧
      BuildTransformFromChroma_recognizeWith binary32Exponents profileOfProPhotoGamma1801 true
        = STANDARD_PROFILE.CUSTOM ∧
      (BuildTransformFromChromaWith binary32Exponents
          profileOfProPhotoGamma1801 true).m_internalConverter
        = some (genericConverter
            (BuildTransformFromChromaWith binary32Exponents profileOfProPhotoGamma1801 true)) ∧
      (genericConverter (BuildTransformFromChromaWith binary32Exponents
        profileOfProPhotoGamma1801 true)).isGeneric = true ∧
      (BuildTransformFromChromaWith binary32Exponents
          profileOfProPhotoGamma1801 true).m_gammaCurve = GAMMA_CURVE.PRO_PHOTO ∧
      (BuildTransformFromChromaWith binary32Exponents
          profileOfProPhotoGamma1801 true).m_gamma = 15107883 / 8388608) :=
  have h1 : (1 / 1000 : float) ≤ |profileOfProPhotoGamma1801.m_gamma - 7549747 / 4194304| := by
    norm_num [profileOfProPhotoGamma1801, abs_le, le_abs]
  have h2 : |profileOfProPhotoGamma1801.m_gamma - 1.8| < 1 / 1000 := by
    norm_num [profileOfProPhotoGamma1801, abs_lt]
  ⟨⟨rfl, Chromaticities.FindRecognizedChromaticity_sRGB, rfl, rfl,
      C11_gamma_mismatch_downgrades_to_CUSTOM binary32Exponents profileOfsRGB
        STANDARD_PROFILE.sRGB GAMMA_CURVE.sRGB (5033165 / 2097152) rfl
        Chromaticities.FindRecognizedChromaticity_sRGB
        (Or.inl (by simp [profileOfsRGB, ColorProfile.new]))⟩,
    ⟨rfl, Chromaticities.FindRecognizedChromaticity_ProPhoto, h1, h2,
      C11_gamma_mismatch_downgrades_to_CUSTOM binary32Exponents profileOfProPhotoGamma1801
        STANDARD_PROFILE.PRO_PHOTO GAMMA_CURVE.PRO_PHOTO (7549747 / 4194304) rfl
        Chromaticities.FindRecognizedChromaticity_ProPhoto (Or.inr h1)⟩⟩

/-- The exponent `2.401f` with the binary32 constants: it differs from the constant `2.4f` by
0.00099993, less than 1e-3 (and from the decimal 2.4 by 0.00100002), so the gamma check
passes: the tag stays sRGB, the dedicated sRGB converter is stored and the exponent is
overwritten with the constant. With the decimal constants the same profile is downgraded. -/
theorem BuildTransformFromChromaWith_binary32_at_2401 :
    |profileOfsRGBGamma2401.m_gamma - binary32Exponents.sRGB| < 1 / 1000 ∧
      1 / 1000 ≤ |profileOfsRGBGamma2401.m_gamma - decimalExponents.sRGB| ∧
      BuildTransformFromChroma_recognizeWith binary32Exponents profileOfsRGBGamma2401 true
        = STANDARD_PROFILE.sRGB ∧
      (BuildTransformFromChromaWith binary32Exponents
          profileOfsRGBGamma2401 true).m_internalConverter
        = some InternalColorConverter.sRGB ∧
      (BuildTransformFromChromaWith binary32Exponents profileOfsRGBGamma2401 true).m_gamma
        = 5033165 / 2097152 ∧
      BuildTransformFromChroma_recognizeWith decimalExponents profileOfsRGBGamma2401 true
        = STANDARD_PROFILE.CUSTOM := by
  have h1 : |profileOfsRGBGamma2401.m_gamma - binary32Exponents.sRGB| < 1 / 1000 := by
    norm_num [profileOfsRGBGamma2401, binary32Exponents, abs_lt]
  have h2 : 1 / 1000 ≤ |profileOfsRGBGamma2401.m_gamma - decimalExponents.sRGB| := by
    norm_num [profileOfsRGBGamma2401, decimalExponents, GAMMA_EXPONENT_sRGB, le_abs]
  have hF : profileOfsRGBGamma2401.m_chromaticities.FindRecognizedChromaticity
      = STANDARD_PROFILE.sRGB := Chromaticities.FindRecognizedChromaticity_sRGB
  have hr : BuildTransformFromChroma_recognizeWith binary32Exponents profileOfsRGBGamma2401
      true = STANDARD_PROFILE.sRGB :=
    BuildTransformFromChroma_recognizeWith_of_match binary32Exponents profileOfsRGBGamma2401
      STANDARD_PROFILE.sRGB GAMMA_CURVE.sRGB binary32Exponents.sRGB rfl hF rfl
      (by rw [abs_sub_comm]; exact h1)
  have hr2 : BuildTransformFromChroma_recognizeWith binary32Exponents
      profileOfsRGBGamma2401.BuildTransformFromChroma_matrices true
      = STANDARD_PROFILE.sRGB := hr
  have hb : BuildTransformFromChromaWith binary32Exponents profileOfsRGBGamma2401 true =
      BuildTransformFromChroma_assignWith binary32Exponents
        profileOfsRGBGamma2401.BuildTransformFromChroma_matrices STANDARD_PROFILE.sRGB := by
    unfold BuildTransformFromChromaWith
    simp only []
    rw [hr2]
  refine ⟨h1, h2, hr, ?_, ?_, ?_⟩
  · rw [hb]; rfl
  · rw [hb]; rfl
  · exact BuildTransformFromChroma_recognizeWith_of_mismatch decimalExponents
      profileOfsRGBGamma2401 STANDARD_PROFILE.sRGB GAMMA_CURVE.sRGB decimalExponents.sRGB rfl hF
      (Or.inr (by rw [abs_sub_comm]; exact h2))

/-- C12. For every profile whose final tag is CUSTOM or INVALID and whose gamma curve is
STANDARD, `BuildTransformFromChroma` selects the generic no-gamma converter if and only if
|gamma - 1| < 1e-3, and otherwise the generic power-law converter holding the exponent
gamma and its reciprocal 1/gamma; in both cases the converter carries the two matrices the
build computed, so the no-gamma converter's RGB2XYZ, a plain matrix multiply, is the
multiplication by the profile's RGB->XYZ matrix. -/
theorem C12_generic_STANDARD_converter (p : ColorProfile) (b : Bool)
    (ht : p.BuildTransformFromChroma_recognize b = STANDARD_PROFILE.CUSTOM ∨
      p.BuildTransformFromChroma_recognize b = STANDARD_PROFILE.INVALID)
    (hk : p.m_gammaCurve = GAMMA_CURVE.STANDARD) :
    ((∃ A B, (p.BuildTransformFromChroma b).m_internalConverter
          = some (InternalColorConverter.Generic_NoGamma A B)) ↔ |p.m_gamma - 1| < 1 / 1000) ∧
      (|p.m_gamma - 1| < 1 / 1000 →
        (p.BuildTransformFromChroma b).m_internalConverter
          = some (InternalColorConverter.Generic_NoGamma
              (p.BuildTransformFromChroma b).m_RGB2XYZ
              (p.BuildTransformFromChroma b).m_XYZ2RGB)) ∧
      (¬ |p.m_gamma - 1| < 1 / 1000 →
        (p.BuildTransformFromChroma b).m_internalConverter
          = some (InternalColorConverter.Generic_StandardGamma
              (p.BuildTransformFromChroma b).m_RGB2XYZ
              (p.BuildTransformFromChroma b).m_XYZ2RGB p.m_gamma (1 / p.m_gamma))) ∧
      (|p.m_gamma - 1| < 1 / 1000 →
        ∀ impl : ConverterMethods, impl.noGammaIsMatrixMultiply →
          ∀ v : float4, (p.BuildTransformFromChroma b).RGB2XYZ impl v
            = some (v.mul (p.BuildTransformFromChroma b).m_RGB2XYZ)) := by
  have hn : canonicalGamma (p.BuildTransformFromChroma_recognize b) = none := by
    rcases ht with h | h <;> rw [h] <;> rfl
  have hb := BuildTransformFromChroma_of_generic p b hn
  have hk2 : p.BuildTransformFromChroma_matrices.m_gammaCurve = GAMMA_CURVE.STANDARD := hk
  have hg2 : p.BuildTransformFromChroma_matrices.m_gamma = p.m_gamma := rfl
  have hpos : |p.m_gamma - 1| < 1 / 1000 →
      (p.BuildTransformFromChroma b).m_internalConverter
        = some (InternalColorConverter.Generic_NoGamma
            (p.BuildTransformFromChroma b).m_RGB2XYZ
            (p.BuildTransformFromChroma b).m_XYZ2RGB) := by
    intro h
    rw [hb]
    simp only [genericConverter, hk2, hg2, if_pos h]
  have hneg : ¬ |p.m_gamma - 1| < 1 / 1000 →
      (p.BuildTransformFromChroma b).m_internalConverter
        = some (InternalColorConverter.Generic_StandardGamma
            (p.BuildTransformFromChroma b).m_RGB2XYZ
            (p.BuildTransformFromChroma b).m_XYZ2RGB p.m_gamma (1 / p.m_gamma)) := by
    intro h
    rw [hb]
    simp only [genericConverter, hk2, hg2, if_neg h]
  refine ⟨⟨?_, fun h => ⟨_, _, hpos h⟩⟩, hpos, hneg, ?_⟩
  · rintro ⟨A, B, hAB⟩
    by_contra h
    rw [hneg h] at hAB
    simp at hAB
  · intro h impl himpl v
    simp only [RGB2XYZ, hpos h, Option.map_some']
    rw [himpl]

/-- C12 at the chromaticities `whiteOnEdge` (tag CUSTOM) with the STANDARD curve: exponent
1 gives the no-gamma converter, whose RGB2XYZ is the multiplication by the built matrix,
and exponent 2.2 gives the power-law converter holding 2.2 and 1/2.2. -/
theorem C12_witness :
    (profileWhiteOnEdge.BuildTransformFromChroma_recognize true = STANDARD_PROFILE.CUSTOM ∧
      profileWhiteOnEdge.m_gammaCurve = GAMMA_CURVE.STANDARD ∧
      |profileWhiteOnEdge.m_gamma - 1| < 1 / 1000 ∧
      (profileWhiteOnEdge.BuildTransformFromChroma true).m_internalConverter
        = some (InternalColorConverter.Generic_NoGamma
            (profileWhiteOnEdge.BuildTransformFromChroma true).m_RGB2XYZ
            (profileWhiteOnEdge.BuildTransformFromChroma true).m_XYZ2RGB)) ∧
    (profileWhiteOnEdgeGamma22.BuildTransformFromChroma_recognize true
        = STANDARD_PROFILE.CUSTOM ∧
      profileWhiteOnEdgeGamma22.m_gammaCurve = GAMMA_CURVE.STANDARD ∧
      ¬ |profileWhiteOnEdgeGamma22.m_gamma - 1| < 1 / 1000 ∧
      (profileWhiteOnEdgeGamma22.BuildTransformFromChroma true).m_internalConverter
        = some (InternalColorConverter.Generic_StandardGamma
            (profileWhiteOnEdgeGamma22.BuildTransformFromChroma true).m_RGB2XYZ
            (profileWhiteOnEdgeGamma22.BuildTransformFromChroma true).m_XYZ2RGB
            2.2 (1 / 2.2))) ∧
    ∃ impl : ConverterMethods, impl.noGammaIsMatrixMultiply ∧
      ∀ v : float4, (profileWhiteOnEdge.BuildTransformFromChroma true).RGB2XYZ impl v
        = some (v.mul (profileWhiteOnEdge.BuildTransformFromChroma true).m_RGB2XYZ) := by
  have h1 : profileWhiteOnEdge.BuildTransformFromChroma_recognize true
      = STANDARD_PROFILE.CUSTOM :=
    BuildTransformFromChroma_recognize_of_none profileWhiteOnEdge STANDARD_PROFILE.CUSTOM
      Chromaticities.FindRecognizedChromaticity_whiteOnEdge rfl true
  have h2 : profileWhiteOnEdgeGamma22.BuildTransformFromChroma_recognize true
      = STANDARD_PROFILE.CUSTOM :=
    BuildTransformFromChroma_recognize_of_none profileWhiteOnEdgeGamma22
      STANDARD_PROFILE.CUSTOM Chromaticities.FindRecognizedChromaticity_whiteOnEdge rfl true
  have g1 : |profileWhiteOnEdge.m_gamma - 1| < 1 / 1000 := by
    norm_num [profileWhiteOnEdge, ColorProfile.new]
  have g2 : ¬ |profileWhiteOnEdgeGamma22.m_gamma - 1| < 1 / 1000 := by
    norm_num [profileWhiteOnEdgeGamma22, ColorProfile.new, abs_lt]
  have t1 := C12_generic_STANDARD_converter profileWhiteOnEdge true (Or.inl h1) rfl
  have t2 := C12_generic_STANDARD_converter profileWhiteOnEdgeGamma22 true (Or.inl h2) rfl
  refine ⟨⟨h1, rfl, g1, t1.2.1 g1⟩, ⟨h2, rfl, g2, t2.2.2.1 g2⟩, ?_⟩
  refine ⟨⟨fun conv v => match conv with
      | InternalColorConverter.Generic_NoGamma _ B => v.mul B
      | _ => v,
    fun conv v => match conv with
      | InternalColorConverter.Generic_NoGamma A _ => v.mul A
      | _ => v,
    fun _ vs => vs, fun _ vs => vs⟩, fun _ _ _ => rfl, ?_⟩
  exact t1.2.2.2 g1 _ (fun _ _ _ => rfl)

end ColorProfile

/-! ## Properties of the tag constructor, the helpers and the mutators -/

namespace ColorProfile

/-- C13. For each of the five named tags T, constructing `ColorProfile( T )` re-derives the
tag T from the constants it installs: the chromaticities of the profile are recognized as
T, the specialized converter of T is selected, and the gamma curve and exponent after
construction are the canonical ones of T (sRGB/2.4, STANDARD/2.19921875,
STANDARD/2.19921875, PRO_PHOTO/1.8, STANDARD/1.0). -/
theorem C13_named_tag_rederived (raw : ColorProfile) :
    (∃ p, fromStandardProfile raw STANDARD_PROFILE.sRGB = Except.ok p ∧
      p.m_chromaticities.FindRecognizedChromaticity = STANDARD_PROFILE.sRGB ∧
      p.m_internalConverter = some InternalColorConverter.sRGB ∧
      p.m_gammaCurve = GAMMA_CURVE.sRGB ∧ p.m_gamma = 2.4) ∧
    (∃ p, fromStandardProfile raw STANDARD_PROFILE.ADOBE_RGB_D50 = Except.ok p ∧
      p.m_chromaticities.FindRecognizedChromaticity = STANDARD_PROFILE.ADOBE_RGB_D50 ∧
      p.m_internalConverter = some InternalColorConverter.AdobeRGB_D50 ∧
      p.m_gammaCurve = GAMMA_CURVE.STANDARD ∧ p.m_gamma = 2.19921875) ∧
    (∃ p, fromStandardProfile raw STANDARD_PROFILE.ADOBE_RGB_D65 = Except.ok p ∧
      p.m_chromaticities.FindRecognizedChromaticity = STANDARD_PROFILE.ADOBE_RGB_D65 ∧
      p.m_internalConverter = some InternalColorConverter.AdobeRGB_D65 ∧
      p.m_gammaCurve = GAMMA_CURVE.STANDARD ∧ p.m_gamma = 2.19921875) ∧
    (∃ p, fromStandardProfile raw STANDARD_PROFILE.PRO_PHOTO = Except.ok p ∧
      p.m_chromaticities.FindRecognizedChromaticity = STANDARD_PROFILE.PRO_PHOTO ∧
      p.m_internalConverter = some InternalColorConverter.ProPhoto ∧
      p.m_gammaCurve = GAMMA_CURVE.PRO_PHOTO ∧ p.m_gamma = 1.8) ∧
    (∃ p, fromStandardProfile raw STANDARD_PROFILE.RADIANCE = Except.ok p ∧
      p.m_chromaticities.FindRecognizedChromaticity = STANDARD_PROFILE.RADIANCE ∧
      p.m_internalConverter = some InternalColorConverter.Radiance ∧
      p.m_gammaCurve = GAMMA_CURVE.STANDARD ∧ p.m_gamma = 1) := by
  have h1 := BuildTransformFromChroma_recognize_of_match
    { raw with m_chromaticities := Chromaticities.sRGB, m_gammaCurve := GAMMA_CURVE.sRGB,
               m_gamma := GAMMA_EXPONENT_sRGB }
    STANDARD_PROFILE.sRGB GAMMA_CURVE.sRGB GAMMA_EXPONENT_sRGB rfl
    Chromaticities.FindRecognizedChromaticity_sRGB rfl (by norm_num) true
  have h2 := BuildTransformFromChroma_recognize_of_match
    { raw with m_chromaticities := Chromaticities.AdobeRGB_D50,
               m_gammaCurve := GAMMA_CURVE.STANDARD, m_gamma := GAMMA_EXPONENT_ADOBE }
    STANDARD_PROFILE.ADOBE_RGB_D50 GAMMA_CURVE.STANDARD GAMMA_EXPONENT_ADOBE rfl
    Chromaticities.FindRecognizedChromaticity_AdobeRGB_D50 rfl (by norm_num) true
  have h3 := BuildTransformFromChroma_recognize_of_match
    { raw with m_chromaticities := Chromaticities.AdobeRGB_D65,
               m_gammaCurve := GAMMA_CURVE.STANDARD, m_gamma := GAMMA_EXPONENT_ADOBE }
    STANDARD_PROFILE.ADOBE_RGB_D65 GAMMA_CURVE.STANDARD GAMMA_EXPONENT_ADOBE rfl
    Chromaticities.FindRecognizedChromaticity_AdobeRGB_D65 rfl (by norm_num) true
  have h4 := BuildTransformFromChroma_recognize_of_match
    { raw with m_chromaticities := Chromaticities.ProPhoto,
               m_gammaCurve := GAMMA_CURVE.PRO_PHOTO, m_gamma := GAMMA_EXPONENT_PRO_PHOTO }
    STANDARD_PROFILE.PRO_PHOTO GAMMA_CURVE.PRO_PHOTO GAMMA_EXPONENT_PRO_PHOTO rfl
    Chromaticities.FindRecognizedChromaticity_ProPhoto rfl (by norm_num) true
  have h5 := BuildTransformFromChroma_recognize_of_match
    { raw with m_chromaticities := Chromaticities.Radiance,
               m_gammaCurve := GAMMA_CURVE.STANDARD, m_gamma := 1 }
    STANDARD_PROFILE.RADIANCE GAMMA_CURVE.STANDARD 1 rfl
    Chromaticities.FindRecognizedChromaticity_Radiance rfl (by norm_num) true
  refine ⟨⟨_, rfl, ?_, ?_, ?_, ?_⟩, ⟨_, rfl, ?_, ?_, ?_, ?_⟩, ⟨_, rfl, ?_, ?_, ?_, ?_⟩,
    ⟨_, rfl, ?_, ?_, ?_, ?_⟩, ⟨_, rfl, ?_, ?_, ?_, ?_⟩⟩
  · rw [BuildTransformFromChroma_eq, BuildTransformFromChroma_assign_m_chromaticities]
    exact Chromaticities.FindRecognizedChromaticity_sRGB
  · rw [BuildTransformFromChroma_eq, h1]; rfl
  · rw [BuildTransformFromChroma_eq, h1]; rfl
  · rw [BuildTransformFromChroma_eq, h1]; rfl
  · rw [BuildTransformFromChroma_eq, BuildTransformFromChroma_assign_m_chromaticities]
    exact Chromaticities.FindRecognizedChromaticity_AdobeRGB_D50
  · rw [BuildTransformFromChroma_eq, h2]; rfl
  · rw [BuildTransformFromChroma_eq, h2]; rfl
  · rw [BuildTransformFromChroma_eq, h2]; rfl
  · rw [BuildTransformFromChroma_eq, BuildTransformFromChroma_assign_m_chromaticities]
    exact Chromaticities.FindRecognizedChromaticity_AdobeRGB_D65
  · rw [BuildTransformFromChroma_eq, h3]; rfl
  · rw [BuildTransformFromChroma_eq, h3]; rfl
  · rw [BuildTransformFromChroma_eq, h3]; rfl
  · rw [BuildTransformFromChroma_eq, BuildTransformFromChroma_assign_m_chromaticities]
    exact Chromaticities.FindRecognizedChromaticity_ProPhoto
  · rw [BuildTransformFromChroma_eq, h4]; rfl
  · rw [BuildTransformFromChroma_eq, h4]; rfl
  · rw [BuildTransformFromChroma_eq, h4]; rfl
  · rw [BuildTransformFromChroma_eq, BuildTransformFromChroma_assign_m_chromaticities]
    exact Chromaticities.FindRecognizedChromaticity_Radiance
  · rw [BuildTransformFromChroma_eq, h5]; rfl
  · rw [BuildTransformFromChroma_eq, h5]; rfl
  · rw [BuildTransformFromChroma_eq, h5]; rfl

end ColorProfile

/-- C17. `xyY2XYZ( x, y, Y )` is (x*Y/y, Y, (1-x-y)*Y/y) whenever y > 1e-8, and (0, Y, 0)
whenever y <= 1e-8: the ratio Y/y is computed only under the guard y > 1e-8 and is taken
as 0 otherwise. -/
theorem C17_xyY2XYZ_guarded (x y Y : float) :
    (1 / 100000000 < y →
      xyY2XYZ ⟨x, y, Y⟩ = ⟨x * Y / y, Y, (1 - x - y) * Y / y⟩) ∧
    (y ≤ 1 / 100000000 → xyY2XYZ ⟨x, y, Y⟩ = ⟨0, Y, 0⟩) := by
  constructor
  · intro h
    simp only [xyY2XYZ, gt_iff_lt, h, if_true, float3.mk.injEq, true_and]
    exact ⟨by ring, by ring⟩
  · intro h
    have h2 : ¬ 1 / 100000000 < y := not_lt.mpr h
    simp only [xyY2XYZ, gt_iff_lt, h2, if_false, mul_zero]

/-- C17 at the D65 white point (y = 0.3290, above the guard) and at y = 0 (below it). -/
theorem C17_witness :
    ((1 : float) / 100000000 < 0.3290 ∧
      xyY2XYZ ⟨0.3127, 0.3290, 1⟩ = ⟨0.3127 * 1 / 0.3290, 1, (1 - 0.3127 - 0.3290) * 1 / 0.3290⟩) ∧
    ((0 : float) ≤ 1 / 100000000 ∧ xyY2XYZ ⟨0.3127, 0, 1⟩ = ⟨0, 1, 0⟩) :=
  ⟨⟨by norm_num, (C17_xyY2XYZ_guarded 0.3127 0.3290 1).1 (by norm_num)⟩,
   ⟨by norm_num, (C17_xyY2XYZ_guarded 0.3127 0 1).2 (by norm_num)⟩⟩

namespace ColorProfile

/-- The matrix step reads the chromaticities and row 3 of `m_RGB2XYZ` only. -/
theorem BuildTransformFromChroma_matrices_congr (p q : ColorProfile)
    (hc : p.m_chromaticities = q.m_chromaticities)
    (h3 : p.m_RGB2XYZ.r3 = q.m_RGB2XYZ.r3) :
    p.BuildTransformFromChroma_matrices.m_RGB2XYZ = q.BuildTransformFromChroma_matrices.m_RGB2XYZ ∧
      p.BuildTransformFromChroma_matrices.m_XYZ2RGB
        = q.BuildTransformFromChroma_matrices.m_XYZ2RGB := by
  simp only [BuildTransformFromChroma_matrices, hc, h3, and_self]

/-- The build keeps the chromaticities. -/
theorem BuildTransformFromChroma_m_chromaticities (p : ColorProfile) (b : Bool) :
    (p.BuildTransformFromChroma b).m_chromaticities = p.m_chromaticities := by
  rw [BuildTransformFromChroma_eq, BuildTransformFromChroma_assign_m_chromaticities]
  rfl

/-- Rebuilding a built profile, whatever gamma fields are stored in between, leaves the
two matrices as they are. -/
theorem rebuild_matrices (p0 q : ColorProfile) (b : Bool)
    (hc : q.m_chromaticities = (p0.BuildTransformFromChroma b).m_chromaticities)
    (hm : q.m_RGB2XYZ = (p0.BuildTransformFromChroma b).m_RGB2XYZ) :
    (q.BuildTransformFromChroma true).m_RGB2XYZ = (p0.BuildTransformFromChroma b).m_RGB2XYZ ∧
      (q.BuildTransformFromChroma true).m_XYZ2RGB
        = (p0.BuildTransformFromChroma b).m_XYZ2RGB := by
  have hc2 : q.m_chromaticities = p0.m_chromaticities := by
    rw [hc, BuildTransformFromChroma_m_chromaticities]
  have h3 : q.m_RGB2XYZ.r3 = p0.m_RGB2XYZ.r3 := by
    rw [hm, BuildTransformFromChroma_m_RGB2XYZ]; rfl
  have h := BuildTransformFromChroma_matrices_congr q p0 hc2 h3
  rw [BuildTransformFromChroma_m_RGB2XYZ, BuildTransformFromChroma_m_XYZ2RGB,
    BuildTransformFromChroma_m_RGB2XYZ, BuildTransformFromChroma_m_XYZ2RGB]
  exact h

/-- C18. For every built profile (the state left by `BuildTransformFromChroma`), `SetGamma( v )`
and `SetGammaCurve( k )` produce exactly the state obtained by storing the new field and
running `BuildTransformFromChroma( true )` again, and the chromaticities, the RGB->XYZ
matrix and the XYZ->RGB matrix are the same before and after the call. -/
theorem C18_gamma_mutators_rebuild (p0 : ColorProfile) (b : Bool) (v : float)
    (k : GAMMA_CURVE) :
    (p0.BuildTransformFromChroma b).SetGamma v
        = BuildTransformFromChroma { p0.BuildTransformFromChroma b with m_gamma := v } true ∧
      (p0.BuildTransformFromChroma b).SetGammaCurve k
        = BuildTransformFromChroma
            { p0.BuildTransformFromChroma b with m_gammaCurve := k } true ∧
      (((p0.BuildTransformFromChroma b).SetGamma v).m_chromaticities
          = (p0.BuildTransformFromChroma b).m_chromaticities ∧
        ((p0.BuildTransformFromChroma b).SetGamma v).m_RGB2XYZ
          = (p0.BuildTransformFromChroma b).m_RGB2XYZ ∧
        ((p0.BuildTransformFromChroma b).SetGamma v).m_XYZ2RGB
          = (p0.BuildTransformFromChroma b).m_XYZ2RGB) ∧
      (((p0.BuildTransformFromChroma b).SetGammaCurve k).m_chromaticities
          = (p0.BuildTransformFromChroma b).m_chromaticities ∧
        ((p0.BuildTransformFromChroma b).SetGammaCurve k).m_RGB2XYZ
          = (p0.BuildTransformFromChroma b).m_RGB2XYZ ∧
        ((p0.BuildTransformFromChroma b).SetGammaCurve k).m_XYZ2RGB
          = (p0.BuildTransformFromChroma b).m_XYZ2RGB) := by
  have h1 := rebuild_matrices p0 { p0.BuildTransformFromChroma b with m_gamma := v } b rfl rfl
  have h2 := rebuild_matrices p0 { p0.BuildTransformFromChroma b with m_gammaCurve := k } b
    rfl rfl
  refine ⟨rfl, rfl, ⟨?_, h1.1, h1.2⟩, ⟨?_, h2.1, h2.2⟩⟩
  · unfold SetGamma
    rw [BuildTransformFromChroma_m_chromaticities]
  · unfold SetGammaCurve
    rw [BuildTransformFromChroma_m_chromaticities]

/-- C19. `SetExposureBias( v )` changes the exposure-bias field only: the found-in-file flag,
the chromaticities, the gamma curve, the gamma exponent, both matrices, the selected
converter and the recognized profile are the same before and after the call, for every
profile and every v. -/
theorem C19_SetExposureBias_frame (p : ColorProfile) (v : float) :
    p.SetExposureBias v = { p with m_exposureBias := v } ∧
      (p.SetExposureBias v).m_exposureBias = v ∧
      (p.SetExposureBias v).m_profileFoundInFile = p.m_profileFoundInFile ∧
      (p.SetExposureBias v).m_chromaticities = p.m_chromaticities ∧
      (p.SetExposureBias v).m_gammaCurve = p.m_gammaCurve ∧
      (p.SetExposureBias v).m_gamma = p.m_gamma ∧
      (p.SetExposureBias v).m_RGB2XYZ = p.m_RGB2XYZ ∧
      (p.SetExposureBias v).m_XYZ2RGB = p.m_XYZ2RGB ∧
      (p.SetExposureBias v).m_internalConverter = p.m_internalConverter ∧
      (p.SetExposureBias v).m_chromaticities.FindRecognizedChromaticity
        = p.m_chromaticities.FindRecognizedChromaticity ∧
      (∀ b, (p.SetExposureBias v).BuildTransformFromChroma_recognize b
        = p.BuildTransformFromChroma_recognize b) :=
  ⟨rfl, rfl, rfl, rfl, rfl, rfl, rfl, rfl, rfl, rfl, fun _ => rfl⟩

/-- C20. The default-constructed profile is the identity/invalid profile: both matrices
are the 4x4 identity, the gamma curve is STANDARD with exponent 1.0, the exposure bias is
0, the found-in-file flag is false, no converter is selected, and its all-zero
chromaticities are reported by `FindRecognizedChromaticity` as INVALID. -/
theorem C20_default_profile :
    ColorProfile.new.m_RGB2XYZ
        = ⟨⟨1, 0, 0, 0⟩, ⟨0, 1, 0, 0⟩, ⟨0, 0, 1, 0⟩, ⟨0, 0, 0, 1⟩⟩ ∧
      ColorProfile.new.m_XYZ2RGB
        = ⟨⟨1, 0, 0, 0⟩, ⟨0, 1, 0, 0⟩, ⟨0, 0, 1, 0⟩, ⟨0, 0, 0, 1⟩⟩ ∧
      ColorProfile.new.m_gammaCurve = GAMMA_CURVE.STANDARD ∧
      ColorProfile.new.m_gamma = 1 ∧
      ColorProfile.new.m_exposureBias = 0 ∧
      ColorProfile.new.m_profileFoundInFile = false ∧
      ColorProfile.new.m_internalConverter = none ∧
      ColorProfile.new.m_chromaticities = ⟨⟨0, 0⟩, ⟨0, 0⟩, ⟨0, 0⟩, ⟨0, 0⟩⟩ ∧
      ColorProfile.new.m_chromaticities.FindRecognizedChromaticity
        = STANDARD_PROFILE.INVALID := by
  refine ⟨rfl, rfl, rfl, rfl, rfl, rfl, rfl, rfl, ?_⟩
  norm_num [ColorProfile.new, Chromaticities.FindRecognizedChromaticity,
    Chromaticities.Equals, float2.Almost, Chromaticities.EPSILON, Chromaticities.Empty,
    Chromaticities.sRGB, Chromaticities.AdobeRGB_D65, Chromaticities.AdobeRGB_D50,
    Chromaticities.ProPhoto, Chromaticities.Radiance, ILLUMINANT_D50, ILLUMINANT_D65,
    ILLUMINANT_E, abs_lt]

end ColorProfile

/-! ## Properties of the gamma helpers -/

/-- The exponent of the sRGB curve, as a real number. -/
theorem GAMMA_EXPONENT_sRGB_cast : ((GAMMA_EXPONENT_sRGB : ℚ) : ℝ) = 12 / 5 := by
  norm_num [GAMMA_EXPONENT_sRGB]

/-- Raising to the power 1/g and then to the power g gives the number back. -/
theorem rpow_inv_rpow_self (x g : ℝ) (hx : 0 ≤ x) (hg : g ≠ 0) : (x ^ (1 / g)) ^ g = x := by
  rw [← Real.rpow_mul hx, one_div_mul_cancel hg, Real.rpow_one]

/-- Raising to the power g and then to the power 1/g gives the number back. -/
theorem rpow_self_rpow_inv (x g : ℝ) (hx : 0 ≤ x) (hg : g ≠ 0) : (x ^ g) ^ (1 / g) = x := by
  rw [← Real.rpow_mul hx, mul_one_div_cancel hg, Real.rpow_one]

/-- A lower bound of a power 5/12, from a comparison of integer powers. -/
theorem le_rpow_five_twelfths (a t : ℝ) (ha : 0 ≤ a) (ht : 0 ≤ t) (h : t ^ 12 ≤ a ^ 5) :
    t ≤ a ^ ((5 : ℝ) / 12) := by
  have e1 : t = (t ^ 12) ^ ((1 : ℝ) / 12) := by
    rw [← Real.rpow_natCast, ← Real.rpow_mul ht]; norm_num
  have e2 : a ^ ((5 : ℝ) / 12) = (a ^ 5) ^ ((1 : ℝ) / 12) := by
    rw [← Real.rpow_natCast, ← Real.rpow_mul ha]; norm_num
  rw [e1, e2]
  exact Real.rpow_le_rpow (pow_nonneg ht 12) h (by norm_num)

/-- An upper bound of a power 5/12, from a comparison of integer powers. -/
theorem rpow_five_twelfths_le (a t : ℝ) (ha : 0 ≤ a) (ht : 0 ≤ t) (h : a ^ 5 ≤ t ^ 12) :
    a ^ ((5 : ℝ) / 12) ≤ t := by
  have e1 : t = (t ^ 12) ^ ((1 : ℝ) / 12) := by
    rw [← Real.rpow_natCast, ← Real.rpow_mul ht]; norm_num
  have e2 : a ^ ((5 : ℝ) / 12) = (a ^ 5) ^ ((1 : ℝ) / 12) := by
    rw [← Real.rpow_natCast, ← Real.rpow_mul ha]; norm_num
  rw [e1, e2]
  exact Real.rpow_le_rpow (pow_nonneg ha 5) h (by norm_num)

/-- A lower bound of a power 12/5, from a comparison of integer powers. -/
theorem le_rpow_twelve_fifths (a t : ℝ) (ha : 0 ≤ a) (ht : 0 ≤ t) (h : t ^ 5 ≤ a ^ 12) :
    t ≤ a ^ ((12 : ℝ) / 5) := by
  have e1 : t = (t ^ 5) ^ ((1 : ℝ) / 5) := by
    rw [← Real.rpow_natCast, ← Real.rpow_mul ht]; norm_num
  have e2 : a ^ ((12 : ℝ) / 5) = (a ^ 12) ^ ((1 : ℝ) / 5) := by
    rw [← Real.rpow_natCast, ← Real.rpow_mul ha]; norm_num
  rw [e1, e2]
  exact Real.rpow_le_rpow (pow_nonneg ht 5) h (by norm_num)

/-- The power 5/12 of a number that is at least 0.0031308 is at least 0.09046. -/
theorem rpow_five_twelfths_lower (c : ℝ) (hc : 0.0031308 ≤ c) :
    0.09046 ≤ c ^ ((5 : ℝ) / 12) := by
  have h1 : (0.09046 : ℝ) ≤ (0.0031308 : ℝ) ^ ((5 : ℝ) / 12) :=
    le_rpow_five_twelfths _ _ (by norm_num) (by norm_num) (by norm_num)
  exact le_trans h1 (Real.rpow_le_rpow (by norm_num) hc (by norm_num))

/-- Encoding a linear value with `Linear2sRGB` and decoding it with `sRGB2Linear` gives the
value back to within 1e-4 (exactly, except for linear values between 0.0031308 and the
image 0.0031308049... of the encoded threshold 0.04045). -/
theorem sRGB2Linear_Linear2sRGB (c : ℝ) (h0 : 0 ≤ c) :
    |sRGB2Linear (Linear2sRGB c) - c| < 1 / 10000 := by
  unfold Linear2sRGB
  rw [GAMMA_EXPONENT_sRGB_cast]
  by_cases hc : c < 0.0031308
  · rw [if_pos hc]
    unfold sRGB2Linear
    have hL : c * 12.92 < 0.04045 := by linarith
    rw [if_pos hL]
    have : c * 12.92 / 12.92 - c = 0 := by ring
    rw [this]; norm_num
  · rw [if_neg hc]
    have hc2 : (0.0031308 : ℝ) ≤ c := not_lt.mp hc
    have hx : (0.09046 : ℝ) ≤ c ^ (1 / ((12 : ℝ) / 5)) := by
      have := rpow_five_twelfths_lower c hc2
      have e : (1 / ((12 : ℝ) / 5)) = (5 : ℝ) / 12 := by norm_num
      rw [e]; exact this
    unfold sRGB2Linear
    rw [GAMMA_EXPONENT_sRGB_cast]
    by_cases hL : 1.055 * c ^ (1 / ((12 : ℝ) / 5)) - 0.055 < 0.04045
    · rw [if_pos hL]
      have hcu : c ≤ 0.00314 := by
        by_contra hcon
        have hcon2 : (0.00314 : ℝ) ≤ c := le_of_lt (not_le.mp hcon)
        have h1 : (0.0905 : ℝ) ≤ (0.00314 : ℝ) ^ ((5 : ℝ) / 12) :=
          le_rpow_five_twelfths _ _ (by norm_num) (by norm_num) (by norm_num)
        have h2 : (0.00314 : ℝ) ^ ((5 : ℝ) / 12) ≤ c ^ ((5 : ℝ) / 12) :=
          Real.rpow_le_rpow (by norm_num) hcon2 (by norm_num)
        have e : (1 / ((12 : ℝ) / 5)) = (5 : ℝ) / 12 := by norm_num
        rw [e] at hL
        linarith
      generalize c ^ (1 / ((12 : ℝ) / 5)) = x at hx hL ⊢
      rw [abs_lt]
      norm_num at hc2 hx hL hcu ⊢
      constructor <;> linarith
    · rw [if_neg hL]
      have e : (1.055 * c ^ (1 / ((12 : ℝ) / 5)) - 0.055 + 0.055) / 1.055
          = c ^ (1 / ((12 : ℝ) / 5)) := by ring
      rw [e, rpow_inv_rpow_self c _ h0 (by norm_num)]
      norm_num

/-- Decoding an encoded value with `sRGB2Linear` and encoding it with `Linear2sRGB` gives
the value back to within 1e-4 (exactly, except for encoded values between 0.040449936 and
0.04045). -/
theorem Linear2sRGB_sRGB2Linear (c : ℝ) :
    |Linear2sRGB (sRGB2Linear c) - c| < 1 / 10000 := by
  unfold sRGB2Linear
  rw [GAMMA_EXPONENT_sRGB_cast]
  by_cases hc : c < 0.04045
  · rw [if_pos hc]
    unfold Linear2sRGB
    rw [GAMMA_EXPONENT_sRGB_cast]
    by_cases hl : c / 12.92 < 0.0031308
    · rw [if_pos hl]
      have : c / 12.92 * 12.92 - c = 0 := by ring
      rw [this]; norm_num
    · rw [if_neg hl]
      have hl2 : (0.0031308 : ℝ) ≤ c / 12.92 := not_lt.mp hl
      have hlu : c / 12.92 ≤ 0.0031309 := by
        norm_num at hc ⊢
        linarith
      have e : (1 / ((12 : ℝ) / 5)) = (5 : ℝ) / 12 := by norm_num
      rw [e]
      have hx1 := rpow_five_twelfths_lower (c / 12.92) hl2
      have hx2 : (c / 12.92) ^ ((5 : ℝ) / 12) ≤ 0.09048 := by
        have h1 : (0.0031309 : ℝ) ^ ((5 : ℝ) / 12) ≤ 0.09048 :=
          rpow_five_twelfths_le _ _ (by norm_num) (by norm_num) (by norm_num)
        exact le_trans (Real.rpow_le_rpow (by positivity) hlu (by norm_num)) h1
      generalize (c / 12.92) ^ ((5 : ℝ) / 12) = x at hx1 hx2 ⊢
      rw [abs_lt]
      norm_num at hc hl2 hx1 hx2 ⊢
      constructor <;> linarith
  · rw [if_neg hc]
    have hc2 : (0.04045 : ℝ) ≤ c := not_lt.mp hc
    have hb0 : (0 : ℝ) ≤ (c + 0.055) / 1.055 := by positivity
    have hb : (0.09545 / 1.055 : ℝ) ≤ (c + 0.055) / 1.055 := by
      apply div_le_div_of_nonneg_right _ (by norm_num)
      linarith
    have hlin : (0.0031308 : ℝ) ≤ ((c + 0.055) / 1.055) ^ ((12 : ℝ) / 5) := by
      have h1 : (0.0031308 : ℝ) ≤ (0.09545 / 1.055 : ℝ) ^ ((12 : ℝ) / 5) :=
        le_rpow_twelve_fifths _ _ (by norm_num) (by norm_num) (by norm_num)
      exact le_trans h1 (Real.rpow_le_rpow (by norm_num) hb (by norm_num))
    unfold Linear2sRGB
    rw [GAMMA_EXPONENT_sRGB_cast, if_neg (not_lt.mpr hlin),
      rpow_self_rpow_inv _ _ hb0 (by norm_num)]
    have : 1.055 * ((c + 0.055) / 1.055) - 0.055 - c = 0 := by ring
    rw [this]; norm_num

/-- C15. For every c in [0,1], `sRGB2Linear( Linear2sRGB( c ) )` and
`Linear2sRGB( sRGB2Linear( c ) )` are c to within 1e-4 (real-arithmetic model), the segment
boundaries included: at c = 0.0031308 `Linear2sRGB` takes its power-law branch and at
c = 0.04045 `sRGB2Linear` takes its power-law branch, the thresholds being tested with a
strict `<`. -/
theorem C15_sRGB_round_trip (c : ℝ) (h0 : 0 ≤ c) (h1 : c ≤ 1) :
    |sRGB2Linear (Linear2sRGB c) - c| < 1 / 10000 ∧
      |Linear2sRGB (sRGB2Linear c) - c| < 1 / 10000 ∧
      Linear2sRGB 0.0031308 = 1.055 * (0.0031308 : ℝ) ^ (1 / (2.4 : ℝ)) - 0.055 ∧
      sRGB2Linear 0.04045 = ((0.04045 + 0.055) / 1.055 : ℝ) ^ (2.4 : ℝ) := by
  have _ := h1
  have e : ((GAMMA_EXPONENT_sRGB : ℚ) : ℝ) = 2.4 := by norm_num [GAMMA_EXPONENT_sRGB]
  refine ⟨sRGB2Linear_Linear2sRGB c h0, Linear2sRGB_sRGB2Linear c, ?_, ?_⟩
  · unfold Linear2sRGB
    rw [if_neg (lt_irrefl _), e]
  · unfold sRGB2Linear
    rw [if_neg (lt_irrefl _), e]

/-- C15 at the segment boundary c = 0.0031308. -/
theorem C15_witness :
    (0 : ℝ) ≤ 0.0031308 ∧ (0.0031308 : ℝ) ≤ 1 ∧
      |sRGB2Linear (Linear2sRGB 0.0031308) - 0.0031308| < 1 / 10000 ∧
      |Linear2sRGB (sRGB2Linear 0.0031308) - 0.0031308| < 1 / 10000 :=
  ⟨by norm_num, by norm_num,
    (C15_sRGB_round_trip 0.0031308 (by norm_num) (by norm_num)).1,
    (C15_sRGB_round_trip 0.0031308 (by norm_num) (by norm_num)).2.1⟩

/-- C16. For every c in [0,1] and every exponent g > 0,
`GammaUnCorrect( GammaCorrect( c, g ), g ) = c` and
`GammaCorrect( GammaUnCorrect( c, g ), g ) = c` (real-arithmetic model), and with g = 1 both
functions are the identity. -/
theorem C16_gamma_round_trip (c g : ℝ) (h0 : 0 ≤ c) (h1 : c ≤ 1) (hg : 0 < g) :
    GammaUnCorrect (GammaCorrect c g) g = c ∧
      GammaCorrect (GammaUnCorrect c g) g = c ∧
      GammaCorrect c 1 = c ∧ GammaUnCorrect c 1 = c := by
  have _ := h1
  refine ⟨rpow_inv_rpow_self c g h0 hg.ne', rpow_self_rpow_inv c g h0 hg.ne', ?_, ?_⟩
  · simp [GammaCorrect]
  · simp [GammaUnCorrect]

/-- C16 at c = 1/2 and g = 2.2. -/
theorem C16_witness :
    (0 : ℝ) ≤ 1 / 2 ∧ (1 / 2 : ℝ) ≤ 1 ∧ (0 : ℝ) < 2.2 ∧
      GammaUnCorrect (GammaCorrect (1 / 2) 2.2) 2.2 = 1 / 2 ∧
      GammaCorrect (GammaUnCorrect (1 / 2) 2.2) 2.2 = 1 / 2 :=
  ⟨by norm_num, by norm_num, by norm_num,
    (C16_gamma_round_trip (1 / 2) 2.2 (by norm_num) (by norm_num) (by norm_num)).1,
    (C16_gamma_round_trip (1 / 2) 2.2 (by norm_num) (by norm_num) (by norm_num)).2.1⟩

/-! ## The converter the build stores -/

namespace ColorProfile

/-- The header declares nine converter classes. -/
theorem card_ConverterClass : Fintype.card ConverterClass = 9 := rfl

/-- The forwarded conversion calls of a profile that holds a converter are defined. -/
theorem conversions_isSome (p : ColorProfile) (h : p.m_internalConverter.isSome = true)
    (impl : ConverterMethods) :
    (∀ v, (p.XYZ2RGB impl v).isSome = true) ∧ (∀ v, (p.RGB2XYZ impl v).isSome = true) ∧
      (∀ vs, (p.XYZ2RGB_buffer impl vs).isSome = true) ∧
      (∀ vs, (p.RGB2XYZ_buffer impl vs).isSome = true) := by
  obtain ⟨conv, hc⟩ := Option.isSome_iff_exists.mp h
  simp [XYZ2RGB, RGB2XYZ, XYZ2RGB_buffer, RGB2XYZ_buffer, hc]

/-- The build stores a converter. -/
theorem BuildTransformFromChroma_isSome (p : ColorProfile) (b : Bool) :
    (p.BuildTransformFromChroma b).m_internalConverter.isSome = true := by
  rw [BuildTransformFromChroma_eq]
  exact BuildTransformFromChroma_assign_isSome _ _

/-- C21, as stated, fails: the header declares nine converter classes (five specialized,
four generic), not ten; there are no ten distinct converter variants the build could choose
from. -/
theorem C21_counterexample :
    Fintype.card ConverterClass = 9 ∧ Fintype.card ConverterClass ≠ 10 ∧
      ¬ ∃ f : Fin 10 → ConverterClass, Function.Injective f := by
  refine ⟨card_ConverterClass, by rw [card_ConverterClass]; decide, ?_⟩
  rintro ⟨f, hf⟩
  have h := Fintype.card_le_of_injective f hf
  rw [card_ConverterClass, Fintype.card_fin] at h
  omega

/-- C21, amended. Every profile produced by the tag constructor (for a supported tag), by
the chromaticities+gamma constructor, or by a gamma mutator holds exactly one converter: for
every value of the final tag and every value of the gamma curve the converter assignment of
`BuildTransformFromChroma` stores one of the nine converter variants (each of the nine is
stored for some state), so the forwarded `XYZ2RGB` / `RGB2XYZ` calls are always defined in
the BUILT state. -/
theorem C21_converter_always_assigned (raw p : ColorProfile) (t : STANDARD_PROFILE)
    (c : Chromaticities) (k : GAMMA_CURVE) (g : float) (impl : ConverterMethods) :
    Fintype.card ConverterClass = 9 ∧
    (∃! conv, (p.BuildTransformFromChroma_assign t).m_internalConverter = some conv) ∧
    (∀ cls : ConverterClass, ∃ (q : ColorProfile) (tag : STANDARD_PROFILE),
      (q.BuildTransformFromChroma_assign tag).m_internalConverter.map
        InternalColorConverter.variant = some cls) ∧
    (∀ q, fromStandardProfile raw t = Except.ok q →
      q.m_internalConverter.isSome = true ∧
      (∀ v, (q.XYZ2RGB impl v).isSome = true) ∧ (∀ v, (q.RGB2XYZ impl v).isSome = true) ∧
      (∀ vs, (q.XYZ2RGB_buffer impl vs).isSome = true) ∧
      (∀ vs, (q.RGB2XYZ_buffer impl vs).isSome = true)) ∧
    (∃ q, fromChromaticities raw c k g = Except.ok q ∧
      q.m_internalConverter.isSome = true ∧
      (∀ v, (q.XYZ2RGB impl v).isSome = true) ∧ (∀ v, (q.RGB2XYZ impl v).isSome = true) ∧
      (∀ vs, (q.XYZ2RGB_buffer impl vs).isSome = true) ∧
      (∀ vs, (q.RGB2XYZ_buffer impl vs).isSome = true)) ∧
    ((p.SetGamma g).m_internalConverter.isSome = true ∧
      (∀ v, ((p.SetGamma g).XYZ2RGB impl v).isSome = true) ∧
      (∀ v, ((p.SetGamma g).RGB2XYZ impl v).isSome = true)) ∧
    ((p.SetGammaCurve k).m_internalConverter.isSome = true ∧
      (∀ v, ((p.SetGammaCurve k).XYZ2RGB impl v).isSome = true) ∧
      (∀ v, ((p.SetGammaCurve k).RGB2XYZ impl v).isSome = true)) := by
  refine ⟨card_ConverterClass, ?_, ?_, ?_, ?_, ?_, ?_⟩
  · obtain ⟨conv, hc⟩ := Option.isSome_iff_exists.mp
      (BuildTransformFromChroma_assign_isSome p t)
    refine ⟨conv, hc, ?_⟩
    intro y hy
    rw [hc] at hy
    exact (Option.some.inj hy).symm
  · intro cls
    cases cls
    · exact ⟨ColorProfile.new, STANDARD_PROFILE.sRGB, rfl⟩
    · exact ⟨ColorProfile.new, STANDARD_PROFILE.ADOBE_RGB_D50, rfl⟩
    · exact ⟨ColorProfile.new, STANDARD_PROFILE.ADOBE_RGB_D65, rfl⟩
    · exact ⟨ColorProfile.new, STANDARD_PROFILE.PRO_PHOTO, rfl⟩
    · exact ⟨ColorProfile.new, STANDARD_PROFILE.RADIANCE, rfl⟩
    · refine ⟨ColorProfile.new, STANDARD_PROFILE.CUSTOM, ?_⟩
      norm_num [BuildTransformFromChroma_assign, ColorProfile.new,
        InternalColorConverter.variant]
    · refine ⟨{ ColorProfile.new with m_gamma := 2 }, STANDARD_PROFILE.CUSTOM, ?_⟩
      norm_num [BuildTransformFromChroma_assign, ColorProfile.new,
        InternalColorConverter.variant, abs_lt]
    · exact ⟨{ ColorProfile.new with m_gammaCurve := GAMMA_CURVE.sRGB },
        STANDARD_PROFILE.CUSTOM, rfl⟩
    · exact ⟨{ ColorProfile.new with m_gammaCurve := GAMMA_CURVE.PRO_PHOTO },
        STANDARD_PROFILE.CUSTOM, rfl⟩
  · intro q hq
    have hs : q.m_internalConverter.isSome = true := by
      cases t <;> simp only [fromStandardProfile, reduceCtorEq, Except.ok.injEq] at hq <;>
        (rw [← hq]; exact BuildTransformFromChroma_isSome _ _)
    exact ⟨hs, conversions_isSome q hs impl⟩
  · exact ⟨_, rfl, BuildTransformFromChroma_isSome _ _,
      conversions_isSome _ (BuildTransformFromChroma_isSome _ _) impl⟩
  · have hs : (p.SetGamma g).m_internalConverter.isSome = true :=
      BuildTransformFromChroma_isSome _ _
    exact ⟨hs, (conversions_isSome _ hs impl).1, (conversions_isSome _ hs impl).2.1⟩
  · have hs : (p.SetGammaCurve k).m_internalConverter.isSome = true :=
      BuildTransformFromChroma_isSome _ _
    exact ⟨hs, (conversions_isSome _ hs impl).1, (conversions_isSome _ hs impl).2.1⟩

end ColorProfile

namespace ColorProfile

/-- C21, amended, at the tag constructor for sRGB entered from the default profile: the
profile it produces holds a converter. -/
theorem C21_witness :
    ∃ q, fromStandardProfile ColorProfile.new STANDARD_PROFILE.sRGB = Except.ok q ∧
      q.m_internalConverter.isSome = true :=
  ⟨_, rfl,
    ((C21_converter_always_assigned ColorProfile.new ColorProfile.new STANDARD_PROFILE.sRGB
      Chromaticities.sRGB GAMMA_CURVE.sRGB 2.4
      ⟨fun _ v => v, fun _ v => v, fun _ vs => vs, fun _ vs => vs⟩).2.2.2.1 _ rfl).1⟩

/-- The state left by the build when the final tag is one of the five named profiles: the
canonical curve and exponent and the specialized converter of the tag. -/
theorem BuildTransformFromChroma_of_named (p : ColorProfile) (b : Bool) (T : STANDARD_PROFILE)
    (k : GAMMA_CURVE) (g : float) (conv : InternalColorConverter)
    (hT : canonicalGamma T = some (k, g)) (hc : dedicatedConverter T = some conv)
    (ht : p.BuildTransformFromChroma_recognize b = T) :
    p.BuildTransformFromChroma b =
      { p.BuildTransformFromChroma_matrices with
        m_gammaCurve := k, m_gamma := g, m_internalConverter := some conv } := by
  rw [BuildTransformFromChroma_eq, ht]
  cases T <;> simp only [canonicalGamma, dedicatedConverter, Option.some.injEq, Prod.mk.injEq,
    reduceCtorEq] at hT hc
  all_goals
    obtain ⟨rfl, rfl⟩ := hT
    subst hc
    rfl

/-- C22. Whenever the final tag after the optional gamma check is one of the five named
profiles P, for both values of the flag `_bCheckGammaCurveOverride`,
`BuildTransformFromChroma` stores P's canonical gamma curve and exponent and P's specialized
converter, whatever gamma the profile held. -/
theorem C22_named_tag_overwrites_gamma (p : ColorProfile) (b : Bool) (T : STANDARD_PROFILE)
    (k : GAMMA_CURVE) (g : float) (conv : InternalColorConverter)
    (hT : canonicalGamma T = some (k, g)) (hc : dedicatedConverter T = some conv)
    (ht : p.BuildTransformFromChroma_recognize b = T) :
    (p.BuildTransformFromChroma b).m_gammaCurve = k ∧
      (p.BuildTransformFromChroma b).m_gamma = g ∧
      (p.BuildTransformFromChroma b).m_internalConverter = some conv := by
  rw [BuildTransformFromChroma_of_named p b T k g conv hT hc ht]
  exact ⟨rfl, rfl, rfl⟩

/-- C22 at the sRGB chromaticities with the STANDARD curve and exponent 1.0:
`BuildTransformFromChroma( false )` ends with the curve sRGB, the exponent 2.4 and the
dedicated sRGB converter. -/
theorem C22_witness :
    profileOfsRGB.m_gammaCurve = GAMMA_CURVE.STANDARD ∧ profileOfsRGB.m_gamma = 1 ∧
      canonicalGamma STANDARD_PROFILE.sRGB = some (GAMMA_CURVE.sRGB, 2.4) ∧
      dedicatedConverter STANDARD_PROFILE.sRGB = some InternalColorConverter.sRGB ∧
      profileOfsRGB.BuildTransformFromChroma_recognize false = STANDARD_PROFILE.sRGB ∧
      (profileOfsRGB.BuildTransformFromChroma false).m_gammaCurve = GAMMA_CURVE.sRGB ∧
      (profileOfsRGB.BuildTransformFromChroma false).m_gamma = 2.4 ∧
      (profileOfsRGB.BuildTransformFromChroma false).m_internalConverter
        = some InternalColorConverter.sRGB := by
  have ht : profileOfsRGB.BuildTransformFromChroma_recognize false = STANDARD_PROFILE.sRGB := by
    have hF : profileOfsRGB.m_chromaticities.FindRecognizedChromaticity
        = STANDARD_PROFILE.sRGB := Chromaticities.FindRecognizedChromaticity_sRGB
    simp [BuildTransformFromChroma_recognize, hF]
  exact ⟨rfl, rfl, rfl, rfl, ht,
    C22_named_tag_overwrites_gamma profileOfsRGB false STANDARD_PROFILE.sRGB GAMMA_CURVE.sRGB
      2.4 InternalColorConverter.sRGB rfl rfl ht⟩

/-- C24. Constructing `ColorProfile( LINEAR )` installs the sRGB chromaticities with the
STANDARD curve and exponent 1.0, keeps that curve and exponent after the build, and stores
the generic no-gamma converter carrying the matrices computed from the sRGB chromaticities;
the converter is not the dedicated sRGB converter although the chromaticities are
recognized as sRGB. -/
theorem C24_LINEAR_profile (raw : ColorProfile) :
    ∃ p, fromStandardProfile raw STANDARD_PROFILE.LINEAR = Except.ok p ∧
      p = BuildTransformFromChroma
        { raw with m_chromaticities := Chromaticities.sRGB,
                   m_gammaCurve := GAMMA_CURVE.STANDARD, m_gamma := 1 } true ∧
      p.m_chromaticities = Chromaticities.sRGB ∧
      p.m_chromaticities.FindRecognizedChromaticity = STANDARD_PROFILE.sRGB ∧
      p.m_gammaCurve = GAMMA_CURVE.STANDARD ∧ p.m_gamma = 1 ∧
      p.m_internalConverter
        = some (InternalColorConverter.Generic_NoGamma p.m_RGB2XYZ p.m_XYZ2RGB) ∧
      p.m_internalConverter ≠ some InternalColorConverter.sRGB ∧
      p.m_RGB2XYZ = (BuildTransformFromChroma_matrices
        { raw with m_chromaticities := Chromaticities.sRGB }).m_RGB2XYZ ∧
      p.m_XYZ2RGB = (BuildTransformFromChroma_matrices
        { raw with m_chromaticities := Chromaticities.sRGB }).m_XYZ2RGB := by
  have hr := BuildTransformFromChroma_recognize_of_mismatch
    { raw with m_chromaticities := Chromaticities.sRGB,
               m_gammaCurve := GAMMA_CURVE.STANDARD, m_gamma := 1 }
    STANDARD_PROFILE.sRGB GAMMA_CURVE.sRGB GAMMA_EXPONENT_sRGB rfl
    Chromaticities.FindRecognizedChromaticity_sRGB (Or.inl (by simp))
  have hb := BuildTransformFromChroma_of_generic
    { raw with m_chromaticities := Chromaticities.sRGB,
               m_gammaCurve := GAMMA_CURVE.STANDARD, m_gamma := 1 } true (by rw [hr]; rfl)
  have hconv : (BuildTransformFromChroma
      { raw with m_chromaticities := Chromaticities.sRGB,
                 m_gammaCurve := GAMMA_CURVE.STANDARD, m_gamma := 1 } true).m_internalConverter
      = some (InternalColorConverter.Generic_NoGamma
          (BuildTransformFromChroma
            { raw with m_chromaticities := Chromaticities.sRGB,
                       m_gammaCurve := GAMMA_CURVE.STANDARD, m_gamma := 1 } true).m_RGB2XYZ
          (BuildTransformFromChroma
            { raw with m_chromaticities := Chromaticities.sRGB,
                       m_gammaCurve := GAMMA_CURVE.STANDARD, m_gamma := 1 } true).m_XYZ2RGB) := by
    rw [hb]
    have h1 : |(1 : float) - 1| < 1 / 1000 := by norm_num
    simp only [genericConverter, BuildTransformFromChroma_matrices, if_pos h1]
  refine ⟨_, rfl, rfl, ?_, ?_, ?_, ?_, hconv, ?_, ?_, ?_⟩
  · rw [BuildTransformFromChroma_m_chromaticities]
  · rw [BuildTransformFromChroma_m_chromaticities]
    exact Chromaticities.FindRecognizedChromaticity_sRGB
  · rw [hb]; rfl
  · rw [hb]; rfl
  · rw [hconv]; simp
  · rw [BuildTransformFromChroma_m_RGB2XYZ]; rfl
  · rw [BuildTransformFromChroma_m_XYZ2RGB]; rfl

end ColorProfile

/-! ## Idempotence of the build -/

namespace ColorProfile

/-- The matrix step run on a profile that holds the matrices of the matrix step, whatever
its gamma fields and converter, changes nothing. -/
theorem BuildTransformFromChroma_matrices_idem (p : ColorProfile) (k : GAMMA_CURVE) (g : float)
    (conv : Option InternalColorConverter) :
    BuildTransformFromChroma_matrices
        { p.BuildTransformFromChroma_matrices with
          m_gammaCurve := k, m_gamma := g, m_internalConverter := conv }
      = { p.BuildTransformFromChroma_matrices with
          m_gammaCurve := k, m_gamma := g, m_internalConverter := conv } := rfl

/-- The tag recognition reads the chromaticities, the gamma curve and the exponent only. -/
theorem BuildTransformFromChroma_recognize_congr (p q : ColorProfile)
    (hc : p.m_chromaticities = q.m_chromaticities) (hk : p.m_gammaCurve = q.m_gammaCurve)
    (hg : p.m_gamma = q.m_gamma) (b : Bool) :
    p.BuildTransformFromChroma_recognize b = q.BuildTransformFromChroma_recognize b := by
  simp only [BuildTransformFromChroma_recognize, EnsureGamma, hc, hk, hg]

/-- A final tag that is one of the five named profiles is the tag found from the
chromaticities. -/
theorem BuildTransformFromChroma_recognize_named (p : ColorProfile) (b : Bool)
    (k : GAMMA_CURVE) (g : float)
    (hT : canonicalGamma (p.BuildTransformFromChroma_recognize b) = some (k, g)) :
    p.m_chromaticities.FindRecognizedChromaticity = p.BuildTransformFromChroma_recognize b := by
  cases b
  · simp [BuildTransformFromChroma_recognize]
  · simp only [BuildTransformFromChroma_recognize, if_true] at hT ⊢
    split_ifs at hT ⊢ with h
    · simp [canonicalGamma] at hT
    · rfl

/-- A final tag found without the gamma check that is not one of the five named profiles
is also the final tag found with the gamma check. -/
theorem BuildTransformFromChroma_recognize_true_of_false (p : ColorProfile)
    (h : canonicalGamma (p.BuildTransformFromChroma_recognize false) = none) :
    p.BuildTransformFromChroma_recognize true = p.BuildTransformFromChroma_recognize false := by
  have hF : p.BuildTransformFromChroma_recognize false
      = p.m_chromaticities.FindRecognizedChromaticity := by
    simp [BuildTransformFromChroma_recognize]
  rw [hF] at h ⊢
  exact BuildTransformFromChroma_recognize_of_none p _ rfl h true

/-- A named tag has a specialized converter. -/
theorem dedicatedConverter_isSome_of_canonicalGamma (T : STANDARD_PROFILE) (k : GAMMA_CURVE)
    (g : float) (hT : canonicalGamma T = some (k, g)) :
    ∃ conv, dedicatedConverter T = some conv := by
  cases T <;> simp only [canonicalGamma, reduceCtorEq] at hT <;> exact ⟨_, rfl⟩

/-- Running the build with the gamma check on a built profile gives the profile back. -/
theorem BuildTransformFromChroma_idempotent (p0 : ColorProfile) (b : Bool) :
    (p0.BuildTransformFromChroma b).BuildTransformFromChroma true
      = p0.BuildTransformFromChroma b := by
  rcases hT : canonicalGamma (p0.BuildTransformFromChroma_recognize b) with _ | ⟨k, g⟩
  · -- the final tag is not a named profile
    have hb := BuildTransformFromChroma_of_generic p0 b hT
    have key : ∀ Q : ColorProfile,
        Q = { p0.BuildTransformFromChroma_matrices with
              m_internalConverter :=
                some (genericConverter p0.BuildTransformFromChroma_matrices) } →
        Q.BuildTransformFromChroma true = Q := by
      intro Q hQ
      have e : Q.BuildTransformFromChroma_recognize true
          = p0.BuildTransformFromChroma_recognize true := by
        subst hQ
        exact BuildTransformFromChroma_recognize_congr _ _ rfl rfl rfl true
      have hT2 : canonicalGamma (Q.BuildTransformFromChroma_recognize true) = none := by
        rw [e]
        cases b
        · rw [BuildTransformFromChroma_recognize_true_of_false _ hT]; exact hT
        · exact hT
      rw [BuildTransformFromChroma_of_generic Q true hT2]
      subst hQ
      rfl
    rw [hb]
    exact key _ rfl
  · -- the final tag is a named profile
    obtain ⟨conv, hc⟩ := dedicatedConverter_isSome_of_canonicalGamma _ k g hT
    have hF := BuildTransformFromChroma_recognize_named _ b k g hT
    have hb := BuildTransformFromChroma_of_named p0 b _ k g conv hT hc rfl
    have key : ∀ Q : ColorProfile,
        Q = { p0.BuildTransformFromChroma_matrices with
              m_gammaCurve := k, m_gamma := g, m_internalConverter := some conv } →
        Q.BuildTransformFromChroma true = Q := by
      intro Q hQ
      have hF2 : Q.m_chromaticities.FindRecognizedChromaticity
          = p0.BuildTransformFromChroma_recognize b := by
        subst hQ
        exact hF
      have hk : Q.m_gammaCurve = k := by subst hQ; rfl
      have hg : |g - Q.m_gamma| < 1 / 1000 := by
        have e : Q.m_gamma = g := by subst hQ; rfl
        rw [e]
        norm_num
      have hr := BuildTransformFromChroma_recognize_of_match Q _ k g hT hF2 hk hg true
      rw [BuildTransformFromChroma_of_named Q true _ k g conv hT hc hr]
      subst hQ
      rfl
    rw [hb]
    exact key _ rfl

/-- C25. `BuildTransformFromChroma( true )` is idempotent on every built profile (the state
left by `BuildTransformFromChroma` with either flag): running it again leaves the gamma
curve, the gamma exponent, both matrices and the converter unchanged (the whole state, in
fact), so `SetGamma( GetGamma() )` and `SetGammaCurve( GetGammaCurve() )` change nothing. -/
theorem C25_rebuild_is_idempotent (p0 : ColorProfile) (b : Bool) :
    ((p0.BuildTransformFromChroma b).BuildTransformFromChroma true).m_gammaCurve
        = (p0.BuildTransformFromChroma b).m_gammaCurve ∧
      ((p0.BuildTransformFromChroma b).BuildTransformFromChroma true).m_gamma
        = (p0.BuildTransformFromChroma b).m_gamma ∧
      ((p0.BuildTransformFromChroma b).BuildTransformFromChroma true).m_RGB2XYZ
        = (p0.BuildTransformFromChroma b).m_RGB2XYZ ∧
      ((p0.BuildTransformFromChroma b).BuildTransformFromChroma true).m_XYZ2RGB
        = (p0.BuildTransformFromChroma b).m_XYZ2RGB ∧
      ((p0.BuildTransformFromChroma b).BuildTransformFromChroma true).m_internalConverter
        = (p0.BuildTransformFromChroma b).m_internalConverter ∧
      (p0.BuildTransformFromChroma b).BuildTransformFromChroma true
        = p0.BuildTransformFromChroma b ∧
      (p0.BuildTransformFromChroma b).SetGamma (p0.BuildTransformFromChroma b).m_gamma
        = p0.BuildTransformFromChroma b ∧
      (p0.BuildTransformFromChroma b).SetGammaCurve (p0.BuildTransformFromChroma b).m_gammaCurve
        = p0.BuildTransformFromChroma b := by
  have h := BuildTransformFromChroma_idempotent p0 b
  refine ⟨by rw [h], by rw [h], by rw [h], by rw [h], by rw [h], h, ?_, ?_⟩
  · exact h
  · exact h

end ColorProfile

/-! ## The rows of the built matrix and the xyY conversions -/

/-- For a vector whose components sum to more than 1e-8, `XYZ2xyY` divides the first two
components by the sum and keeps the second one as luminance. -/
theorem XYZ2xyY_of_sum_gt (v : float3) (h : 1 / 100000000 < v.x + v.y + v.z) :
    XYZ2xyY v = ⟨v.x / (v.x + v.y + v.z), v.y / (v.x + v.y + v.z), v.y⟩ := by
  simp only [XYZ2xyY, gt_iff_lt, h, if_true, float3.mk.injEq, and_true]
  constructor <;> ring

namespace ColorProfile

end ColorProfile

/-- C26. `XYZ2xyY` and `xyY2XYZ` are mutually inverse away from their guards (exact
arithmetic): `xyY2XYZ( XYZ2xyY( X, Y, Z ) ) = (X, Y, Z)` when X+Y+Z > 1e-8 and
Y/(X+Y+Z) > 1e-8, and `XYZ2xyY( xyY2XYZ( x, y, Y ) ) = (x, y, Y)` when y > 1e-8 and
Y/y > 1e-8. -/
theorem C26_xyY_XYZ_mutually_inverse :
    (∀ v : float3, v.x + v.y + v.z > 1 / 100000000 →
        v.y / (v.x + v.y + v.z) > 1 / 100000000 → xyY2XYZ (XYZ2xyY v) = v) ∧
      (∀ v : float3, v.y > 1 / 100000000 → v.z / v.y > 1 / 100000000 →
        XYZ2xyY (xyY2XYZ v) = v) := by
  constructor
  · intro v hs hy
    have hs0 : 0 < v.x + v.y + v.z := lt_trans (by norm_num) hs
    have hy0 : 0 < v.y := by
      have h1 : 0 < v.y / (v.x + v.y + v.z) := lt_trans (by norm_num) hy
      exact (div_pos_iff_of_pos_right hs0).1 h1
    have hy' : 1 / 100000000 < v.y * (1 / (v.x + v.y + v.z)) := by
      rw [mul_one_div]; exact hy
    obtain ⟨x, y, z⟩ := v
    simp only [XYZ2xyY, xyY2XYZ, gt_iff_lt] at hs hy' ⊢
    simp only [hs, hy', if_true, float3.mk.injEq, true_and]
    have h1 : x + y + z ≠ 0 := ne_of_gt hs0
    have h2 : y ≠ 0 := ne_of_gt hy0
    constructor
    · field_simp
    · field_simp
      ring
  · intro v hy hY
    have hy0 : 0 < v.y := lt_trans (by norm_num) hy
    have hY0 : 0 < v.z := by
      have h1 : 0 < v.z / v.y := lt_trans (by norm_num) hY
      exact (div_pos_iff_of_pos_right hy0).1 h1
    obtain ⟨x, y, Y⟩ := v
    have h1 : y ≠ 0 := ne_of_gt hy0
    have h2 : Y ≠ 0 := ne_of_gt hY0
    have hsum : x * (Y / y) + Y + (1 - x - y) * (Y / y) = Y / y := by
      field_simp
      ring
    simp only [xyY2XYZ, gt_iff_lt] at hy hY ⊢
    simp only [hy, if_true]
    rw [XYZ2xyY_of_sum_gt _ (by simpa only [hsum] using hY)]
    simp only [hsum, float3.mk.injEq, and_true]
    constructor <;> field_simp


/-- C26 at (X, Y, Z) = (1, 2, 3) and at (x, y, Y) = (1/4, 1/2, 3). -/
theorem C26_witness :
    xyY2XYZ (XYZ2xyY ⟨1, 2, 3⟩) = ⟨1, 2, 3⟩ ∧ XYZ2xyY (xyY2XYZ ⟨1 / 4, 1 / 2, 3⟩) = ⟨1 / 4, 1 / 2, 3⟩ :=
  ⟨C26_xyY_XYZ_mutually_inverse.1 ⟨1, 2, 3⟩ (by norm_num) (by norm_num),
    C26_xyY_XYZ_mutually_inverse.2 ⟨1 / 4, 1 / 2, 3⟩ (by norm_num) (by norm_num)⟩

/-! ## Monotonicity of the sRGB encoding -/

/-- The value of `Linear2sRGB` below the threshold. -/
theorem Linear2sRGB_of_lt (c : ℝ) (h : c < 0.0031308) : Linear2sRGB c = c * 12.92 := by
  unfold Linear2sRGB
  rw [if_pos h]

/-- The value of `Linear2sRGB` from the threshold on. -/
theorem Linear2sRGB_of_ge (c : ℝ) (h : 0.0031308 ≤ c) :
    Linear2sRGB c = 1.055 * c ^ ((5 : ℝ) / 12) - 0.055 := by
  unfold Linear2sRGB
  rw [if_neg (not_lt.mpr h), GAMMA_EXPONENT_sRGB_cast]
  norm_num

/-- The value of `Linear2sRGB` at the threshold lies between 0.040449906 and 0.0404499223:
below the limit 0.040449936 of the linear segment. -/
theorem Linear2sRGB_threshold_bounds :
    0.040449906 < Linear2sRGB 0.0031308 ∧ Linear2sRGB 0.0031308 < 0.04044992231 := by
  rw [Linear2sRGB_of_ge _ (le_refl _)]
  have h1 : (0.090473845 : ℝ) ≤ (0.0031308 : ℝ) ^ ((5 : ℝ) / 12) :=
    le_rpow_five_twelfths _ _ (by norm_num) (by norm_num) (by norm_num)
  have h2 : (0.0031308 : ℝ) ^ ((5 : ℝ) / 12) ≤ 0.09047386 :=
    rpow_five_twelfths_le _ _ (by norm_num) (by norm_num) (by norm_num)
  generalize (0.0031308 : ℝ) ^ ((5 : ℝ) / 12) = x at h1 h2 ⊢
  norm_num at h1 h2 ⊢
  constructor <;> linarith

/-- C27, as stated, fails: a = 0.0031307999 and b = 0.0031308 lie in [0,1] with a <= b, and
`Linear2sRGB( b )` (the power-law branch, about 0.04044990748) is below `Linear2sRGB( a )`
(the linear branch, 0.040449934708). -/
theorem C27_counterexample :
    (0 : ℝ) ≤ 0.0031307999 ∧ (0.0031307999 : ℝ) ≤ 0.0031308 ∧ (0.0031308 : ℝ) ≤ 1 ∧
      Linear2sRGB 0.0031308 < Linear2sRGB 0.0031307999 := by
  refine ⟨by norm_num, by norm_num, by norm_num, ?_⟩
  rw [Linear2sRGB_of_lt 0.0031307999 (by norm_num)]
  have h := Linear2sRGB_threshold_bounds.2
  generalize Linear2sRGB 0.0031308 = y at h ⊢
  norm_num at h ⊢
  linarith

/-- C27, amended. `Linear2sRGB` maps 0 to 0 and 1 to 1, and for all a <= b in [0,1]:
`Linear2sRGB( a ) <= Linear2sRGB( b )` when both lie below the threshold 0.0031308 or both
lie at or above it, and in every case `Linear2sRGB( a ) <= Linear2sRGB( b ) + 3e-8`
(real-arithmetic model): the function drops by less than 3e-8 where it switches from
12.92*c to 1.055*c^(1/2.4) - 0.055. -/
theorem C27_monotone_up_to_threshold_gap (a b : ℝ) (h0 : 0 ≤ a) (hab : a ≤ b) (h1 : b ≤ 1) :
    Linear2sRGB 0 = 0 ∧ Linear2sRGB 1 = 1 ∧
      (b < 0.0031308 → Linear2sRGB a ≤ Linear2sRGB b) ∧
      (0.0031308 ≤ a → Linear2sRGB a ≤ Linear2sRGB b) ∧
      Linear2sRGB a ≤ Linear2sRGB b + 3 / 100000000 := by
  have _ := h0
  have _ := h1
  have hlow : b < 0.0031308 → Linear2sRGB a ≤ Linear2sRGB b := by
    intro hb
    rw [Linear2sRGB_of_lt a (lt_of_le_of_lt hab hb), Linear2sRGB_of_lt b hb]
    linarith
  have hhigh : ∀ u v : ℝ, 0.0031308 ≤ u → u ≤ v → Linear2sRGB u ≤ Linear2sRGB v := by
    intro u v hu huv
    rw [Linear2sRGB_of_ge u hu, Linear2sRGB_of_ge v (le_trans hu huv)]
    have hu0 : (0 : ℝ) ≤ u := le_trans (by norm_num) hu
    have := Real.rpow_le_rpow hu0 huv (by norm_num : (0 : ℝ) ≤ 5 / 12)
    linarith
  refine ⟨?_, ?_, hlow, fun ha => hhigh a b ha hab, ?_⟩
  · rw [Linear2sRGB_of_lt 0 (by norm_num)]
    norm_num
  · rw [Linear2sRGB_of_ge 1 (by norm_num), Real.one_rpow]
    norm_num
  · by_cases hb : b < 0.0031308
    · have := hlow hb
      linarith
    · have hb2 : (0.0031308 : ℝ) ≤ b := not_lt.mp hb
      by_cases ha : a < 0.0031308
      · have h2 := hhigh 0.0031308 b (le_refl _) hb2
        have h3 := Linear2sRGB_threshold_bounds.1
        rw [Linear2sRGB_of_lt a ha]
        generalize Linear2sRGB 0.0031308 = y at h2 h3
        generalize Linear2sRGB b = z at h2 ⊢
        norm_num at ha h3 ⊢
        linarith
      · have := hhigh a b (not_lt.mp ha) hab
        linarith

/-- C27, amended, at a = 0.0031307999 and b = 0.0031308, the two sides of the threshold. -/
theorem C27_witness :
    (0 : ℝ) ≤ 0.0031307999 ∧ (0.0031307999 : ℝ) ≤ 0.0031308 ∧ (0.0031308 : ℝ) ≤ 1 ∧
      Linear2sRGB 0 = 0 ∧ Linear2sRGB 1 = 1 ∧
      Linear2sRGB 0.0031307999 ≤ Linear2sRGB 0.0031308 + 3 / 100000000 :=
  ⟨by norm_num, by norm_num, by norm_num,
    (C27_monotone_up_to_threshold_gap 0.0031307999 0.0031308 (by norm_num) (by norm_num)
      (by norm_num)).1,
    (C27_monotone_up_to_threshold_gap 0.0031307999 0.0031308 (by norm_num) (by norm_num)
      (by norm_num)).2.1,
    (C27_monotone_up_to_threshold_gap 0.0031307999 0.0031308 (by norm_num) (by norm_num)
      (by norm_num)).2.2.2.2⟩

/-! ## The image file functions -/

namespace ImageFile

/-- C28 fails in the code: the `case` statements of the conversion switches of
`ConvertFrom` have no `break`. Whatever the flag test, as long as it does not mark the 8-bit
integer formats and R16: a source of 8 bits per pixel converted to RGB8 (24 bits per pixel)
and a source of 16 bits per pixel converted to R8 or RGB8 end with a bitmap of 32 bits per
pixel; a source of 24 or 32 bits per pixel converted to R8 (8 bits per pixel) falls into the
`throw` of `case 16`; a source whose standard bitmap has 4 bits per pixel leaves `m_bitmap`
null. The conversions 8 -> 32 and 32 -> 24, the last statements of their switch, give the
bits per pixel of the target. -/
theorem C28_missing_break_falls_through :
    PixelFormat2FIT PIXEL_FORMAT.RGB8 = FREE_IMAGE_TYPE.FIT_BITMAP ∧
      PixelFormat2FIT PIXEL_FORMAT.R8 = FREE_IMAGE_TYPE.FIT_BITMAP ∧
      PixelFormat2BPP PIXEL_FORMAT.RGB8 = 24 ∧ PixelFormat2BPP PIXEL_FORMAT.R8 = 8 ∧
      ∀ flag : PIXEL_FORMAT → Bool,
        flag PIXEL_FORMAT.R8 = false → flag PIXEL_FORMAT.RGB8 = false →
        flag PIXEL_FORMAT.RGBA8 = false → flag PIXEL_FORMAT.R16 = false →
        ConvertFrom flag PIXEL_FORMAT.R8 (some ⟨FREE_IMAGE_TYPE.FIT_BITMAP, 8⟩) none
            PIXEL_FORMAT.RGB8
          = ConvertOutcome.completed (some ⟨FREE_IMAGE_TYPE.FIT_BITMAP, 32⟩) ∧
        ConvertFrom flag PIXEL_FORMAT.R16 (some ⟨FREE_IMAGE_TYPE.FIT_BITMAP, 16⟩) none
            PIXEL_FORMAT.R8
          = ConvertOutcome.completed (some ⟨FREE_IMAGE_TYPE.FIT_BITMAP, 32⟩) ∧
        ConvertFrom flag PIXEL_FORMAT.R16 (some ⟨FREE_IMAGE_TYPE.FIT_BITMAP, 16⟩) none
            PIXEL_FORMAT.RGB8
          = ConvertOutcome.completed (some ⟨FREE_IMAGE_TYPE.FIT_BITMAP, 32⟩) ∧
        ConvertFrom flag PIXEL_FORMAT.RGB8 (some ⟨FREE_IMAGE_TYPE.FIT_BITMAP, 24⟩) none
            PIXEL_FORMAT.R8
          = ConvertOutcome.thrown "24 -> 16 bits per pixel is not a supported conversion!" ∧
        ConvertFrom flag PIXEL_FORMAT.RGBA8 (some ⟨FREE_IMAGE_TYPE.FIT_BITMAP, 32⟩) none
            PIXEL_FORMAT.R8
          = ConvertOutcome.thrown "32 -> 16 bits per pixel is not a supported conversion!" ∧
        ConvertFrom flag PIXEL_FORMAT.R8 (some ⟨FREE_IMAGE_TYPE.FIT_BITMAP, 4⟩) none
            PIXEL_FORMAT.RGB8
          = ConvertOutcome.completed none ∧
        ConvertFrom flag PIXEL_FORMAT.R8 (some ⟨FREE_IMAGE_TYPE.FIT_BITMAP, 8⟩) none
            PIXEL_FORMAT.RGBA8
          = ConvertOutcome.completed (some ⟨FREE_IMAGE_TYPE.FIT_BITMAP, 32⟩) ∧
        ConvertFrom flag PIXEL_FORMAT.RGBA8 (some ⟨FREE_IMAGE_TYPE.FIT_BITMAP, 32⟩) none
            PIXEL_FORMAT.RGB8
          = ConvertOutcome.completed (some ⟨FREE_IMAGE_TYPE.FIT_BITMAP, 24⟩) := by
  refine ⟨rfl, rfl, rfl, rfl, ?_⟩
  intro flag h1 h2 h3 h4
  refine ⟨?_, ?_, ?_, ?_, ?_, ?_, ?_, ?_⟩ <;>
    simp only [ConvertFrom, h1, h2, h3, h4, Bool.or_self, Bool.false_eq_true, if_false] <;>
    decide

/-- C28 at the flag test that marks the half-precision formats: an R8 source converted to
RGB8 ends with a bitmap of 32 bits per pixel, not 24. -/
theorem C28_witness :
    ConvertFrom halfPrecisionFormats PIXEL_FORMAT.R8 (some ⟨FREE_IMAGE_TYPE.FIT_BITMAP, 8⟩)
        none PIXEL_FORMAT.RGB8
      = ConvertOutcome.completed (some ⟨FREE_IMAGE_TYPE.FIT_BITMAP, 32⟩) :=
  (C28_missing_break_falls_through.2.2.2.2 halfPrecisionFormats rfl rfl rfl rfl).1

/-- A name without `.` is read at every index from the start index down to 0; the index
then wraps to `SIZE_MAX`, outside the string. -/
theorem searchLastDot_no_dot (name : List Char) (hdot : '.' ∉ name)
    (hlen : name.length < SIZE_MAX) (i : Nat) (hi : i < name.length) :
    searchLastDot name (i + 2) i = some (SearchOutcome.readOutside SIZE_MAX) := by
  have hread : ∀ j, j < name.length → ∃ ch, readChar name j = some ch ∧ ch ≠ '.' := by
    intro j hj
    refine ⟨name.get ⟨j, hj⟩, ?_, ?_⟩
    · simp only [readChar, hj, if_true]
      exact List.get?_eq_get hj
    · intro h
      exact hdot (h ▸ List.get_mem name j hj)
  have hout : readChar name SIZE_MAX = none := by
    simp only [readChar]
    rw [if_neg (by omega), if_neg (by omega)]
  induction i with
  | zero =>
    obtain ⟨ch, h1, h2⟩ := hread 0 hi
    have e : (0 + SIZE_MAX) % (SIZE_MAX + 1) = SIZE_MAX := by
      rw [Nat.zero_add]; exact Nat.mod_eq_of_lt (Nat.lt_succ_self _)
    simp only [searchLastDot, h1, h2, if_false, e, hout]
  | succ i ih =>
    obtain ⟨ch, h1, h2⟩ := hread (i + 1) hi
    have e : (i + 1 + SIZE_MAX) % (SIZE_MAX + 1) = i := by
      have : i + 1 + SIZE_MAX = i + (SIZE_MAX + 1) := by omega
      rw [this, Nat.add_mod_right]
      exact Nat.mod_eq_of_lt (by omega)
    have ih2 := ih (by omega)
    rw [show i + 1 + 2 = (i + 2) + 1 from rfl]
    simp only [searchLastDot, h1, h2, if_false, e]
    exact ih2

/-- The search loop of a call on a name without `.` that is not empty. -/
theorem searchLastDot_from_last (name : List Char) (hdot : '.' ∉ name)
    (hlen : name.length < SIZE_MAX) (hne : name ≠ []) :
    searchLastDot name (name.length + 1) ((name.length + SIZE_MAX) % (SIZE_MAX + 1))
      = some (SearchOutcome.readOutside SIZE_MAX) := by
  obtain ⟨n, hn⟩ : ∃ n, name.length = n + 1 :=
    Nat.exists_eq_succ_of_ne_zero (fun h => hne (List.length_eq_zero.mp h))
  have e : (n + 1 + SIZE_MAX) % (SIZE_MAX + 1) = n := by
    have : n + 1 + SIZE_MAX = n + (SIZE_MAX + 1) := by omega
    rw [this, Nat.add_mod_right]
    exact Nat.mod_eq_of_lt (by omega)
  have h := searchLastDot_no_dot name hdot hlen n (by omega)
  rw [hn, e]
  exact h

/-- A call whose search loop reads outside the string ends with that read. -/
theorem GetFileTypeFromFileNameOnly_of_readOutside (fuel : Nat) (name : List Char) (index : Nat)
    (h : searchLastDot name fuel ((name.length + SIZE_MAX) % (SIZE_MAX + 1))
      = some (SearchOutcome.readOutside index)) :
    GetFileTypeFromFileNameOnly fuel (some name) = some (FileTypeOutcome.readOutside index) := by
  unfold GetFileTypeFromFileNameOnly
  simp only [h]

/-- C29 fails in the code: the index of the backward search is a `size_t`, so the test
`extensionIndex >= 0` never stops the loop. For the name README (no `.`) the search reads
the indices 5 down to 0, wraps to `SIZE_MAX` and reads outside the string; for the empty name
it starts at `SIZE_MAX`; so it does for every name without `.`. The name .PNG, whose last `.`
is at index 0, gives UNKNOWN although .PNG is a known extension; a.png gives PNG and the
null name UNKNOWN. -/
theorem C29_search_reads_outside_the_string :
    GetFileTypeFromFileNameOnly 7 (some ['R', 'E', 'A', 'D', 'M', 'E'])
        = some (FileTypeOutcome.readOutside SIZE_MAX) ∧
      GetFileTypeFromFileNameOnly 1 (some [])
        = some (FileTypeOutcome.readOutside SIZE_MAX) ∧
      GetFileTypeFromFileNameOnly 4 (some ['.', 'P', 'N', 'G'])
        = some (FileTypeOutcome.returned FILE_FORMAT.UNKNOWN) ∧
      GetFileTypeFromFileNameOnly 4 (some ['a', '.', 'p', 'n', 'g'])
        = some (FileTypeOutcome.returned FILE_FORMAT.PNG) ∧
      GetFileTypeFromFileNameOnly 0 none
        = some (FileTypeOutcome.returned FILE_FORMAT.UNKNOWN) ∧
      (∀ name : List Char, '.' ∉ name → name.length < SIZE_MAX →
        GetFileTypeFromFileNameOnly (name.length + 1) (some name)
          = some (FileTypeOutcome.readOutside SIZE_MAX)) := by
  refine ⟨by decide, by decide, by decide, by decide, rfl, ?_⟩
  intro name hdot hlen
  by_cases hne : name = []
  · subst hne
    rfl
  · exact GetFileTypeFromFileNameOnly_of_readOutside _ _ _
      (searchLastDot_from_last name hdot hlen hne)

/-- The calls run in order: the first one first. -/
theorem runCalls_cons (c : LifetimeCall) (cs : List LifetimeCall) (s : FreeImageUsage) :
    runCalls (c :: cs) s = runCalls cs (c.effect s) := rfl

/-- The calls run in order: the last one last. -/
theorem runCalls_concat (cs : List LifetimeCall) (c : LifetimeCall) (s : FreeImageUsage) :
    runCalls (cs ++ [c]) s = c.effect (runCalls cs s) := by
  simp only [runCalls, List.foldl_append, List.foldl_cons, List.foldl_nil]

/-- The counter after `k` calls of `Init`, as long as it stays below 2^32. -/
theorem runCalls_replicate_Init (k : Nat) (s : FreeImageUsage)
    (h : s.ms_freeImageUsageRefCount + k < 2 ^ 32) :
    (runCalls (List.replicate k LifetimeCall.Init) s).ms_freeImageUsageRefCount
      = s.ms_freeImageUsageRefCount + k := by
  induction k generalizing s with
  | zero => rfl
  | succ k ih =>
    have h1 : (UseFreeImage s).ms_freeImageUsageRefCount = s.ms_freeImageUsageRefCount + 1 :=
      Nat.mod_eq_of_lt (by omega)
    have h2 := ih (UseFreeImage s) (by rw [h1]; omega)
    rw [h1] at h2
    rw [List.replicate_succ, runCalls_cons]
    show (runCalls (List.replicate k LifetimeCall.Init) (UseFreeImage s)).ms_freeImageUsageRefCount
      = s.ms_freeImageUsageRefCount + (k + 1)
    rw [h2]
    omega

/-- C30 fails in the code: the default constructor does not call `UseFreeImage` and every
`Init` / `Load` call does. From the counter 0, a default-constructed and destroyed object
leaves the counter at 2^32 - 1 (decremented below zero); from the counter 1 with the library
initialised it leaves 0 and the library deinitialised; construction from dimensions followed
by `Init` and destruction leaves 1 and by k calls of `Init` leaves k more than before. The
two lifetimes with exactly one call of `UseFreeImage` evaluated last are balanced. -/
theorem C30_usage_count_is_not_balanced :
    runCalls [LifetimeCall.constructDefault, LifetimeCall.destruct] ⟨0, false⟩
        = ⟨2 ^ 32 - 1, false⟩ ∧
      runCalls [LifetimeCall.constructDefault, LifetimeCall.destruct] ⟨1, true⟩
        = ⟨0, false⟩ ∧
      runCalls [LifetimeCall.constructFromDimensions, LifetimeCall.Init, LifetimeCall.destruct]
          ⟨0, false⟩ = ⟨1, true⟩ ∧
      runCalls [LifetimeCall.constructFromFile, LifetimeCall.LoadFile, LifetimeCall.LoadMemory,
          LifetimeCall.destruct] ⟨0, false⟩ = ⟨2, true⟩ ∧
      runCalls [LifetimeCall.constructDefault, LifetimeCall.LoadFile, LifetimeCall.destruct]
          ⟨0, false⟩ = ⟨0, false⟩ ∧
      runCalls [LifetimeCall.constructFromDimensions, LifetimeCall.destruct] ⟨0, false⟩
        = ⟨0, false⟩ ∧
      (∀ (k : Nat) (s : FreeImageUsage), s.ms_freeImageUsageRefCount + k + 1 < 2 ^ 32 →
        (runCalls (LifetimeCall.constructFromDimensions
            :: (List.replicate k LifetimeCall.Init ++ [LifetimeCall.destruct]))
          s).ms_freeImageUsageRefCount = s.ms_freeImageUsageRefCount + k) := by
  refine ⟨by decide, by decide, by decide, by decide, by decide, by decide, ?_⟩
  intro k s h
  have h1 : (UseFreeImage s).ms_freeImageUsageRefCount = s.ms_freeImageUsageRefCount + 1 :=
    Nat.mod_eq_of_lt (by omega)
  have h2 := runCalls_replicate_Init k (UseFreeImage s) (by rw [h1]; omega)
  rw [h1] at h2
  rw [runCalls_cons, runCalls_concat]
  show ((runCalls (List.replicate k LifetimeCall.Init)
      (UseFreeImage s)).ms_freeImageUsageRefCount + (2 ^ 32 - 1)) % 2 ^ 32
    = s.ms_freeImageUsageRefCount + k
  rw [h2]
  have e : s.ms_freeImageUsageRefCount + 1 + k + (2 ^ 32 - 1)
      = s.ms_freeImageUsageRefCount + k + 2 ^ 32 := by omega
  rw [e, Nat.add_mod_right]
  exact Nat.mod_eq_of_lt (by omega)

end ImageFile

end ImageUtilityLib
